import Mathlib

/-!
Verification of the TMEP trademark-assessment engine
(`nice_classification_db.py`, `tmep_1401_assessor.py`, `tmep_1402_pillar2.py`,
`tmep_1403_pillar3.py`).

The Python modules are shallowly embedded below.  Python strings are modelled
by `String`, Python ints by `Int` (scores, which are sums of the literals
10/5/2, by `Nat`), Python lists by `List`, Python dicts by association lists
in insertion order (CPython dicts iterate in insertion order), and the
mutable `self.findings` list of each assessor by explicit state passing.
Python's `str.lower` is modelled per-character with `Char.toLower`, which
agrees with CPython on ASCII (every string constant appearing in the rules is
ASCII).  The regular expressions used by the source are word-boundary
searches of string literals; they are modelled by direct scans over character
lists, with `\w` read as `[A-Za-z0-9_]`.
-/

namespace TMEP

/-- Python `str` whitespace (` \t\n\r\x0b\x0c`), as used by `str.strip`,
`str.split()` and the regex class `\s`. -/
def pyIsSpace (c : Char) : Bool :=
  c = ' ' || c = '\t' || c = '\n' || c = '\r' || c = '\x0b' || c = '\x0c'

/-- Python `str.lower` (per-character; agrees with CPython on ASCII). -/
def pyLower (s : String) : String :=
  String.mk (s.toList.map Char.toLower)

/-- Python `str.strip()` (no argument: strips whitespace on both ends). -/
def pyStrip (s : String) : String :=
  String.mk (((s.toList.dropWhile pyIsSpace).reverse.dropWhile pyIsSpace).reverse)

/-- `listStarts pat l` : `pat` begins the list `l`. -/
def listStarts : List Char → List Char → Bool
  | [], _ => true
  | _ :: _, [] => false
  | p :: ps, c :: cs => p = c && listStarts ps cs

/-- `listHasSub pat l` : `pat` occurs contiguously inside `l`
(Python's `pat in l` on strings). -/
def listHasSub (pat : List Char) : List Char → Bool
  | [] => pat.isEmpty
  | c :: cs => listStarts pat (c :: cs) || listHasSub pat cs

/-- Python's substring test `needle in hay`. -/
def strIn (needle hay : String) : Bool :=
  listHasSub needle.toList hay.toList

/-- Helper for `pySplitWs`: split a character list on runs of whitespace. -/
def splitWsGo : List Char → List Char → List (List Char)
  | [], acc => if acc.isEmpty then [] else [acc.reverse]
  | c :: cs, acc =>
    if pyIsSpace c then
      if acc.isEmpty then splitWsGo cs [] else acc.reverse :: splitWsGo cs []
    else splitWsGo cs (c :: acc)

/-- Python `str.split()` with no argument: split on whitespace runs,
discarding empty pieces. -/
def pySplitWs (s : String) : List String :=
  (splitWsGo s.toList []).map String.mk

/-- Helper for `pySplitChar`. -/
def splitCharGo (sep : Char) : List Char → List Char → List (List Char)
  | [], acc => [acc.reverse]
  | c :: cs, acc =>
    if c = sep then acc.reverse :: splitCharGo sep cs []
    else splitCharGo sep cs (c :: acc)

/-- Python `str.split(sep)` for a one-character separator (also
`re.split(r";", s)`): empty pieces are kept. -/
def pySplitChar (sep : Char) (s : String) : List String :=
  (splitCharGo sep s.toList []).map String.mk

/-- Python `str.replace(old, new)` for one-character arguments. -/
def pyReplaceChar (old new : Char) (s : String) : String :=
  String.mk (s.toList.map fun c => if c = old then new else c)

/-- The regex word class `\w`, read as `[A-Za-z0-9_]`. -/
def wordChar (c : Char) : Bool :=
  c.isAlpha || c.isDigit || c = '_'

/-- One candidate match position for the regex `\bpat\b` (for a literal `pat`
beginning and ending with word characters): `pat` occurs at index `i`, the
character before it (if any) is not a word character, and the character after
it (if any) is not a word character. -/
def wordHitAt (pat s : List Char) (i : Nat) : Bool :=
  listStarts pat (s.drop i) &&
  (i == 0 || !wordChar (s.getD (i - 1) ' ')) &&
  (match s.drop (i + pat.length) with
   | [] => true
   | d :: _ => !wordChar d)

/-- `re.search(rf"\b{pat}\b", s)` for a literal `pat` whose first and last
characters are word characters (true of every pattern the source uses).
Case folding is done by the caller (both `pat` and `s` lowercase). -/
def searchWord (pat s : String) : Bool :=
  (List.range (s.toList.length + 1)).any (wordHitAt pat.toList s.toList)

/-- Number of matches of `re.findall(rf"\b{pat}\b", s)`.  Bounded occurrences
of a fixed word cannot overlap, so this equals the number of hit positions. -/
def countWord (pat s : String) : Nat :=
  (List.range (s.toList.length + 1)).countP (fun i => wordHitAt pat.toList s.toList i)

/-- Trailing context of the vague-term regex `\bterm(?:\b|\.|\s|$)`:
at index `j` just after the matched term whose last character is `last`,
the group matches at end of string (`$`), at a word-boundary (`\b`), before a
literal dot, or before whitespace. -/
def vagueAfter (last : Char) (s : List Char) (j : Nat) : Bool :=
  match s.drop j with
  | [] => true
  | d :: _ => (wordChar last != wordChar d) || d = '.' || pyIsSpace d

/-- One candidate match position for `\bterm(?:\b|\.|\s|$)` (the pattern of
`detect_vague_terms`; every vague term starts with a word character). -/
def vagueHitAt (pat s : List Char) (i : Nat) : Bool :=
  listStarts pat (s.drop i) &&
  (i == 0 || !wordChar (s.getD (i - 1) ' ')) &&
  vagueAfter (pat.getLastD ' ') s (i + pat.length)

/-- `re.search(rf"\b{re.escape(term)}(?:\b|\.|\s|$)", s)` (both sides
lowercase). -/
def searchVague (pat s : String) : Bool :=
  (List.range (s.toList.length + 1)).any (vagueHitAt pat.toList s.toList)

/-- The alternation `(for|in|of|namely|consisting)\b` of the
`services`-qualifier regex, tested at the head of `l`. -/
def qualWordAt (l : List Char) : Bool :=
  ["for", "in", "of", "namely", "consisting"].any fun w =>
    listStarts w.toList l &&
    (match l.drop w.toList.length with
     | [] => true
     | d :: _ => !wordChar d)

/-- After at least one whitespace character, skip the rest of the whitespace
run and test the qualifier alternation (`\s+` is effectively maximal here
because no qualifier starts with whitespace). -/
def afterSpacesQual : List Char → Bool
  | [] => false
  | d :: ds => if pyIsSpace d then afterSpacesQual ds else qualWordAt (d :: ds)

/-- One candidate match position for
`\bservices\s+(for|in|of|namely|consisting)\b`. -/
def servicesQualAt (s : List Char) (i : Nat) : Bool :=
  listStarts "services".toList (s.drop i) &&
  (i == 0 || !wordChar (s.getD (i - 1) ' ')) &&
  (match s.drop (i + 8) with
   | [] => false
   | d :: ds => pyIsSpace d && afterSpacesQual ds)

/-- `re.search(r"\bservices\s+(for|in|of|namely|consisting)\b", s)`
(both sides lowercase). -/
def searchServicesQual (s : String) : Bool :=
  (List.range (s.toList.length + 1)).any (servicesQualAt s.toList)

/-- Helper for `wordRuns4`: collect maximal runs of word characters. -/
def wordRunsGo : List Char → List Char → List (List Char)
  | [], acc => if acc.isEmpty then [] else [acc.reverse]
  | c :: cs, acc =>
    if wordChar c then wordRunsGo cs (c :: acc)
    else if acc.isEmpty then wordRunsGo cs []
    else acc.reverse :: wordRunsGo cs []

/-- `re.findall(r"\b\w{4,}\b", s)`: the maximal word-character runs of length
at least 4.  (`\w{4,}` is greedy, so each match is a full maximal run.) -/
def wordRuns4 (s : String) : List String :=
  ((wordRunsGo s.toList []).filter (fun r => 4 ≤ r.length)).map String.mk

/-- `re.search(r"[\(\)\[\]\{\}]", s)`: does `s` contain a parenthesis,
bracket or brace character? -/
def anyBracket (s : String) : Bool :=
  s.toList.any fun c =>
    c = '(' || c = ')' || c = '[' || c = ']' || c = '\x7b' || c = '\x7d'

/-- Python `', '.join` and friends. -/
def pyJoin (sep : String) (parts : List String) : String :=
  String.intercalate sep parts

/-- Python `repr` of a list of ints, e.g. `[25, 30]`
(used by f-strings that interpolate a list directly). -/
def pyIntListRepr (l : List Int) : String :=
  "[" ++ pyJoin ", " (l.map toString) ++ "]"

/-- Python string slice `s[:n]`. -/
def pyTake (n : Nat) (s : String) : String :=
  String.mk (s.toList.take n)

/-- Stable ascending insertion for `pySortInt` (Python `sorted` on ints). -/
def insAscInt (x : Int) : List Int → List Int
  | [] => [x]
  | y :: ys => if x < y then x :: y :: ys else y :: insAscInt x ys

/-- Python `sorted` on a list of ints (Timsort is stable; on ints any sorted
permutation keeping duplicates is the same list). -/
def pySortInt (l : List Int) : List Int :=
  l.foldl (fun acc x => insAscInt x acc) []

/-- Python `sorted(set(l))` : distinct elements in ascending order.
`List.eraseDups` keeps the first occurrence of each element, so its length is
the cardinality of the Python set. -/
def pySortedSet (l : List Int) : List Int :=
  pySortInt l.eraseDups

/-- Lookup in an association list modelling a Python dict
(`d.get(k, default)`). -/
def dictGetD {α : Type} (d : List (String × α)) (k : String) (dflt : α) : α :=
  match d.find? (fun p => p.1 = k) with
  | some p => p.2
  | none => dflt

/-- Membership of a key in a Python dict (`k in d`). -/
def dictHasKey {α : Type} (d : List (String × α)) (k : String) : Bool :=
  d.any (fun p => p.1 = k)

/-- Lookup returning an option (`d[k]` guarded by `k in d`). -/
def dictFind {α : Type} (d : List (String × α)) (k : String) : Option α :=
  (d.find? (fun p => p.1 = k)).map (·.2)

/-! ### `datetime.strptime(s, "%Y-%m-%d").date()`

CPython's `_strptime` compiles `"%Y-%m-%d"` to the regex
`(?P<Y>\d\d\d\d)-(?P<m>1[0-2]|0[1-9]|[1-9])-(?P<d>3[01]|[12]\d|0[1-9]|[1-9])`,
requires the whole string to match, and then builds a `date`, which raises
`ValueError` unless `1 ≤ year` and the day exists in the given month.
The result is a `(year, month, day)` triple compared lexicographically. -/

/-- A calendar date as parsed from `YYYY-MM-DD`. -/
structure Date where
  year : Nat
  month : Nat
  day : Nat
deriving DecidableEq, Repr

/-- Lexicographic `<` on dates (Python `date` comparison). -/
def dateLt (a b : Date) : Bool :=
  a.year < b.year ||
  (a.year = b.year && (a.month < b.month ||
    (a.month = b.month && a.day < b.day)))

/-- Gregorian leap-year test (as in `datetime`). -/
def isLeap (y : Nat) : Bool :=
  y % 4 = 0 && (y % 100 ≠ 0 || y % 400 = 0)

/-- Days in a month (as validated by the `date` constructor). -/
def daysInMonth (y m : Nat) : Nat :=
  if m = 2 then (if isLeap y then 29 else 28)
  else if m = 4 || m = 6 || m = 9 || m = 11 then 30
  else 31

/-- Digit value of a character, if it is a digit. -/
def digitVal (c : Char) : Option Nat :=
  if c.isDigit then some (c.toNat - '0'.toNat) else none

/-- Candidate parses of the month field `1[0-2]|0[1-9]|[1-9]` (two-digit
forms and the one-digit form; the regex backtracks, so all candidates are
tried against the rest of the string). -/
def monthCands : List Char → List (Nat × List Char)
  | c1 :: c2 :: rest =>
    (match digitVal c1, digitVal c2 with
     | some d1, some d2 =>
       if (d1 = 1 && d2 ≤ 2) || (d1 = 0 && 1 ≤ d2) then [(d1 * 10 + d2, rest)] else []
     | _, _ => []) ++
    (match digitVal c1 with
     | some d1 => if 1 ≤ d1 then [(d1, c2 :: rest)] else []
     | none => [])
  | [c1] =>
    (match digitVal c1 with
     | some d1 => if 1 ≤ d1 then [(d1, [])] else []
     | none => [])
  | [] => []

/-- Candidate parses of the day field `3[01]|[12]\d|0[1-9]|[1-9]`. -/
def dayCands : List Char → List (Nat × List Char)
  | c1 :: c2 :: rest =>
    (match digitVal c1, digitVal c2 with
     | some d1, some d2 =>
       if (d1 = 3 && d2 ≤ 1) || (d1 = 1 || d1 = 2) || (d1 = 0 && 1 ≤ d2) then
         [(d1 * 10 + d2, rest)]
       else []
     | _, _ => []) ++
    (match digitVal c1 with
     | some d1 => if 1 ≤ d1 then [(d1, c2 :: rest)] else []
     | none => [])
  | [c1] =>
    (match digitVal c1 with
     | some d1 => if 1 ≤ d1 then [(d1, [])] else []
     | none => [])
  | [] => []

/-- All complete parses of `-m-d` after the year. -/
def parseMonthDay (l : List Char) : List (Nat × Nat) :=
  match l with
  | '-' :: rest =>
    (monthCands rest).flatMap fun (m, rest2) =>
      match rest2 with
      | '-' :: rest3 =>
        (dayCands rest3).flatMap fun (d, rest4) =>
          if rest4.isEmpty then [(m, d)] else []
      | _ => []
  | _ => []

/-- `datetime.strptime(s, "%Y-%m-%d").date()`, returning `none` where CPython
raises `ValueError`. -/
def pyParseDate (s : String) : Option Date :=
  match s.toList with
  | c1 :: c2 :: c3 :: c4 :: rest =>
    match digitVal c1, digitVal c2, digitVal c3, digitVal c4 with
    | some y1, some y2, some y3, some y4 =>
      let y := ((y1 * 10 + y2) * 10 + y3) * 10 + y4
      match parseMonthDay rest with
      | (m, d) :: _ =>
        if 1 ≤ y && 1 ≤ d && d ≤ daysInMonth y m then some ⟨y, m, d⟩ else none
      | [] => none
    | _, _, _, _ => none
  | _ => none

end TMEP

namespace TMEP

/-! ### `nice_classification_db.py` — static knowledge base -/

/-- One record of the `NICE_CLASSES` dict. -/
structure ClassInfo where
  category : String
  title : String
  description : String
  keywords : List String
deriving DecidableEq, Repr

/-- `NICE_CLASSES`, in dict insertion order (classes 1–45). -/
def NICE_CLASSES : List (Int × ClassInfo) := [
  (1,
   { category := "GOODS", title := "Chemicals",
      description := "Chemicals for industry, science, photography; unprocessed artificial resins; " ++
        "unprocessed plastics; fertilizers; fire extinguishing compositions; " ++
        "tempering and soldering preparations; chemical substances for preserving foodstuffs; " ++
        "tanning substances; adhesives for industry.",
      keywords := [
        "chemical", "chemicals", "adhesive", "fertilizer", "resin", "solvent",
        "catalyst", "reagent", "polymer", "plastic raw material", "glue industrial",
        "photographic chemical", "tanning", "fire extinguishing", "flux"] }),
  (2,
   { category := "GOODS", title := "Paints and Coatings",
      description := "Paints, varnishes, lacquers; preservatives against rust and against deterioration " ++
        "of wood; colorants, dyes; inks for printing; raw natural resins; " ++
        "metals in foil and powder form for use in painting, decorating, printing.",
      keywords := [
        "paint", "varnish", "lacquer", "dye", "colorant", "pigment", "ink printing",
        "rust prevention", "coating", "primer", "stain wood", "enamel", "glaze"] }),
  (3,
   { category := "GOODS", title := "Cosmetics and Cleaning Products",
      description := "Non-medicated cosmetics and toiletry preparations; non-medicated dentifrices; " ++
        "perfumery, essential oils; bleaching preparations; cleaning, polishing, " ++
        "scouring and abrasive preparations.",
      keywords := [
        "cosmetic", "shampoo", "soap", "perfume", "fragrance", "lotion", "cream skincare",
        "toothpaste", "deodorant", "makeup", "lipstick", "foundation", "cleanser",
        "detergent", "bleach", "polish", "conditioner hair", "sunscreen", "moisturizer",
        "hair care", "body wash", "face wash", "cologne", "essential oil", "nail polish"] }),
  (4,
   { category := "GOODS", title := "Lubricants and Fuels",
      description := "Industrial oils and greases; lubricants; dust absorbing, wetting and binding " ++
        "compositions; fuels and illuminants; candles and wicks for lighting.",
      keywords := [
        "lubricant", "oil industrial", "grease", "fuel", "petrol", "gasoline", "diesel",
        "candle", "wax", "kerosene", "biofuel", "engine oil", "motor oil"] }),
  (5,
   { category := "GOODS", title := "Pharmaceuticals and Medical Preparations",
      description := "Pharmaceuticals, medical and veterinary preparations; sanitary preparations " ++
        "for medical purposes; dietetic food and substances adapted for medical use; " ++
        "food for babies; dietary supplements; plasters, materials for dressings; " ++
        "material for stopping teeth; disinfectants; preparations for destroying " ++
        "vermin; fungicides, herbicides.",
      keywords := [
        "pharmaceutical", "drug", "medicine", "medication", "supplement", "vitamin",
        "antibiotic", "vaccine", "disinfectant", "bandage", "plaster medical",
        "baby food", "dietary supplement", "herbicide", "pesticide", "fungicide",
        "veterinary", "dental filling", "antiseptic", "laxative", "analgesic"] }),
  (6,
   { category := "GOODS", title := "Metal Goods",
      description := "Common metals and their alloys; ores; metal building and construction materials; " ++
        "transportable buildings of metal; non-electric cables and wires of common metal; " ++
        "small items of metal hardware; metal containers for storage or transport; safes.",
      keywords := [
        "metal", "steel", "iron", "aluminum", "copper", "wire metal", "cable metal",
        "safe", "lock metal", "nail", "screw", "bolt", "metal container", "metal pipe",
        "metal hardware", "metal building", "chain", "metal fitting"] }),
  (7,
   { category := "GOODS", title := "Machinery",
      description := "Machines, machine tools, power-operated tools; motors and engines (not for " ++
        "land vehicles); machine coupling and transmission components; " ++
        "agricultural implements other than hand-operated; incubators for eggs; " ++
        "automatic vending machines.",
      keywords := [
        "machine", "machinery", "engine", "motor industrial", "pump", "compressor",
        "turbine", "robot industrial", "tool power", "generator", "vending machine",
        "conveyor", "agricultural machine", "drill machine", "lathe"] }),
  (8,
   { category := "GOODS", title := "Hand Tools",
      description := "Hand tools and implements (hand-operated); cutlery; side arms, except firearms; " ++
        "razors.",
      keywords := [
        "hand tool", "knife", "fork", "spoon", "cutlery", "razor", "scissors",
        "hammer", "screwdriver manual", "saw hand", "plier", "wrench", "chisel",
        "sword", "blade", "shears"] }),
  (9,
   { category := "GOODS", title := "Scientific and Electronic Apparatus",
      description := "Scientific, research, navigation, surveying, photographic, cinematographic, " ++
        "audiovisual, optical, weighing, measuring, signalling, detecting, testing, " ++
        "inspecting, life-saving and teaching apparatus and instruments; " ++
        "apparatus and instruments for conducting, switching, transforming, accumulating, " ++
        "regulating or controlling the distribution or use of electricity; " ++
        "computers; computer hardware and software; " ++
        "audio and video recordings; downloadable digital content.",
      keywords := [
        "software", "computer software", "app", "application", "mobile app",
        "computer", "laptop", "tablet", "smartphone", "hardware", "electronic",
        "downloadable", "digital content", "video game", "game software",
        "operating system", "firmware", "database software", "saas", "platform software",
        "camera", "telephone", "headphone", "speaker electronic", "television",
        "monitor", "server", "semiconductor", "circuit", "battery", "charger",
        "gps", "navigation device", "scanner", "printer hardware", "calculator",
        "data storage", "usb", "hard drive", "cloud software", "artificial intelligence software",
        "machine learning software", "recorded music", "downloadable music", "ebook",
        "downloadable video", "streaming software", "vr headset", "drone", "robot"] }),
  (10,
   { category := "GOODS", title := "Medical Devices",
      description := "Surgical, medical, dental and veterinary apparatus and instruments; " ++
        "artificial limbs, eyes and teeth; orthopedic articles; suture materials; " ++
        "therapeutic and assistive devices adapted for persons with disabilities; " ++
        "massage apparatus; apparatus, devices and articles for nursing infants; " ++
        "sexual activity apparatus, devices and articles.",
      keywords := [
        "medical device", "surgical instrument", "dental instrument", "prosthetic",
        "wheelchair", "orthopedic", "hearing aid", "stethoscope", "syringe",
        "catheter", "implant", "pacemaker", "crutch", "bandage medical device",
        "thermometer medical", "blood pressure monitor", "massage device"] }),
  (11,
   { category := "GOODS", title := "Environmental Control Apparatus",
      description := "Apparatus and installations for lighting, heating, cooling, steam generating, " ++
        "cooking, drying, ventilating, water supply and sanitary purposes.",
      keywords := [
        "light fixture", "lamp", "bulb", "air conditioner", "heater", "furnace",
        "refrigerator", "freezer", "oven", "microwave", "dishwasher", "washer",
        "dryer", "ventilation", "air purifier", "water filter", "toilet", "faucet",
        "shower", "boiler", "heat pump", "hvac", "stove", "cooking appliance"] }),
  (12,
   { category := "GOODS", title := "Vehicles",
      description := "Vehicles; apparatus for locomotion by land, air or water.",
      keywords := [
        "vehicle", "car", "automobile", "truck", "motorcycle", "bicycle", "boat",
        "ship", "aircraft", "airplane", "helicopter", "electric vehicle", "ev",
        "scooter", "train", "bus", "trailer", "wheel vehicle", "tire", "car part"] }),
  (13,
   { category := "GOODS", title := "Firearms",
      description := "Firearms; ammunition and projectiles; explosives; fireworks.",
      keywords := [
        "firearm", "gun", "pistol", "rifle", "ammunition", "bullet", "explosive",
        "firework", "grenade", "weapon", "shotgun"] }),
  (14,
   { category := "GOODS", title := "Jewelry and Timepieces",
      description := "Precious metals and their alloys; jewellery, precious and semi-precious stones; " ++
        "horological and chronometric instruments.",
      keywords := [
        "jewelry", "jewellery", "ring", "necklace", "bracelet", "earring", "watch",
        "clock", "gold", "silver precious", "diamond", "gemstone", "timepiece",
        "brooch", "pendant", "charm jewelry"] }),
  (15,
   { category := "GOODS", title := "Musical Instruments",
      description := "Musical instruments; music stands and music holders; " ++
        "conducting batons.",
      keywords := [
        "musical instrument", "guitar", "piano", "violin", "drum", "trumpet",
        "flute", "keyboard instrument", "saxophone", "bass", "instrument accessory"] }),
  (16,
   { category := "GOODS", title := "Paper and Printed Matter",
      description := "Paper and cardboard; printed matter; bookbinding material; " ++
        "photographs; stationery and office requisites; " ++
        "adhesives for stationery or household purposes; " ++
        "drawing materials and materials for artists; paintbrushes; " ++
        "instructional and teaching materials.",
      keywords := [
        "paper", "printed matter", "book", "magazine", "newspaper", "brochure",
        "stationery", "pen", "pencil", "notebook", "envelope", "cardboard",
        "photo print", "poster printed", "greeting card", "label printed",
        "manual printed", "instruction book", "catalog printed", "pamphlet"] }),
  (17,
   { category := "GOODS", title := "Rubber and Plastic Products",
      description := "Unprocessed and semi-processed rubber, gutta-percha, gum, asbestos, mica " ++
        "and substitutes for all these materials; " ++
        "plastics and resins in extruded form for use in manufacture; " ++
        "packing, stopping and insulating materials; " ++
        "flexible pipes, tubes and hoses.",
      keywords := [
        "rubber", "gasket", "seal rubber", "insulation", "hose", "tube rubber",
        "plastic semi-processed", "foam insulation", "tape insulating"] }),
  (18,
   { category := "GOODS", title := "Leather Goods",
      description := "Leather and imitations of leather; animal skins and hides; " ++
        "luggage and carrying bags; umbrellas and parasols; " ++
        "walking sticks; whips, harness and saddlery; collars, leashes and clothing for animals.",
      keywords := [
        "leather", "bag", "handbag", "purse", "wallet", "luggage", "suitcase",
        "backpack", "umbrella", "tote bag", "briefcase", "belt leather", "harness",
        "saddle", "pet collar", "leash"] }),
  (19,
   { category := "GOODS", title := "Building Materials",
      description := "Building and construction materials, not of metal; " ++
        "rigid pipes for building; asphalt, pitch, tar and bitumen; " ++
        "transportable buildings, not of metal; " ++
        "monuments, not of metal.",
      keywords := [
        "building material", "cement", "concrete", "brick", "tile", "wood building",
        "glass building", "stone", "gravel", "asphalt", "pipe non-metal", "lumber"] }),
  (20,
   { category := "GOODS", title := "Furniture",
      description := "Furniture, mirrors, picture frames; containers of plastic or wood for storage " ++
        "or transport; unworked or semi-worked bone, horn, whalebone or mother-of-pearl; " ++
        "shells; meerschaum; yellow amber.",
      keywords := [
        "furniture", "chair", "table", "desk", "bed", "sofa", "couch", "mirror",
        "shelf", "cabinet", "wardrobe", "mattress", "pillow", "cushion", "frame picture"] }),
  (21,
   { category := "GOODS", title := "Household Utensils",
      description := "Household or kitchen utensils and containers; cookware and tableware; " ++
        "combs and sponges; brushes; brush-making materials; articles for cleaning purposes; " ++
        "unworked or semi-worked glass (except building glass); glassware, porcelain and earthenware.",
      keywords := [
        "kitchen utensil", "pot", "pan", "cup", "mug", "plate", "bowl", "glass tableware",
        "cutlery set", "brush household", "comb", "sponge", "broom", "bucket",
        "storage container household", "vase", "canteen", "flask"] }),
  (22,
   { category := "GOODS", title := "Cordage and Textile Fibers",
      description := "Ropes and string; nets; tents and tarpaulins; awnings of textile or synthetic materials; " ++
        "sails; sacks for the transport and storage of materials in bulk; " ++
        "padding, cushioning and stuffing materials; raw fibrous textile materials and substitutes.",
      keywords := [
        "rope", "string", "net", "tent", "tarpaulin", "sack", "padding stuffing",
        "fiber textile raw", "twine", "cord", "canvas"] }),
  (23,
   { category := "GOODS", title := "Yarns and Threads",
      description := "Yarns and threads for textile use.",
      keywords := [
        "yarn", "thread", "sewing thread", "knitting yarn", "embroidery thread"] }),
  (24,
   { category := "GOODS", title := "Textiles",
      description := "Textiles and substitutes for textiles; household linen; curtains of textile or plastic.",
      keywords := [
        "textile", "fabric", "cloth", "linen", "bedsheet", "towel", "curtain",
        "blanket", "duvet", "tablecloth", "upholstery fabric"] }),
  (25,
   { category := "GOODS", title := "Clothing and Footwear",
      description := "Clothing, footwear, headgear.",
      keywords := [
        "clothing", "clothes", "apparel", "shirt", "t-shirt", "pants", "jeans",
        "dress", "skirt", "jacket", "coat", "suit", "shoes", "boots", "sneakers",
        "sandals", "hat", "cap", "gloves", "socks", "underwear", "sportswear",
        "swimwear", "uniform", "footwear", "headgear", "fashion apparel"] }),
  (26,
   { category := "GOODS", title := "Lace and Embroidery",
      description := "Lace, braid and embroidery, and haberdashery ribbons and bows; " ++
        "buttons, hooks and eyes, pins and needles; " ++
        "artificial flowers; hair decorations; false hair.",
      keywords := [
        "lace", "embroidery", "button", "needle", "pin sewing", "ribbon",
        "artificial flower", "hair accessory", "bow ribbon", "zipper"] }),
  (27,
   { category := "GOODS", title := "Floor Coverings",
      description := "Carpets, rugs, mats and matting, linoleum and other materials for covering " ++
        "existing floors; wall hangings, not of textile.",
      keywords := [
        "carpet", "rug", "mat", "flooring", "linoleum", "wall hanging"] }),
  (28,
   { category := "GOODS", title := "Games and Sporting Goods",
      description := "Games, toys and playthings; video game apparatus; " ++
        "gymnastic and sporting articles; " ++
        "decorations for Christmas trees.",
      keywords := [
        "toy", "game board", "puzzle", "doll", "sport equipment", "gym equipment",
        "football", "basketball", "tennis racket", "golf club", "ski", "snowboard",
        "christmas decoration", "playing card", "chess", "game controller hardware",
        "fishing equipment", "hunting equipment non-firearm"] }),
  (29,
   { category := "GOODS", title := "Meat and Processed Foods",
      description := "Meat, fish, poultry and game; meat extracts; preserved, frozen, dried and cooked " ++
        "fruits and vegetables; jellies, jams, compotes; eggs; milk, cheese, butter, " ++
        "yogurt and other milk products; oils and fats for food.",
      keywords := [
        "meat", "fish food", "poultry", "cheese", "butter", "milk", "yogurt",
        "egg", "vegetable preserved", "fruit preserved", "jam", "jelly food",
        "frozen food", "dairy", "oil food", "margarine", "broth", "soup canned"] }),
  (30,
   { category := "GOODS", title := "Coffee and Staple Foods",
      description := "Coffee, tea, cocoa and artificial coffee; rice, pasta and noodles; " ++
        "tapioca and sago; flour and preparations made from cereals; " ++
        "bread, pastries and confectionery; chocolate; ice cream, sorbets and other edible ices; " ++
        "sugar, honey, treacle; yeast, baking-powder; salt, seasonings, spices, preserved herbs; " ++
        "vinegar, sauces and other condiments; ice.",
      keywords := [
        "coffee", "tea", "cocoa", "chocolate", "sugar", "flour", "bread", "cake",
        "pastry", "cookie", "candy", "ice cream", "pasta", "noodle", "rice",
        "spice", "seasoning", "sauce", "condiment", "vinegar", "honey", "salt"] }),
  (31,
   { category := "GOODS", title := "Agricultural Products",
      description := "Raw and unprocessed agricultural, aquacultural, horticultural and forestry products; " ++
        "raw and unprocessed grains and seeds; fresh fruits and vegetables, fresh herbs; " ++
        "natural plants and flowers; bulbs, seedlings and seeds for planting; " ++
        "live animals; foodstuffs and beverages for animals; malt.",
      keywords := [
        "fresh fruit", "fresh vegetable", "plant", "flower", "seed", "live animal",
        "pet food", "animal feed", "grain", "unprocessed agricultural", "malt", "bulb plant"] }),
  (32,
   { category := "GOODS", title := "Beer and Non-Alcoholic Beverages",
      description := "Beer; non-alcoholic beverages; mineral and aerated waters; " ++
        "fruit beverages and fruit juices; syrups and other non-alcoholic preparations " ++
        "for making beverages.",
      keywords := [
        "beer", "non-alcoholic beverage", "soft drink", "soda", "juice", "water bottled",
        "energy drink", "sports drink", "lemonade", "cola", "syrup beverage"] }),
  (33,
   { category := "GOODS", title := "Alcoholic Beverages",
      description := "Alcoholic beverages, except beers; alcoholic preparations for making beverages.",
      keywords := [
        "wine", "spirits", "whiskey", "vodka", "rum", "gin", "liquor", "alcohol",
        "champagne", "brandy", "tequila", "cocktail preparation"] }),
  (34,
   { category := "GOODS", title := "Tobacco Products",
      description := "Tobacco and tobacco substitutes; cigarettes and cigars; " ++
        "electronic cigarettes and oral vaporizers for smokers; " ++
        "smokers\x27 articles; matches.",
      keywords := [
        "tobacco", "cigarette", "cigar", "vape", "e-cigarette", "match", "lighter",
        "pipe smoking", "nicotine", "rolling paper"] }),
  (35,
   { category := "SERVICES", title := "Advertising and Business Services",
      description := "Advertising; business management; business administration; " ++
        "office functions; online marketplaces for buyers and sellers; " ++
        "import-export agency services.",
      keywords := [
        "advertising", "marketing", "business management", "business consulting",
        "public relations", "recruitment", "staffing", "retail store", "online marketplace",
        "import export", "business administration", "telemarketing", "seo",
        "market research", "business strategy", "ecommerce platform", "franchise"] }),
  (36,
   { category := "SERVICES", title := "Insurance and Financial Services",
      description := "Insurance; financial affairs; monetary affairs; real estate affairs.",
      keywords := [
        "insurance", "financial service", "banking", "investment", "real estate",
        "mortgage", "loan", "credit", "fund management", "stock exchange",
        "cryptocurrency", "fintech", "payment service", "money transfer",
        "tax service", "accounting financial", "brokerage", "leasing financial"] }),
  (37,
   { category := "SERVICES", title := "Building and Repair Services",
      description := "Construction services; installation and repair services; " ++
        "mining extraction; oil and gas drilling.",
      keywords := [
        "construction", "building service", "repair", "maintenance", "installation",
        "plumbing", "electrical installation", "painting service", "cleaning service building",
        "renovation", "carpentry service", "roofing", "drilling"] }),
  (38,
   { category := "SERVICES", title := "Telecommunications Services",
      description := "Telecommunications services.",
      keywords := [
        "telecommunications", "telecom", "internet provider", "broadband", "wireless",
        "telephone service", "satellite communication", "cable tv", "streaming platform",
        "voip", "messaging service", "email service", "social media platform",
        "broadcasting", "radio service", "tv broadcasting"] }),
  (39,
   { category := "SERVICES", title := "Transport and Storage Services",
      description := "Transport; packaging and storage of goods; travel arrangement.",
      keywords := [
        "transport", "shipping", "delivery", "logistics", "freight", "courier",
        "travel agency", "airline service", "bus service", "taxi", "rideshare",
        "storage service", "warehousing", "moving service", "cargo"] }),
  (40,
   { category := "SERVICES", title := "Treatment of Materials",
      description := "Treatment of materials; recycling of waste and trash; " ++
        "air purification and treatment of water; " ++
        "printing services; food and drink preservation.",
      keywords := [
        "printing service", "manufacturing service", "recycling", "water treatment",
        "food processing", "custom manufacturing", "material treatment", "dyeing service",
        "engraving service", "welding service", "air treatment"] }),
  (41,
   { category := "SERVICES", title := "Education and Entertainment Services",
      description := "Education; providing of training; entertainment; sporting and cultural activities; " ++
        "publishing of texts other than publicity texts; " ++
        "music streaming services.",
      keywords := [
        "education", "training", "entertainment", "sports event", "cultural event",
        "music streaming service", "streaming entertainment", "publishing service",
        "online education", "e-learning", "tutoring", "school", "university service",
        "fitness class", "yoga class", "gaming service online", "concert",
        "theater", "film production", "podcast", "radio entertainment", "sports club",
        "news service", "journalism"] }),
  (42,
   { category := "SERVICES", title := "Scientific and Technology Services",
      description := "Scientific and technological services and research and design relating thereto; " ++
        "industrial analysis, industrial research and industrial design services; " ++
        "quality control and authentication services; " ++
        "design and development of computer hardware and software; " ++
        "software as a service (SaaS); cloud computing.",
      keywords := [
        "technology service", "it service", "software development", "web development",
        "app development", "cloud computing", "saas service", "paas", "iaas",
        "cybersecurity service", "data analytics service", "ai service", "ml service",
        "research and development", "scientific research", "quality control",
        "technical consulting", "it consulting", "web hosting", "database service",
        "api service", "blockchain service", "testing software", "ux design",
        "computer programming", "network service"] }),
  (43,
   { category := "SERVICES", title := "Food and Beverage Services",
      description := "Services for providing food and drink; " ++
        "temporary accommodation.",
      keywords := [
        "restaurant", "cafe", "bar service", "catering", "food delivery service",
        "hotel", "accommodation", "bed and breakfast", "canteen", "food service",
        "coffee shop", "bakery service", "fast food"] }),
  (44,
   { category := "SERVICES", title := "Medical and Veterinary Services",
      description := "Medical services; veterinary services; " ++
        "hygienic and beauty care for human beings or animals; " ++
        "agriculture, aquaculture, horticulture and forestry services.",
      keywords := [
        "medical service", "healthcare", "hospital", "clinic", "doctor service",
        "dental service", "veterinary service", "beauty salon", "spa service",
        "hair salon", "nursing", "pharmacy service", "therapy", "mental health service",
        "agriculture service", "landscaping", "gardening service", "telemedicine"] }),
  (45,
   { category := "SERVICES", title := "Legal and Security Services",
      description := "Legal services; security services for the physical protection of tangible property " ++
        "and individuals; personal and social services rendered by others to meet the needs " ++
        "of individuals; online social networking services.",
      keywords := [
        "legal service", "law firm", "attorney service", "security service", "security guard",
        "investigation service", "social service", "dating service", "matchmaking",
        "online social network", "personal assistant service", "funeral service",
        "licensing service", "intellectual property service", "arbitration"] })]

/-- `get_class_info(class_number)` (`NICE_CLASSES.get(n, None)`). -/
def get_class_info (class_number : Int) : Option ClassInfo :=
  ((NICE_CLASSES.find? (fun p => p.1 = class_number)).map (·.2))

/-- `VALID_CLASS_NUMBERS = set(range(1, 46))`, as the list of its elements. -/
def VALID_CLASS_NUMBERS : List Int :=
  (List.range 45).map (fun i => ((i + 1 : Nat) : Int))

/-- One record of `NICE_EDITION_TIMELINE`; the Python keys are
`start`, `end`, `section` (here `sectionTag`) and (optional) `notes`. -/
structure EditionInfo where
  startDate : String
  endDate : String
  sectionTag : String
  notes : String := ""
deriving DecidableEq, Repr

/-- `NICE_EDITION_TIMELINE`, in dict insertion order. -/
def NICE_EDITION_TIMELINE : List (String × EditionInfo) := [
  ("7th", { startDate := "1992-01-01", endDate := "1996-12-31", sectionTag := "1401.09" }),
  ("8th", { startDate := "1997-01-01", endDate := "2001-12-31", sectionTag := "1401.11",
            notes := "Class 42 was split into Classes 42, 43, 44, and 45." }),
  ("9th", { startDate := "2002-01-01", endDate := "2006-12-31", sectionTag := "1401.12",
            notes := "Major reclassification of services in Class 41 and 42." }),
  ("10th", { startDate := "2007-01-01", endDate := "2011-12-31", sectionTag := "1401.13",
             notes := "Expansion of Class 9 to include downloadable digital content." }),
  ("11th", { startDate := "2012-01-01", endDate := "2022-12-31", sectionTag := "1401.14",
             notes := "Additions to Class 35, 38, and 42 for internet-based services." }),
  ("12th", { startDate := "2023-01-01", endDate := "9999-12-31", sectionTag := "1401.15",
             notes := "Current edition. Refinements to tech, AI, and digital service classifications." })]

/-- `COMMON_MISCLASSIFICATIONS`, in dict insertion order:
`(keyword, wrong_class) → (correct_class, reason)`. -/
def COMMON_MISCLASSIFICATIONS : List ((String × Int) × (Int × String)) := [
  (("software", 25), (9, "Software is a digital product → Class 9, not clothing (Class 25)")),
  (("software", 35), (42, "Software development is a tech service → Class 42, not business services (Class 35)")),
  (("app", 35), (9, "Mobile app (downloadable) → Class 9; if SaaS → Class 42")),
  (("website", 35), (42, "Website development is IT service → Class 42")),
  (("downloadable music", 41), (9, "Downloadable music is a digital product → Class 9")),
  (("music streaming service", 9), (41, "Streaming service is entertainment → Class 41")),
  (("printed manual", 9), (16, "Printed manuals are printed matter → Class 16")),
  (("restaurant", 43), (43, "OK")),
  (("restaurant", 35), (43, "Restaurant services → Class 43, not business services")),
  (("coffee beverage", 30), (30, "OK - coffee as a product")),
  (("coffee shop", 30), (43, "Coffee shop (service) → Class 43")),
  (("medical device", 5), (10, "Medical devices → Class 10, not pharmaceuticals (Class 5)")),
  (("pharmaceutical", 10), (5, "Pharmaceuticals → Class 5, not medical devices (Class 10)")),
  (("restaurant service", 42), (43, "Post 8th Ed.: restaurant services → Class 43 (split from old Class 42)")),
  (("medical service", 42), (44, "Post 8th Ed.: medical services → Class 44 (split from old Class 42)")),
  (("legal service", 42), (45, "Post 8th Ed.: legal services → Class 45 (split from old Class 42)"))]

/-- `SPECIMEN_TYPES["goods_valid"]`. -/
def SPECIMEN_TYPES_goods_valid : List String := [
  "product label", "product packaging", "product tag", "product photo",
  "hang tag", "point of sale display", "screenshot showing product for sale"]

/-- `SPECIMEN_TYPES["goods_invalid"]`. -/
def SPECIMEN_TYPES_goods_invalid : List String := [
  "invoice", "purchase order", "business card", "letterhead",
  "press release", "rendering", "mockup", "logo alone"]

/-- `SPECIMEN_TYPES["services_valid"]`. -/
def SPECIMEN_TYPES_services_valid : List String := [
  "website screenshot", "advertisement", "brochure", "promotional material",
  "screenshot of service", "service description page"]

/-- `SPECIMEN_TYPES["services_invalid"]`. -/
def SPECIMEN_TYPES_services_invalid : List String := [
  "product label", "invoice", "business card alone", "rendering"]

/-- `USPTO_FEES` (per-class filing fees). -/
def USPTO_FEES : List (String × Int) :=
  [("TEAS_PLUS", 250), ("TEAS_STANDARD", 350), ("PAPER", 750)]

/-! ### `suggest_class_for_keyword` -/

/-- A suggestion triple `(class_number, title, match_score)`. -/
structure Suggestion where
  classNum : Int
  title : String
  score : Nat
deriving DecidableEq, Repr

/-- Stable descending insertion by `score` for `pySortSuggestions`. -/
def insDescScore (x : Suggestion) : List Suggestion → List Suggestion
  | [] => [x]
  | y :: ys => if y.score < x.score then x :: y :: ys else y :: insDescScore x ys

/-- `suggestions.sort(key=lambda x: x[2], reverse=True)`.  Python's sort is
stable, so a stable insertion sort (descending by score, ties kept in
original order) models it exactly. -/
def pySortSuggestions (l : List Suggestion) : List Suggestion :=
  l.foldl (fun acc x => insDescScore x acc) []

/-- The body of `suggest_class_for_keyword`, translated clause by clause:
the score of one class accumulates over its keyword list through the
`if/elif/elif` ladder; classes with positive score are appended in dict
order; the list is stably sorted descending by score and truncated to 5. -/
def suggest_class_for_keyword (keyword : String) : List Suggestion :=
  let keyword_lower := pyStrip (pyLower keyword)
  let suggestions := NICE_CLASSES.foldl
    (fun acc p =>
      let score := p.2.keywords.foldl
        (fun sc kw =>
          if keyword_lower == kw then sc + 10
          else if strIn keyword_lower kw || strIn kw keyword_lower then sc + 5
          else if (pySplitWs keyword_lower).any (fun w => strIn w kw) then sc + 2
          else sc) 0
      if 0 < score then acc ++ [⟨p.1, p.2.title, score⟩] else acc) []
  (pySortSuggestions suggestions).take 5

/-- Points one keyword contributes to a class score, following the wording of
the specification: 10 for an exact case-insensitive match of the query term
to the keyword, else 5 for substring containment in either direction, else 2
for token-level overlap (some whitespace-split word of the query occurring
inside the keyword string). -/
def specKeywordPoints (query kw : String) : Nat :=
  if query == kw then 10
  else if strIn query kw || strIn kw query then 5
  else if (pySplitWs query).any (fun w => strIn w kw) then 2
  else 0

/-- Per-class score as described by the specification: the sum of the points
of all keywords of the class. -/
def specClassScore (query : String) (info : ClassInfo) : Nat :=
  (info.keywords.map (specKeywordPoints query)).sum

/-- The keyword matcher as the specification sentence describes it: score
every one of the 45 classes, keep those with score > 0, sort descending by
score with ties in original dict iteration order (stable sort), return at
most the top 5. -/
def specSuggest (term : String) : List Suggestion :=
  let query := pyStrip (pyLower term)
  let kept := NICE_CLASSES.filterMap fun p =>
    let s := specClassScore query p.2
    if 0 < s then some ⟨p.1, p.2.title, s⟩ else none
  (pySortSuggestions kept).take 5

end TMEP

namespace TMEP

/-! ### `tmep_1401_assessor.py` — data model -/

/-- `ClassEntry` (one class entry of a trademark application).  The
`flags`/`suggestions` fields are declared "set during assessment" but no
§1401 check ever writes them. -/
structure ClassEntry where
  class_number : Int
  identification : String
  specimen_type : String := ""
  specimen_description : String := ""
  fee_paid : Bool := true
  filing_basis : String := "1(a)"
  date_of_first_use : Option String := none
  date_of_first_use_commerce : Option String := none
  flags : List String := []
  suggestions : List Suggestion := []
deriving DecidableEq, Repr

/-- `TrademarkApplication`.  `total_fee_paid` is a Python float used only in
a dead local of §1401.04; it is modelled by `ℚ`. -/
structure TrademarkApplication where
  applicant_name : String := ""
  mark_text : String := ""
  mark_type : String := "standard_character"
  filing_date : String := ""
  nice_edition_claimed : String := "12th"
  application_serial : String := ""
  filing_type : String := "TEAS_PLUS"
  classes : List ClassEntry := []
  fees_paid_count : Int := 0
  total_fee_paid : ℚ := 0
  is_multi_class : Bool := false
  notes : String := ""
deriving DecidableEq, Repr

/-- `AssessmentFinding` (Pillar 1 finding record). -/
structure AssessmentFinding where
  tmep_section : String
  severity : String
  class_number : Int
  item : String
  finding : String
  recommendation : String
deriving DecidableEq, Repr

/-- The mutable state of a `TMEP1401Assessor`: the (read-only) application
and the `self.findings` list the checks append to.  (`assessment_date`, a
wall-clock timestamp never read by any check, is not modelled.) -/
structure AssessorState where
  app : TrademarkApplication
  findings : List AssessmentFinding
deriving DecidableEq, Repr

/-- Python repr of a list of strings, e.g. `['service', 'providing']`
(used where an f-string interpolates a list of strings). -/
def pyStrListRepr (l : List String) : String :=
  "[" ++ pyJoin ", " (l.map fun s => "\x27" ++ s ++ "\x27") ++ "]"

/-- `get_class_info(n)["title"]` at places where the source indexes the
record unconditionally; these sites are only reached for class numbers that
are keys of `NICE_CLASSES`, so the `none` branch is unreachable. -/
def classTitle (n : Int) : String :=
  match get_class_info n with
  | some ci => ci.title
  | none => ""

/-! ### §1401.01 — statutory authority -/

/-- The `valid_bases` list of `_check_1401_01_statutory_authority`. -/
def valid_bases_1401_01 : List String := ["1(a)", "1(b)", "44(d)", "44(e)", "66(a)"]

/-- `_check_1401_01_statutory_authority`. -/
def check_1401_01 (s : AssessorState) : AssessorState :=
  let r := s.app.classes.foldl
    (fun (acc : List AssessmentFinding × Bool) cls_entry =>
      if valid_bases_1401_01.contains cls_entry.filing_basis then acc
      else
        (acc.1 ++ [{
          tmep_section := "§1401.01", severity := "ERROR",
          class_number := cls_entry.class_number,
          item := "Filing basis: \x27" ++ cls_entry.filing_basis ++ "\x27",
          finding := "Invalid or unrecognized filing basis. USPTO jurisdiction requires " ++
            "a recognized basis under the Lanham Act.",
          recommendation := "Correct filing basis to one of: " ++
            pyJoin ", " valid_bases_1401_01 ++ "." }], true))
    (s.findings, false)
  { app := s.app,
    findings :=
      if r.2 then r.1
      else r.1 ++ [{
        tmep_section := "§1401.01", severity := "OK",
        class_number := 0,
        item := "Filing Basis",
        finding := "All filing bases are recognized under the Lanham Act. " ++
          "USPTO statutory authority to classify and charge per-class fees is confirmed " ++
          "(15 U.S.C. §1112; Lanham Act §30).",
        recommendation := "No action required." }] }

/-! ### §1401.02 — international classification adopted -/

/-- The per-class ERROR finding of `_check_1401_02`. -/
def mk1401_02_error (n : Int) : AssessmentFinding where
  tmep_section := "§1401.02"
  severity := "ERROR"
  class_number := n
  item := "Class " ++ toString n
  finding := "Class number " ++ toString n ++ " is NOT a valid " ++
    "International (Nice) Classification number. " ++
    "Valid classes are 1–45 under the Nice Agreement."
  recommendation := "Replace with a valid Nice Classification class number (1–45). " ++
    "Consult the USPTO ID Manual or TMEP §1401.02."

/-- The application-level OK finding of `_check_1401_02`
(`classes_used` is the full, possibly duplicated, list of class numbers). -/
def mk1401_02_ok (classes_used : List Int) : AssessmentFinding where
  tmep_section := "§1401.02"
  severity := "OK"
  class_number := 0
  item := "Nice Classification System Compliance"
  finding := "All class numbers (" ++ pyJoin ", " ((pySortInt classes_used).map toString) ++
    ") are valid " ++
    "International Nice Classification numbers under the Nice Agreement " ++
    "(adopted by USPTO per 37 C.F.R. §2.85)."
  recommendation := "No action required."

/-- `_check_1401_02_international_classification_adopted`. -/
def check_1401_02 (s : AssessorState) : AssessorState :=
  let r := s.app.classes.foldl
    (fun (acc : List Int × List AssessmentFinding) cls_entry =>
      if VALID_CLASS_NUMBERS.contains cls_entry.class_number then acc
      else (acc.1 ++ [cls_entry.class_number], acc.2 ++ [mk1401_02_error cls_entry.class_number]))
    ([], s.findings)
  { app := s.app,
    findings :=
      if r.1.isEmpty then r.2 ++ [mk1401_02_ok (s.app.classes.map (·.class_number))]
      else r.2 }

/-! ### §1401.03 — designation of class -/

/-- `service_indicators` of `_check_1401_03`. -/
def service_indicators_1401_03 : List String := [
  "service", "services", "providing", "rendering", "consulting",
  "management of", "repair of", "installation of", "development of"]

/-- `goods_indicators` of `_check_1401_03`. -/
def goods_indicators_1401_03 : List String := [
  "downloadable", "printed", "physical", "apparatus", "device", "equipment",
  "machine", "clothing", "food", "beverage", "chemical"]

/-- The loop body of `_check_1401_03` for one class entry, threading the
accumulated findings list (Step D scans `self.findings`). -/
def c03_entry (cls_entry : ClassEntry) (fs : List AssessmentFinding) : List AssessmentFinding :=
  let claimed_class := cls_entry.class_number
  let id_text := pyStrip (pyLower cls_entry.identification)
  match get_class_info claimed_class with
  | none => fs
  | some class_info =>
    -- Step A: known misclassification patterns
    let stepA := COMMON_MISCLASSIFICATIONS.foldl
      (fun (acc : List AssessmentFinding × Bool) q =>
        let kw := q.1.1
        let wrong_class := q.1.2
        let correct_class := q.2.1
        let reason := q.2.2
        if strIn kw id_text && wrong_class == claimed_class && correct_class != claimed_class then
          (acc.1 ++ [{
            tmep_section := "§1401.03", severity := "ERROR",
            class_number := claimed_class,
            item := "\"" ++ kw ++ "\" in Class " ++ toString claimed_class,
            finding := "MISCLASSIFICATION DETECTED: \x27" ++ kw ++ "\x27 is placed in Class " ++
              toString claimed_class ++ " (" ++ class_info.title ++
              "), but this is incorrect. " ++ reason,
            recommendation := "Move \x27" ++ kw ++ "\x27 to Class " ++ toString correct_class ++
              " (" ++ (match get_class_info correct_class with
                       | some ci => ci.title
                       | none => "see TMEP") ++ ")." }], true)
        else acc)
      (fs, false)
    -- Step B: keyword-based class suggestion per comma/semicolon term
    let id_terms := ((pySplitChar ',' (pyReplaceChar ';' ',' id_text)).map pyStrip).filter
      (fun t => t ≠ "")
    let fs2 := id_terms.foldl
      (fun acc term =>
        match suggest_class_for_keyword term with
        | [] => acc
        | top :: _ =>
          if top.classNum != claimed_class && 5 ≤ top.score then
            acc ++ [{
              tmep_section := "§1401.03", severity := "WARNING",
              class_number := claimed_class,
              item := "Term: \"" ++ term ++ "\" in Class " ++ toString claimed_class,
              finding := "Possible classification mismatch: \x27" ++ term ++
                "\x27 appears to match " ++
                "Class " ++ toString top.classNum ++ " (" ++ classTitle top.classNum ++ ") " ++
                "more closely than Class " ++ toString claimed_class ++
                " (" ++ class_info.title ++ ").",
              recommendation := "Verify whether \x27" ++ term ++ "\x27 belongs in Class " ++
                toString top.classNum ++ " (" ++ classTitle top.classNum ++
                ") instead of Class " ++ toString claimed_class ++ ". " ++
                "Per §1401.05: nature of goods/services determines class." }]
          else acc)
      stepA.1
    -- Step C: goods vs. services category alignment
    let is_service_language := service_indicators_1401_03.any (fun si => strIn si id_text)
    let is_goods_language := goods_indicators_1401_03.any (fun gi => strIn gi id_text)
    let fs3 :=
      if class_info.category == "GOODS" && is_service_language && !is_goods_language then
        fs2 ++ [{
          tmep_section := "§1401.03", severity := "WARNING",
          class_number := claimed_class,
          item := "Category mismatch in Class " ++ toString claimed_class ++
            " (" ++ class_info.title ++ ")",
          finding := "The identification \x27" ++ cls_entry.identification ++
            "\x27 appears to describe a SERVICE " ++
            "(contains service language: " ++
            pyStrListRepr (service_indicators_1401_03.filter (fun si => strIn si id_text)) ++
            "), " ++
            "but Class " ++ toString claimed_class ++ " is a GOODS class.",
          recommendation := "Review the identification. Services must be placed in Classes 35–45. " ++
            "Consider which service class (35–45) is appropriate." }]
      else if class_info.category == "SERVICES" && is_goods_language && !is_service_language then
        fs2 ++ [{
          tmep_section := "§1401.03", severity := "WARNING",
          class_number := claimed_class,
          item := "Category mismatch in Class " ++ toString claimed_class ++
            " (" ++ class_info.title ++ ")",
          finding := "The identification \x27" ++ cls_entry.identification ++
            "\x27 appears to describe GOODS, " ++
            "but Class " ++ toString claimed_class ++ " is a SERVICES class.",
          recommendation := "Review the identification. Goods must be placed in Classes 1–34." }]
      else fs2
    -- Step D: record OK if no issues found
    if !stepA.2 then
      let has_warning := fs3.any
        (fun f => f.tmep_section == "§1401.03" && f.class_number == claimed_class)
      if !has_warning then
        fs3 ++ [{
          tmep_section := "§1401.03", severity := "OK",
          class_number := claimed_class,
          item := "Class " ++ toString claimed_class ++ ": " ++
            pyTake 60 cls_entry.identification ++
            (if 60 < cls_entry.identification.toList.length then "..." else ""),
          finding := "Class designation appears correct. Class " ++ toString claimed_class ++
            " (" ++ class_info.title ++ ") is consistent with the " ++
            "identification provided.",
          recommendation := "No action required." }]
      else fs3
    else fs3

/-- `_check_1401_03_designation_of_class`. -/
def check_1401_03 (s : AssessorState) : AssessorState :=
  { app := s.app,
    findings := s.app.classes.foldl (fun fs cls_entry => c03_entry cls_entry fs) s.findings }

/-! ### §1401.04 — classification determines number of fees -/

/-- The duplicate-classes WARNING of `_check_1401_04`. -/
def mk1401_04_dup (duplicates : List Int) : AssessmentFinding where
  tmep_section := "§1401.04"
  severity := "WARNING"
  class_number := 0
  item := "Duplicate class entries: " ++ pyIntListRepr duplicates
  finding := "Class(es) " ++ pyIntListRepr duplicates ++
    " appear more than once in the application. " ++
    "Each class should appear once with a consolidated identification."
  recommendation := "Consolidate all goods/services for each class into a single " ++
    "class entry. Duplicate class entries may cause processing issues."

/-- The fee-count-not-specified INFO of `_check_1401_04`. -/
def mk1401_04_info (num_distinct : Nat) (distinct : List Int) (ft : String) (fee : Int) :
    AssessmentFinding where
  tmep_section := "§1401.04"
  severity := "INFO"
  class_number := 0
  item := "Fee Count Not Specified"
  finding := "The number of fees paid was not specified in the application input. " ++
    "Cannot perform fee count verification."
  recommendation := "Verify that " ++ toString num_distinct ++
    " fee(s) were submitted — one per class: " ++
    "Classes " ++ pyJoin ", " (distinct.map toString) ++ ". " ++
    "At " ++ ft ++ " rate: $" ++ toString fee ++ "/class = " ++
    "$" ++ toString ((num_distinct : Int) * fee) ++ " total."

/-- The underpayment ERROR of `_check_1401_04`
(`shortage = num_distinct - fees_paid`). -/
def mk1401_04_shortage (fees_paid : Int) (num_distinct : Nat) (distinct : List Int)
    (ft : String) (fee : Int) : AssessmentFinding :=
  let shortage : Int := (num_distinct : Int) - fees_paid
  { tmep_section := "§1401.04", severity := "ERROR", class_number := 0,
    item := "Fee Shortage: " ++ toString fees_paid ++ " fees paid, " ++
      toString num_distinct ++ " classes claimed",
    finding := "UNDERPAYMENT DETECTED: Application claims " ++ toString num_distinct ++
      " class(es) " ++
      "(" ++ pyJoin ", " (distinct.map toString) ++ ") but only " ++ toString fees_paid ++
      " fee(s) " ++
      "were submitted. Shortfall: " ++ toString shortage ++ " fee(s) = " ++
      "$" ++ toString (shortage * fee) ++ " at " ++ ft ++ " rate.",
    recommendation := "Submit " ++ toString shortage ++ " additional fee(s) of $" ++
      toString fee ++ " each " ++
      "($" ++ toString (shortage * fee) ++ " total) to cover all classes. " ++
      "Failure to pay per-class fees will result in the uncovered " ++
      "class(es) being deleted from the application." }

/-- The overpayment WARNING of `_check_1401_04`
(`excess = fees_paid - num_distinct`). -/
def mk1401_04_excess (fees_paid : Int) (num_distinct : Nat) (fee : Int) : AssessmentFinding :=
  let excess : Int := fees_paid - (num_distinct : Int)
  { tmep_section := "§1401.04", severity := "WARNING", class_number := 0,
    item := "Fee Excess: " ++ toString fees_paid ++ " fees paid, " ++
      toString num_distinct ++ " classes claimed",
    finding := "OVERPAYMENT: " ++ toString fees_paid ++ " fees paid but only " ++
      toString num_distinct ++ " class(es) claimed. " ++
      "Excess: " ++ toString excess ++ " fee(s) = $" ++ toString (excess * fee) ++ ".",
    recommendation := "Request refund of overpaid fees or add additional classes to match " ++
      "the number of fees submitted." }

/-- The fee-count OK of `_check_1401_04`. -/
def mk1401_04_ok (fees_paid : Int) (num_distinct : Nat) (distinct : List Int)
    (ft : String) (fee : Int) : AssessmentFinding where
  tmep_section := "§1401.04"
  severity := "OK"
  class_number := 0
  item := "Fee Verification"
  finding := "Fee count CORRECT: " ++ toString fees_paid ++ " fee(s) paid for " ++
    toString num_distinct ++ " class(es). " ++
    "Classes: " ++ pyJoin ", " (distinct.map toString) ++ ". " ++
    "Filing type: " ++ ft ++ " ($" ++ toString fee ++ "/class). " ++
    "Total: $" ++ toString (fees_paid * fee) ++ "."
  recommendation := "No action required."

/-- The fee-count comparison finding of `_check_1401_04` (the
`if/elif/elif/else` ladder on `fees_paid` vs. `num_distinct`). -/
def count_finding_1401_04 (app : TrademarkApplication) : AssessmentFinding :=
  let distinct_classes := pySortedSet (app.classes.map (·.class_number))
  let num_distinct := distinct_classes.length
  let fees_paid := app.fees_paid_count
  let fee_per_class := dictGetD USPTO_FEES app.filing_type (dictGetD USPTO_FEES "TEAS_STANDARD" 0)
  if fees_paid == 0 then mk1401_04_info num_distinct distinct_classes app.filing_type fee_per_class
  else if fees_paid < (num_distinct : Int) then
    mk1401_04_shortage fees_paid num_distinct distinct_classes app.filing_type fee_per_class
  else if (num_distinct : Int) < fees_paid then
    mk1401_04_excess fees_paid num_distinct fee_per_class
  else mk1401_04_ok fees_paid num_distinct distinct_classes app.filing_type fee_per_class

/-- `_check_1401_04_classification_determines_fees`. -/
def check_1401_04 (s : AssessorState) : AssessorState :=
  let claimed_classes := s.app.classes.map (·.class_number)
  let distinct_classes := pySortedSet claimed_classes
  let num_distinct := distinct_classes.length
  let fees_paid := s.app.fees_paid_count
  let fs1 :=
    if claimed_classes.length ≠ distinct_classes.length then
      let duplicates := distinct_classes.filter (fun cls => 1 < claimed_classes.count cls)
      s.findings ++ [mk1401_04_dup duplicates]
    else s.findings
  let fee_per_class := dictGetD USPTO_FEES s.app.filing_type (dictGetD USPTO_FEES "TEAS_STANDARD" 0)
  let _expected_fee_total : Int := (num_distinct : Int) * fee_per_class
  -- dead local of the source, never read afterwards:
  let _actual_fee_total : ℚ :=
    if 0 < s.app.total_fee_paid then s.app.total_fee_paid else ((fees_paid * fee_per_class : Int) : ℚ)
  let fs2 := fs1 ++ [count_finding_1401_04 s.app]
  let fs3 := s.app.classes.foldl
    (fun acc cls_entry =>
      if !cls_entry.fee_paid then
        acc ++ [{
          tmep_section := "§1401.04", severity := "ERROR",
          class_number := cls_entry.class_number,
          item := "Class " ++ toString cls_entry.class_number ++ " — No fee",
          finding := "No filing fee has been paid for Class " ++
            toString cls_entry.class_number ++ ". " ++
            "Per §1401.04, each class requires a separate fee.",
          recommendation := "Submit $" ++ toString fee_per_class ++ " (" ++ s.app.filing_type ++
            ") " ++ "for Class " ++ toString cls_entry.class_number ++ "." }]
      else acc)
    fs2
  { app := s.app, findings := fs3 }

/-! ### §1401.05 — criteria for classification -/

/-- One record of the `ambiguous_pairs` table of `_check_1401_05`. -/
structure AmbiguousPair where
  term : String
  goods_form : String
  goods_class : Int
  goods_reason : String
  service_form : String
  service_class : Int
  service_reason : String
deriving DecidableEq, Repr

/-- `ambiguous_pairs` of `_check_1401_05`. -/
def ambiguous_pairs_1401_05 : List AmbiguousPair := [
  { term := "music", goods_form := "downloadable music", goods_class := 9,
    goods_reason := "Downloadable music is a DIGITAL PRODUCT (what it is = a file) → Class 9",
    service_form := "music streaming service", service_class := 41,
    service_reason := "Music streaming is an ENTERTAINMENT SERVICE (what it does = entertains) → Class 41" },
  { term := "video", goods_form := "downloadable video content", goods_class := 9,
    goods_reason := "Downloadable video is a DIGITAL PRODUCT → Class 9",
    service_form := "video streaming service", service_class := 41,
    service_reason := "Video streaming is an ENTERTAINMENT SERVICE → Class 41" },
  { term := "software", goods_form := "downloadable software", goods_class := 9,
    goods_reason := "Downloadable software is a DIGITAL PRODUCT → Class 9",
    service_form := "software as a service", service_class := 42,
    service_reason := "SaaS is a TECHNOLOGY SERVICE (what it does = provides tech access) → Class 42" },
  { term := "book", goods_form := "downloadable ebooks", goods_class := 9,
    goods_reason := "Downloadable ebooks are DIGITAL PRODUCTS → Class 9",
    service_form := "printed books", service_class := 16,
    service_reason := "Printed books are PHYSICAL GOODS (paper products) → Class 16" },
  { term := "food", goods_form := "packaged food products", goods_class := 30,
    goods_reason := "Packaged food is a PHYSICAL PRODUCT (what it is = food) → Class 29/30",
    service_form := "restaurant food service", service_class := 43,
    service_reason := "Restaurant is a FOOD SERVICE (what it does = serves meals) → Class 43" },
  { term := "education", goods_form := "educational printed materials", goods_class := 16,
    goods_reason := "Printed educational materials are GOODS → Class 16",
    service_form := "educational services", service_class := 41,
    service_reason := "Educational services are SERVICES (what they do = educate) → Class 41" }]

/-- The loop body of `_check_1401_05` for one class entry. -/
def c05_entry (cls_entry : ClassEntry) (fs : List AssessmentFinding) : List AssessmentFinding :=
  let id_text := pyLower cls_entry.identification
  match get_class_info cls_entry.class_number with
  | none => fs
  | some class_info =>
    let fs1 := ambiguous_pairs_1401_05.foldl
      (fun acc pair =>
        if strIn pair.term id_text then
          -- dead locals of the source, computed but never read:
          let _has_download := ["download", "downloadable", "recorded", "digital file"].any
            (fun w => strIn w id_text)
          let _has_service_language := ["service", "streaming", "providing", "access to"].any
            (fun w => strIn w id_text)
          let _has_print := ["printed", "paper", "physical"].any (fun w => strIn w id_text)
          acc ++ [{
            tmep_section := "§1401.05", severity := "INFO",
            class_number := cls_entry.class_number,
            item := "Ambiguous term: \"" ++ pair.term ++ "\" in Class " ++
              toString cls_entry.class_number,
            finding := "CLASSIFICATION CRITERIA ANALYSIS for \x27" ++ pair.term ++ "\x27:\n" ++
              "   • If this is a PRODUCT (goods form) → " ++
              "Class " ++ toString pair.goods_class ++ ": " ++ pair.goods_reason ++ "\n" ++
              "   • If this is a SERVICE (service form) → " ++
              "Class " ++ toString pair.service_class ++ ": " ++ pair.service_reason ++ "\n" ++
              "   Current placement: Class " ++ toString cls_entry.class_number ++ " " ++
              "(" ++ class_info.title ++ "). " ++
              "[Per §1401.05: goods = classified by nature; " ++
              "services = classified by function]",
            recommendation := "Confirm identification clearly distinguishes between " ++
              "the PRODUCT form (→ Class " ++ toString pair.goods_class ++ ") and " ++
              "the SERVICE form (→ Class " ++ toString pair.service_class ++ "). " ++
              "If both forms are offered, file in BOTH classes with " ++
              "separate identifications." }]
        else acc)
      fs
    if class_info.category == "GOODS" then
      fs1 ++ [{
        tmep_section := "§1401.05", severity := "INFO",
        class_number := cls_entry.class_number,
        item := "Classification Logic — Class " ++ toString cls_entry.class_number ++ " (GOODS)",
        finding := "Class " ++ toString cls_entry.class_number ++ " is a GOODS class. " ++
          "Per §1401.05, classification is based on the NATURE/COMPOSITION " ++
          "of the goods — what the product physically IS.",
        recommendation := "Ensure identification describes the product by its nature " ++
          "(e.g., material, form, composition) not its marketing purpose." }]
    else
      fs1 ++ [{
        tmep_section := "§1401.05", severity := "INFO",
        class_number := cls_entry.class_number,
        item := "Classification Logic — Class " ++ toString cls_entry.class_number ++
          " (SERVICES)",
        finding := "Class " ++ toString cls_entry.class_number ++ " is a SERVICES class. " ++
          "Per §1401.05, classification is based on the FUNCTION/PURPOSE " ++
          "of the service — what activity is performed and for whose benefit.",
        recommendation := "Ensure identification describes the service activity clearly " ++
          "(e.g., \x27providing X for Y\x27 or \x27X services for others in the field of Y\x27)." }]

/-- `_check_1401_05_criteria_for_classification`. -/
def check_1401_05 (s : AssessorState) : AssessorState :=
  { app := s.app,
    findings := s.app.classes.foldl (fun fs cls_entry => c05_entry cls_entry fs) s.findings }

end TMEP

namespace TMEP

/-! ### §1401.06 — specimen related to classification -/

/-- The inner loop of `_check_1401_06` over the other 44 classes: find the
first class (in dict order) whose strong keywords match the specimen
description strictly better than the claimed class's, with at least two
matches.  Returns that class, or `none`. -/
def c06_mismatch (claimed : Int) (own_matches : Nat) (specimen_desc_lower : String) :
    Option (Int × ClassInfo) :=
  (NICE_CLASSES.filter (fun p => p.1 ≠ claimed)).find? fun p =>
    let other_matches := (p.2.keywords.take 10).countP (fun kw => strIn kw specimen_desc_lower)
    own_matches < other_matches && 2 ≤ other_matches

/-- The loop body of `_check_1401_06` for one class entry. -/
def c06_entry (cls_entry : ClassEntry) (fs : List AssessmentFinding) : List AssessmentFinding :=
  if cls_entry.filing_basis == "1(b)" then
    fs ++ [{
      tmep_section := "§1401.06", severity := "INFO",
      class_number := cls_entry.class_number,
      item := "Class " ++ toString cls_entry.class_number ++ " — Intent to Use (§1(b))",
      finding := "No specimen required at this stage for §1(b) intent-to-use applications. " ++
        "Specimen must be submitted with the Statement of Use (SOU) " ++
        "after the mark is used in commerce.",
      recommendation := "Ensure specimen is filed with SOU when the mark is put into use." }]
  else if cls_entry.specimen_type == "" && cls_entry.specimen_description == "" then
    fs ++ [{
      tmep_section := "§1401.06", severity := "ERROR",
      class_number := cls_entry.class_number,
      item := "Class " ++ toString cls_entry.class_number ++ " — Specimen Missing",
      finding := "No specimen was provided for Class " ++ toString cls_entry.class_number ++
        ". " ++
        "For §1(a) use-based applications, a specimen showing actual " ++
        "use of the mark is required.",
      recommendation := "Submit an acceptable specimen showing the mark in actual use " ++
        "in connection with the goods/services in this class." }]
  else
    match get_class_info cls_entry.class_number with
    | none => fs
    | some class_info =>
      let specimen_type_lower := pyLower cls_entry.specimen_type
      let specimen_desc_lower := pyLower cls_entry.specimen_description
      let fs1 :=
        if class_info.category == "GOODS" then
          let is_invalid := SPECIMEN_TYPES_goods_invalid.any
            (fun inv => strIn inv specimen_type_lower)
          let is_valid := SPECIMEN_TYPES_goods_valid.any
            (fun val => strIn val specimen_type_lower)
          if is_invalid && !is_valid then
            fs ++ [{
              tmep_section := "§1401.06", severity := "ERROR",
              class_number := cls_entry.class_number,
              item := "Class " ++ toString cls_entry.class_number ++ " specimen: \x27" ++
                cls_entry.specimen_type ++ "\x27",
              finding := "UNACCEPTABLE SPECIMEN for GOODS: \x27" ++ cls_entry.specimen_type ++
                "\x27 " ++
                "is not an acceptable specimen for goods in Class " ++
                toString cls_entry.class_number ++ ". " ++
                "For goods, the specimen must show the mark directly on the goods, " ++
                "their packaging, or a point-of-sale display.",
              recommendation := "Replace specimen with an acceptable goods specimen such as: " ++
                pyJoin ", " SPECIMEN_TYPES_goods_valid ++ "." }]
          else fs
        else if class_info.category == "SERVICES" then
          let is_invalid := SPECIMEN_TYPES_services_invalid.any
            (fun inv => strIn inv specimen_type_lower)
          let is_valid := SPECIMEN_TYPES_services_valid.any
            (fun val => strIn val specimen_type_lower)
          if is_invalid && !is_valid then
            fs ++ [{
              tmep_section := "§1401.06", severity := "ERROR",
              class_number := cls_entry.class_number,
              item := "Class " ++ toString cls_entry.class_number ++ " specimen: \x27" ++
                cls_entry.specimen_type ++ "\x27",
              finding := "UNACCEPTABLE SPECIMEN for SERVICES: \x27" ++ cls_entry.specimen_type ++
                "\x27 " ++
                "is not an acceptable specimen for services in Class " ++
                toString cls_entry.class_number ++ ". " ++
                "For services, the specimen must show the mark being used in the " ++
                "rendering or advertising of the services.",
              recommendation := "Replace specimen with an acceptable services specimen such as: " ++
                pyJoin ", " SPECIMEN_TYPES_services_valid ++ "." }]
          else fs
        else fs
      -- dead local of the source (`specimen_matches_class`), never read:
      let _specimen_matches_class := (class_info.keywords.take 20).any
        (fun kw => strIn kw specimen_desc_lower)
      let own_matches := (class_info.keywords.take 10).countP
        (fun kw => strIn kw specimen_desc_lower)
      match c06_mismatch cls_entry.class_number own_matches specimen_desc_lower with
      | some other =>
        fs1 ++ [{
          tmep_section := "§1401.06", severity := "WARNING",
          class_number := cls_entry.class_number,
          item := "Specimen mismatch with Class " ++ toString cls_entry.class_number,
          finding := "Specimen description appears to match Class " ++ toString other.1 ++
            " " ++
            "(" ++ other.2.title ++ ") more closely than " ++
            "Class " ++ toString cls_entry.class_number ++ " (" ++ class_info.title ++ "). " ++
            "Specimen: \x27" ++ pyTake 100 cls_entry.specimen_description ++ "...\x27",
          recommendation := "Verify the specimen actually shows use of the mark " ++
            "in connection with the goods/services in " ++
            "Class " ++ toString cls_entry.class_number ++ ", not Class " ++
            toString other.1 ++ "." }]
      | none =>
        fs1 ++ [{
          tmep_section := "§1401.06", severity := "OK",
          class_number := cls_entry.class_number,
          item := "Class " ++ toString cls_entry.class_number ++ " specimen alignment",
          finding := "Specimen (\x27" ++ cls_entry.specimen_type ++
            "\x27) appears consistent with " ++
            "Class " ++ toString cls_entry.class_number ++ " (" ++ class_info.title ++ "). " ++
            "No obvious class mismatch detected.",
          recommendation := "Confirm specimen clearly shows the mark in actual use " ++
            "in connection with the identified goods/services." }]

/-- `_check_1401_06_specimen_related_to_classification`. -/
def check_1401_06 (s : AssessorState) : AssessorState :=
  { app := s.app,
    findings := s.app.classes.foldl (fun fs cls_entry => c06_entry cls_entry fs) s.findings }

/-! ### §1401.07 — specimen discloses special characteristics -/

/-- One record of the `reclassification_triggers` table of `_check_1401_07`. -/
structure ReclassTrigger where
  claimed_description_keywords : List String
  claimed_class : Int
  specimen_reveals_keywords : List String
  true_class : Int
  reason : String
deriving DecidableEq, Repr

/-- `reclassification_triggers` of `_check_1401_07`. -/
def reclassification_triggers_1401_07 : List ReclassTrigger := [
  { claimed_description_keywords := ["printed manual", "printed guide", "printed instruction"],
    claimed_class := 16,
    specimen_reveals_keywords := ["download", "online", "digital", "software", "app", "website"],
    true_class := 9,
    reason := "Specimen shows ONLINE/DOWNLOADABLE content. " ++
      "Printed manuals → Class 16, but downloadable/online content → Class 9." },
  { claimed_description_keywords := ["physical software", "software disk", "cd-rom"],
    claimed_class := 9,
    specimen_reveals_keywords := ["service", "cloud", "saas", "subscription", "access to"],
    true_class := 42,
    reason := "Specimen reveals this is a SOFTWARE SERVICE (SaaS/cloud), " ++
      "not a downloadable product. Software products → Class 9, " ++
      "but software services → Class 42." },
  { claimed_description_keywords := ["clothing", "apparel", "t-shirt"],
    claimed_class := 25,
    specimen_reveals_keywords := ["restaurant", "menu", "food service", "dining", "catering"],
    true_class := 43,
    reason := "Specimen shows RESTAURANT/FOOD SERVICES, not clothing. " ++
      "Clothing → Class 25, but restaurant services → Class 43." },
  { claimed_description_keywords := ["book", "publication"],
    claimed_class := 16,
    specimen_reveals_keywords := ["download", "ebook", "digital", "epub", "kindle"],
    true_class := 9,
    reason := "Specimen shows DOWNLOADABLE/DIGITAL format. " ++
      "Printed books → Class 16, but downloadable ebooks → Class 9." },
  { claimed_description_keywords := ["software", "application", "app"],
    claimed_class := 9,
    specimen_reveals_keywords := ["web-based", "saas", "subscription service", "cloud service",
      "hosted service", "no download"],
    true_class := 42,
    reason := "Specimen reveals a WEB-BASED/SAAS service, not a downloaded product. " ++
      "Downloadable software → Class 9, but SaaS/cloud services → Class 42." }]

/-- The loop body of `_check_1401_07` for one class entry: the source breaks
out of the trigger loop after the first trigger that fires. -/
def c07_entry (cls_entry : ClassEntry) (fs : List AssessmentFinding) : List AssessmentFinding :=
  if cls_entry.specimen_description == "" then fs
  else
    let spec_desc_lower := pyLower cls_entry.specimen_description
    let id_text_lower := pyLower cls_entry.identification
    match reclassification_triggers_1401_07.find? (fun trigger =>
        trigger.claimed_description_keywords.any (fun kw => strIn kw id_text_lower) &&
        trigger.specimen_reveals_keywords.any (fun kw => strIn kw spec_desc_lower)) with
    | some trigger =>
      fs ++ [{
        tmep_section := "§1401.07", severity := "ERROR",
        class_number := cls_entry.class_number,
        item := "Specimen reveals reclassification need — Class " ++
          toString cls_entry.class_number,
        finding := "RECLASSIFICATION REQUIRED: The specimen reveals special characteristics " ++
          "that conflict with the current class designation.\n" ++
          "   • Identification says: \x27" ++ pyTake 80 cls_entry.identification ++ "\x27\n" ++
          "   • Specimen reveals: " ++ trigger.reason ++ "\n" ++
          "   • Current Class: " ++ toString cls_entry.class_number ++ " → " ++
          "Correct Class: " ++ toString trigger.true_class,
        recommendation := "Amend classification from Class " ++ toString cls_entry.class_number ++
          " " ++
          "to Class " ++ toString trigger.true_class ++ " and update the " ++
          "identification accordingly. The specimen\x27s actual content " ++
          "controls classification per §1401.07." }]
    | none =>
      fs ++ [{
        tmep_section := "§1401.07", severity := "OK",
        class_number := cls_entry.class_number,
        item := "Class " ++ toString cls_entry.class_number ++
          " — Specimen characteristic review",
        finding := "No special characteristics detected in the specimen that would " ++
          "require reclassification from Class " ++ toString cls_entry.class_number ++ ". " ++
          "Specimen appears consistent with the identification provided.",
        recommendation := "No reclassification required based on specimen characteristics." }]

/-- `_check_1401_07_specimen_discloses_special_characteristics`. -/
def check_1401_07 (s : AssessorState) : AssessorState :=
  { app := s.app,
    findings := s.app.classes.foldl (fun fs cls_entry => c07_entry cls_entry fs) s.findings }

/-! ### §1401.08 — classification and identification -/

/-- The loop body of `_check_1401_08` for one class entry (the final OK
depends on the accumulated findings list). -/
def c08_entry (cls_entry : ClassEntry) (fs : List AssessmentFinding) : List AssessmentFinding :=
  let claimed_class := cls_entry.class_number
  match get_class_info claimed_class with
  | none => fs
  | some class_info =>
    let id_text := cls_entry.identification
    let id_items := ((pySplitChar ',' (pyReplaceChar ';' ',' id_text)).map pyStrip).filter
      (fun t => t ≠ "")
    -- Check 1: per-item alignment (top suggestion differs with score ≥ 7)
    let misaligned_items := id_items.filterMap (fun item =>
      match suggest_class_for_keyword item with
      | [] => none
      | top :: _ =>
        if top.classNum != claimed_class && 7 ≤ top.score then
          some (item, top.classNum,
            (match get_class_info top.classNum with
             | some ci => ci.title
             | none => "Unknown"))
        else none)
    let fs1 := misaligned_items.foldl
      (fun acc mi =>
        acc ++ [{
          tmep_section := "§1401.08", severity := "WARNING",
          class_number := claimed_class,
          item := "\x27" ++ mi.1 ++ "\x27 in Class " ++ toString claimed_class,
          finding := "ALIGNMENT ISSUE: The item \x27" ++ mi.1 ++ "\x27 is listed under " ++
            "Class " ++ toString claimed_class ++ " (" ++ class_info.title ++
            "), but it appears " ++
            "to better align with Class " ++ toString mi.2.1 ++ " " ++
            "(" ++ mi.2.2 ++ "). " ++
            "Class and identification must tell the same story (§1401.08).",
          recommendation := "Either: (a) move \x27" ++ mi.1 ++ "\x27 to Class " ++
            toString mi.2.1 ++ ", " ++
            "or (b) confirm that this item is indeed a " ++
            pyLower class_info.title ++ " product/service and amend " ++
            "the identification to clarify." }])
      fs
    -- Check 2: bundling of multiple classes in one entry
    let other_classes_suggested := id_items.foldl
      (fun (acc : List Int) item =>
        match suggest_class_for_keyword item with
        | [] => acc
        | top :: _ =>
          if top.classNum != claimed_class && 5 ≤ top.score then
            if acc.contains top.classNum then acc else acc ++ [top.classNum]
          else acc) []
    if 2 ≤ other_classes_suggested.length then
      fs1 ++ [{
        tmep_section := "§1401.08", severity := "WARNING",
        class_number := claimed_class,
        item := "Class " ++ toString claimed_class ++ " — Possible multi-class bundling",
        finding := "The identification for Class " ++ toString claimed_class ++
          " may contain goods/services " ++
          "from multiple different classes. Items in this entry may belong to " ++
          "Classes: " ++ pyJoin ", " ((pySortInt other_classes_suggested).map toString) ++ " " ++
          "as well as Class " ++ toString claimed_class ++ ".",
        recommendation := "Review the identification and separate goods/services into their " ++
          "correct individual classes. Each class must have only goods/services " ++
          "that properly belong in that class." }]
    else
      let already_flagged := fs1.any (fun f =>
        f.tmep_section == "§1401.08" && f.class_number == claimed_class &&
        (f.severity == "ERROR" || f.severity == "WARNING"))
      if !already_flagged then
        fs1 ++ [{
          tmep_section := "§1401.08", severity := "OK",
          class_number := claimed_class,
          item := "Class " ++ toString claimed_class ++ " — Class/Identification Alignment",
          finding := "Class " ++ toString claimed_class ++ " (" ++ class_info.title ++
            ") and the " ++
            "identification appear consistent and aligned. " ++
            "The written description is coherent with the class designation.",
          recommendation := "No action required." }]
      else fs1

/-- `_check_1401_08_classification_and_identification`. -/
def check_1401_08 (s : AssessorState) : AssessorState :=
  { app := s.app,
    findings := s.app.classes.foldl (fun fs cls_entry => c08_entry cls_entry fs) s.findings }

end TMEP

namespace TMEP

/-! ### §1401.09 — implementation of Nice changes -/

/-- The parse-failure INFO finding of `_check_1401_09` (the `except
ValueError` handler). -/
def mk1401_09_parsefail : AssessmentFinding where
  tmep_section := "§1401.09"
  severity := "INFO"
  class_number := 0
  item := "Filing date format"
  finding := "Filing date could not be parsed. Unable to verify Nice edition validity against filing date."
  recommendation := "Provide filing date in YYYY-MM-DD format for edition compliance check."

/-- The findings emitted by `_check_1401_09_implementation_of_nice_changes`
(every branch of the source appends at most one finding to `self.findings`
and reads nothing else from the state).  The three `strptime` calls sit in
one `try`; the edition-table dates are constants that always parse, so the
`except` branch fires exactly when the filing date fails to parse. -/
def emit_1401_09 (app : TrademarkApplication) : List AssessmentFinding :=
  let edition_used := app.nice_edition_claimed
  let filing_date_str := app.filing_date
  let current_edition := "12th"
  match dictFind NICE_EDITION_TIMELINE edition_used with
  | none =>
    [{ tmep_section := "§1401.09", severity := "WARNING", class_number := 0,
       item := "Nice Edition: \x27" ++ edition_used ++ "\x27",
       finding := "Unrecognized or unspecified Nice Agreement edition: \x27" ++ edition_used ++
         "\x27. " ++ "Cannot verify edition-specific compliance.",
       recommendation := "Confirm the application uses the " ++ current_edition ++ " Edition " ++
         "of the Nice Agreement (current as of Nov 2025)." }]
  | some edition_info =>
    if filing_date_str ≠ "" then
      match pyParseDate filing_date_str, pyParseDate edition_info.startDate,
            pyParseDate edition_info.endDate with
      | some filing_dt, some edition_start, some edition_end =>
        if dateLt filing_dt edition_start then
          [{ tmep_section := "§1401.09", severity := "ERROR", class_number := 0,
             item := "Edition/Date mismatch: " ++ edition_used ++ " edition, filed " ++
               filing_date_str,
             finding := "Filing date " ++ filing_date_str ++ " predates the " ++ edition_used ++
               " Edition " ++
               "(effective " ++ edition_info.startDate ++ "). " ++
               "The edition claimed was not yet in effect at filing.",
             recommendation := "Use the edition that was in effect on the filing date. " ++
               "Check TMEP §1401.09-§1401.15 for edition effective dates." }]
        else if dateLt edition_end filing_dt && edition_used != current_edition then
          [{ tmep_section := "§1401.09", severity := "WARNING", class_number := 0,
             item := "Outdated edition: " ++ edition_used ++ " (filed " ++ filing_date_str ++
               ")",
             finding := "Application uses the " ++ edition_used ++
               " Edition of the Nice Agreement, " ++
               "but a newer edition was in effect on the filing date " ++ filing_date_str ++
               ". " ++ "Current edition: " ++ current_edition ++ ".",
             recommendation := "Update classification to the " ++ current_edition ++
               " Edition " ++
               "requirements. Review §1401.15 for current edition changes." }]
        else
          [{ tmep_section := "§1401.09", severity := "OK", class_number := 0,
             item := "Nice Edition Version Check",
             finding := "Application uses the " ++ edition_used ++
               " Edition of the Nice Agreement, " ++
               "which was in effect on filing date " ++ filing_date_str ++ " " ++
               "(Edition effective: " ++ edition_info.startDate ++ " to " ++
               (if edition_info.endDate == "9999-12-31" then "present"
                else edition_info.endDate) ++ ").",
             recommendation := "No edition conflict detected. " ++
               (if edition_used == current_edition then "This is the current edition."
                else "") }]
      | _, _, _ => [mk1401_09_parsefail]
    else []

/-- `_check_1401_09_implementation_of_nice_changes`. -/
def check_1401_09 (s : AssessorState) : AssessorState :=
  { app := s.app, findings := s.findings ++ emit_1401_09 s.app }

/-! ### §1401.10 — effective date of ID Manual changes -/

/-- One record of the `recently_added_terms` table of `_check_1401_10`
(the extra `nft` key of the first record is never read). -/
structure RecentTerm where
  term : String
  added_after : String
  correct_class : Int
  note : String
deriving DecidableEq, Repr

/-- `recently_added_terms` of `_check_1401_10`. -/
def recently_added_terms_1401_10 : List RecentTerm := [
  { term := "non-fungible token", added_after := "2022-01-01", correct_class := 9,
    note := "NFT-related downloadable goods were added to Class 9 in the ID Manual " ++
      "after USPTO guidance in 2022." },
  { term := "artificial intelligence", added_after := "2019-01-01", correct_class := 42,
    note := "AI-specific service descriptions were formally added to the ID Manual " ++
      "in updated USPTO guidance." },
  { term := "cryptocurrency", added_after := "2014-01-01", correct_class := 36,
    note := "Cryptocurrency financial services were added to Class 36 ID Manual entries." }]

/-- The unconditional general INFO notice of `_check_1401_10`. -/
def mk1401_10_general : AssessmentFinding where
  tmep_section := "§1401.10"
  severity := "INFO"
  class_number := 0
  item := "ID Manual Compliance"
  finding := "Per §1401.10, identification language must conform to ID Manual entries " ++
    "as they existed at the time the registration is sought (not just at filing). " ++
    "The ID Manual is updated periodically and applicants must use current " ++
    "acceptable identification at time of registration."
  recommendation := "Verify all identification language against the current USPTO ID Manual " ++
    "at: https://idm.uspto.gov. Use pre-approved ID Manual language where possible."

/-- The body of the inner `for term_info in recently_added_terms` loop of
`_check_1401_10`, for one class entry.  The `try/except ValueError: pass`
appends nothing when a date fails to parse. -/
def step_1401_10 (app : TrademarkApplication) (cls_entry : ClassEntry)
    (acc : List AssessmentFinding) (term_info : RecentTerm) : List AssessmentFinding :=
  let id_text_lower := pyLower cls_entry.identification
  let filing_date_str := app.filing_date
  if strIn term_info.term id_text_lower then
    if filing_date_str ≠ "" then
      match pyParseDate filing_date_str, pyParseDate term_info.added_after with
      | some filing_dt, some added_dt =>
        if dateLt filing_dt added_dt then
          acc ++ [{
            tmep_section := "§1401.10", severity := "WARNING",
            class_number := cls_entry.class_number,
            item := "\x27" ++ term_info.term ++ "\x27 — ID Manual date check",
            finding := "The term \x27" ++ term_info.term ++
              "\x27 in the identification " ++
              "may not have been accepted in the ID Manual at the " ++
              "time of filing (" ++ filing_date_str ++ "). " ++
              term_info.note,
            recommendation := "Verify this term was acceptable in the USPTO ID Manual " ++
              "at the time of filing. If not, amend to use language " ++
              "acceptable as of the filing date." }]
        else
          acc ++ [{
            tmep_section := "§1401.10", severity := "INFO",
            class_number := cls_entry.class_number,
            item := "\x27" ++ term_info.term ++ "\x27 — Modern term detected",
            finding := "Modern/specialized term \x27" ++ term_info.term ++
              "\x27 detected. " ++
              term_info.note ++ " " ++
              "This term is acceptable in the current ID Manual.",
            recommendation := "Ensure identification uses the exact accepted " ++
              "ID Manual language for this term in Class " ++
              toString term_info.correct_class ++ "." }]
      | _, _ => acc
    else acc
  else acc

/-- One iteration of the outer `for cls_entry in application.classes` loop
of `_check_1401_10`. -/
def class_step_1401_10 (app : TrademarkApplication) (fs : List AssessmentFinding)
    (cls_entry : ClassEntry) : List AssessmentFinding :=
  recently_added_terms_1401_10.foldl (step_1401_10 app cls_entry) fs

/-- The findings emitted by `_check_1401_10_effective_date_id_manual` (the
check only appends to `self.findings`).  Its `except ValueError: pass` emits
nothing when the filing date fails to parse. -/
def emit_1401_10 (app : TrademarkApplication) : List AssessmentFinding :=
  let fs1 := app.classes.foldl (class_step_1401_10 app) []
  fs1 ++ [mk1401_10_general]

/-- `_check_1401_10_effective_date_id_manual`. -/
def check_1401_10 (s : AssessorState) : AssessorState :=
  { app := s.app, findings := s.findings ++ emit_1401_10 s.app }

/-! ### §1401.11 — Class 42 restructuring (8th Edition) -/

/-- `old_class_42_misplacements` of `_check_1401_11`, in dict insertion
order. -/
def old_class_42_misplacements_1401_11 : List (String × (Int × String)) := [
  ("restaurant", (43, "Food/restaurant services → Class 43 (split from old Class 42 in 8th Ed.)")),
  ("food service", (43, "Food services → Class 43")),
  ("hotel", (43, "Hotel/accommodation → Class 43")),
  ("catering", (43, "Catering services → Class 43")),
  ("accommodation", (43, "Accommodation → Class 43")),
  ("medical service", (44, "Medical services → Class 44 (split from old Class 42 in 8th Ed.)")),
  ("dental service", (44, "Dental services → Class 44")),
  ("veterinary", (44, "Veterinary services → Class 44")),
  ("beauty service", (44, "Beauty services → Class 44")),
  ("salon", (44, "Salon services → Class 44")),
  ("healthcare", (44, "Healthcare services → Class 44")),
  ("legal service", (45, "Legal services → Class 45 (split from old Class 42 in 8th Ed.)")),
  ("law firm", (45, "Law firm services → Class 45")),
  ("security guard", (45, "Security guard services → Class 45")),
  ("social service", (45, "Social services → Class 45"))]

/-- The tech-service keyword list of the post-2002 Class 42 usage check in
`_check_1401_11`. -/
def class42_tech_keywords : List String := [
  "software", "technology", "it service", "computer",
  "research", "cloud", "saas", "data", "programming",
  "cybersecurity", "network", "engineering service"]

/-- The body of the inner `for old_term, (new_class, note) in
old_class_42_misplacements.items()` loop of `_check_1401_11`, for one
Class-42 entry. -/
def misplacement_step_1401_11 (cls_entry : ClassEntry)
    (acc : List AssessmentFinding) (p : String × (Int × String)) : List AssessmentFinding :=
  let id_text_lower := pyLower cls_entry.identification
  if strIn p.1 id_text_lower then
    acc ++ [{
      tmep_section := "§1401.11", severity := "ERROR", class_number := (42 : Int),
      item := "\x27" ++ p.1 ++ "\x27 in Class 42",
      finding := "POST-8TH EDITION CLASS 42 VIOLATION: \x27" ++ p.1 ++
        "\x27 is placed " ++
        "in Class 42, but this service was moved to Class " ++ toString p.2.1 ++ " " ++
        "when the 8th Edition of the Nice Agreement restructured Class 42 " ++
        "(effective Jan 1, 2002). " ++ p.2.2,
      recommendation := "Move \x27" ++ p.1 ++ "\x27 from Class 42 to Class " ++
        toString p.2.1 ++ ". " ++
        "Class 42 (post-8th Edition) covers only scientific and " ++
        "technological services, IT services, and software-related services." }]
  else acc

/-- One iteration of the `for cls_entry in application.classes` loop of
`_check_1401_11` (skips entries whose class is not 42). -/
def class_step_1401_11 (fs : List AssessmentFinding)
    (cls_entry : ClassEntry) : List AssessmentFinding :=
  if cls_entry.class_number != 42 then fs
  else old_class_42_misplacements_1401_11.foldl (misplacement_step_1401_11 cls_entry) fs

/-- `_check_1401_11_class42_restructuring_8th_edition`.  Its
`except ValueError: pass` emits nothing when the filing date fails to
parse.  This is the emitted-findings form (the check only appends). -/
def emit_1401_11 (app : TrademarkApplication) : List AssessmentFinding :=
  let fs1 := app.classes.foldl class_step_1401_11 []
  if app.filing_date ≠ "" then
    match pyParseDate app.filing_date with
    | some filing_dt =>
      let edition_8_start : Date := ⟨2002, 1, 1⟩
      if dateLt filing_dt edition_8_start then
        match app.classes.find? (fun c =>
            c.class_number == 43 || c.class_number == 44 || c.class_number == 45) with
        | some cls_entry =>
          fs1 ++ [{
            tmep_section := "§1401.11", severity := "INFO",
            class_number := cls_entry.class_number,
            item := "Pre-8th Edition filing using Class " ++ toString cls_entry.class_number,
            finding := "This application has a filing date (" ++ app.filing_date ++ ") " ++
              "BEFORE the 8th Edition restructuring of Class 42 " ++
              "(effective Jan 1, 2002). Classes 43, 44, and 45 " ++
              "did not exist before this date.",
            recommendation := "Review the application against the edition in effect " ++
              "at the time of filing. Consult §1401.11 for " ++
              "transition rules for pre-8th Edition applications." }]
        | none => fs1
      else
        let class_42_entries := app.classes.filter (fun c => c.class_number == 42)
        if class_42_entries.isEmpty then
          fs1 ++ [{
            tmep_section := "§1401.11", severity := "INFO", class_number := 0,
            item := "Class 42 Restructuring Check",
            finding := "No Class 42 entries in this application. " ++
              "Note: As of 8th Edition (Jan 1, 2002), Class 42 covers only " ++
              "scientific/technological/IT services. " ++
              "Restaurant services → Class 43; Medical → Class 44; " ++
              "Legal → Class 45.",
            recommendation := "No action required for §1401.11." }]
        else
          class_42_entries.foldl
            (fun acc cls42 =>
              let id_lower := pyLower cls42.identification
              if class42_tech_keywords.any (fun kw => strIn kw id_lower) then
                acc ++ [{
                  tmep_section := "§1401.11", severity := "OK", class_number := 42,
                  item := "Class 42 usage (post-8th Edition)",
                  finding := "Class 42 is being used for technology/scientific services " ++
                    "consistent with the post-8th Edition restructuring.",
                  recommendation := "No action required." }]
              else acc)
            fs1
    | none => fs1
  else fs1

/-- `_check_1401_11_class42_restructuring_8th_edition`. -/
def check_1401_11 (s : AssessorState) : AssessorState :=
  { app := s.app, findings := s.findings ++ emit_1401_11 s.app }

/-! ### §1401.12 — 9th Edition changes -/

/-- The general INFO notice of `_check_1401_12`. -/
def mk1401_12_general : AssessmentFinding where
  tmep_section := "§1401.12"
  severity := "INFO"
  class_number := 0
  item := "9th Edition Nice Agreement Review"
  finding := "9th Edition (2002–2006): Key changes included refinements to educational " ++
    "and entertainment services (Class 41), further definition of Class 42 " ++
    "technology services, and movement of internet-related services to Class 38. " ++
    "No critical violations detected under 9th Edition rules in this application."
  recommendation := "If application was filed during 2002–2006, verify against 9th Edition " ++
    "ID Manual entries. For current applications, 12th Edition applies."

/-- The findings emitted by `_check_1401_12_9th_edition_changes` (the check
only appends).  The `ninth_edition_changes` table has one record:
`("Internet access provider", 41) → 38`. -/
def emit_1401_12 (app : TrademarkApplication) : List AssessmentFinding :=
  let old_class : Int := 41
  let old_term := "Internet access provider"
  let new_class : Int := 38
  let note := "Internet access provider services: Class 41 → Class 38 (Telecom) in 9th Ed."
  let fs1 := app.classes.foldl
    (fun fs cls_entry =>
      let id_text_lower := pyLower cls_entry.identification
      if cls_entry.class_number == old_class && strIn (pyLower old_term) id_text_lower then
        fs ++ [{
          tmep_section := "§1401.12", severity := "WARNING",
          class_number := cls_entry.class_number,
          item := "\x27" ++ old_term ++ "\x27 in Class " ++ toString old_class,
          finding := "9TH EDITION CHANGE: \x27" ++ old_term ++ "\x27 was reclassified from " ++
            "Class " ++ toString old_class ++ " to Class " ++ toString new_class ++ " " ++
            "in the 9th Edition. " ++ note,
          recommendation := "Move \x27" ++ old_term ++ "\x27 from Class " ++
            toString old_class ++ " to " ++ "Class " ++ toString new_class ++ "." }]
      else fs)
    []
  fs1 ++ [mk1401_12_general]

/-- `_check_1401_12_9th_edition_changes`. -/
def check_1401_12 (s : AssessorState) : AssessorState :=
  { app := s.app, findings := s.findings ++ emit_1401_12 s.app }

/-! ### §1401.13 — 10th Edition changes -/

/-- `digital_content_terms` of `_check_1401_13`. -/
def digital_content_terms_1401_13 : List String := [
  "downloadable music", "downloadable video", "downloadable ringtone",
  "downloadable image", "downloadable audio", "downloadable software",
  "downloadable ebook", "downloadable digital content"]

/-- The findings emitted by `_check_1401_13_10th_edition_changes`
(the check only appends). -/
def emit_1401_13 (app : TrademarkApplication) : List AssessmentFinding :=
  app.classes.foldl
      (fun fs cls_entry =>
        let id_text_lower := pyLower cls_entry.identification
        let fs1 := digital_content_terms_1401_13.foldl
          (fun acc term =>
            if strIn term id_text_lower && cls_entry.class_number != 9 then
              acc ++ [{
                tmep_section := "§1401.13", severity := "ERROR",
                class_number := cls_entry.class_number,
                item := "\x27" ++ term ++ "\x27 in Class " ++ toString cls_entry.class_number,
                finding := "10TH EDITION CHANGE VIOLATION: \x27" ++ term ++
                  "\x27 is a DOWNLOADABLE DIGITAL " ++
                  "PRODUCT. Per the 10th Edition expansion of Class 9 (effective 2007), " ++
                  "all downloadable digital content belongs in Class 9 — " ++
                  "not in Class " ++ toString cls_entry.class_number ++ ".",
                recommendation := "Move \x27" ++ term ++
                  "\x27 to Class 9 (Scientific and Electronic Apparatus). " ++
                  "Class 9 now explicitly includes downloadable digital content " ++
                  "per §1401.13 and 10th Edition Nice Agreement." }]
            else acc)
          fs
        if cls_entry.class_number == 9 &&
            digital_content_terms_1401_13.any (fun term => strIn term id_text_lower) then
          fs1 ++ [{
            tmep_section := "§1401.13", severity := "OK", class_number := 9,
            item := "Class 9 — Downloadable digital content",
            finding := "Downloadable digital content correctly placed in Class 9 " ++
              "per 10th Edition Nice Agreement expansion.",
            recommendation := "Ensure identification specifies \x27downloadable\x27 to distinguish " ++
              "from streaming services (which go in Class 41/42)." }]
        else fs1)
    []

/-- `_check_1401_13_10th_edition_changes`. -/
def check_1401_13 (s : AssessorState) : AssessorState :=
  { app := s.app, findings := s.findings ++ emit_1401_13 s.app }

/-! ### §1401.14 — 11th Edition changes -/

/-- One record of the `eleventh_edition_checks` table. -/
structure EditionCheck14 where
  term : String
  expected_class : Int
  note : String
deriving DecidableEq, Repr

/-- `eleventh_edition_checks` of `_check_1401_14`. -/
def eleventh_edition_checks_1401_14 : List EditionCheck14 := [
  { term := "online marketplace", expected_class := 35,
    note := "11th Ed.: Online marketplace/platform services added explicitly to Class 35." },
  { term := "retail store", expected_class := 35,
    note := "11th Ed.: Online retail store services confirmed in Class 35." },
  { term := "social media", expected_class := 38,
    note := "11th Ed.: Social media platform services added to Class 38 (telecom)." },
  { term := "online social network", expected_class := 38,
    note := "11th Ed.: Online social networking services → Class 38." },
  { term := "saas", expected_class := 42,
    note := "11th Ed.: Software as a Service (SaaS) explicitly codified in Class 42." },
  { term := "cloud computing", expected_class := 42,
    note := "11th Ed.: Cloud computing services added to Class 42." },
  { term := "platform as a service", expected_class := 42,
    note := "11th Ed.: PaaS services → Class 42." }]

/-- The findings emitted by `_check_1401_14_11th_edition_changes`
(the check only appends). -/
def emit_1401_14 (app : TrademarkApplication) : List AssessmentFinding :=
  app.classes.foldl
      (fun fs cls_entry =>
        let id_text_lower := pyLower cls_entry.identification
        eleventh_edition_checks_1401_14.foldl
          (fun acc check =>
            if strIn check.term id_text_lower then
              if cls_entry.class_number != check.expected_class then
                acc ++ [{
                  tmep_section := "§1401.14", severity := "ERROR",
                  class_number := cls_entry.class_number,
                  item := "\x27" ++ check.term ++ "\x27 in Class " ++
                    toString cls_entry.class_number,
                  finding := "11TH EDITION CHANGE: \x27" ++ check.term ++ "\x27 should be in " ++
                    "Class " ++ toString check.expected_class ++
                    " per 11th Edition changes. " ++
                    check.note ++ " " ++
                    "Currently placed in Class " ++ toString cls_entry.class_number ++ ".",
                  recommendation := "Move \x27" ++ check.term ++ "\x27 to Class " ++
                    toString check.expected_class ++ "." }]
              else
                acc ++ [{
                  tmep_section := "§1401.14", severity := "OK",
                  class_number := cls_entry.class_number,
                  item := "\x27" ++ check.term ++ "\x27 classification (11th Edition)",
                  finding := "\x27" ++ check.term ++ "\x27 correctly placed in Class " ++
                    toString cls_entry.class_number ++ " " ++
                    "per 11th Edition Nice Agreement changes.",
                  recommendation := "No action required." }]
            else acc)
          fs)
    []

/-- `_check_1401_14_11th_edition_changes`. -/
def check_1401_14 (s : AssessorState) : AssessorState :=
  { app := s.app, findings := s.findings ++ emit_1401_14 s.app }

/-! ### §1401.15 — 12th Edition changes -/

/-- One record of the `twelfth_edition_checks` table. -/
structure EditionCheck15 where
  term : String
  expected_class : Int
  wrong_class_examples : List Int
  note : String
deriving DecidableEq, Repr

/-- `twelfth_edition_checks` of `_check_1401_15`. -/
def twelfth_edition_checks_1401_15 : List EditionCheck15 := [
  { term := "artificial intelligence", expected_class := 42, wrong_class_examples := [9, 35],
    note := "12th Ed.: AI services (AI software development, AI consulting) → Class 42." },
  { term := "machine learning", expected_class := 42, wrong_class_examples := [9, 35],
    note := "12th Ed.: Machine learning services → Class 42." },
  { term := "non-fungible token", expected_class := 9, wrong_class_examples := [35, 36],
    note := "12th Ed.: NFT digital files/goods → Class 9. NFT marketplace services → Class 35." },
  { term := "nft", expected_class := 9, wrong_class_examples := [35, 36, 42],
    note := "12th Ed.: Downloadable NFT goods → Class 9. " ++
      "NFT authentication services → Class 42." },
  { term := "virtual goods", expected_class := 9, wrong_class_examples := [28, 35],
    note := "12th Ed.: Virtual/digital goods (metaverse items, in-game items) → Class 9." },
  { term := "blockchain", expected_class := 42, wrong_class_examples := [9, 36],
    note := "12th Ed.: Blockchain technology services → Class 42. " ++
      "Blockchain financial services → Class 36." },
  { term := "metaverse", expected_class := 41, wrong_class_examples := [9, 42],
    note := "12th Ed.: Metaverse entertainment/virtual events → Class 41. " ++
      "Virtual goods within metaverse → Class 9." }]

/-- The general INFO notice of `_check_1401_15`. -/
def mk1401_15_general : AssessmentFinding where
  tmep_section := "§1401.15"
  severity := "INFO"
  class_number := 0
  item := "12th Edition (Current) Compliance — Nov 2025"
  finding := "This assessment is based on the 12th Edition of the Nice Agreement " ++
    "(effective January 1, 2023), which is the current edition as of Nov 2025. " ++
    "Key additions: AI/ML services (Class 42), virtual goods/NFTs (Class 9), " ++
    "blockchain services (Class 42), metaverse entertainment (Class 41)."
  recommendation := "Ensure all identification language conforms to 12th Edition requirements " ++
    "and current USPTO ID Manual entries."

/-- The findings emitted by `_check_1401_15_12th_edition_changes`
(the check only appends). -/
def emit_1401_15 (app : TrademarkApplication) : List AssessmentFinding :=
  let fs1 := app.classes.foldl
    (fun fs cls_entry =>
      let id_text_lower := pyLower cls_entry.identification
      twelfth_edition_checks_1401_15.foldl
        (fun acc check =>
          if strIn check.term id_text_lower then
            if check.wrong_class_examples.contains cls_entry.class_number then
              acc ++ [{
                tmep_section := "§1401.15", severity := "WARNING",
                class_number := cls_entry.class_number,
                item := "\x27" ++ check.term ++ "\x27 in Class " ++
                  toString cls_entry.class_number,
                finding := "12TH EDITION (CURRENT) NOTE: \x27" ++ check.term ++ "\x27 may be " ++
                  "misplaced in Class " ++ toString cls_entry.class_number ++ ". " ++
                  check.note,
                recommendation := "Per the 12th Edition Nice Agreement (current), " ++
                  "consider whether \x27" ++ check.term ++ "\x27 belongs in " ++
                  "Class " ++ toString check.expected_class ++ ". " ++
                  "Review the latest USPTO ID Manual entries." }]
            else if cls_entry.class_number == check.expected_class then
              acc ++ [{
                tmep_section := "§1401.15", severity := "OK",
                class_number := cls_entry.class_number,
                item := "\x27" ++ check.term ++ "\x27 — 12th Edition compliance",
                finding := "\x27" ++ check.term ++ "\x27 correctly placed in Class " ++
                  toString cls_entry.class_number ++ " " ++
                  "per 12th Edition Nice Agreement (current edition). " ++ check.note,
                recommendation := "No action required." }]
            else acc
          else acc)
        fs)
    []
  fs1 ++ [mk1401_15_general]

/-- `_check_1401_15_12th_edition_changes`. -/
def check_1401_15 (s : AssessorState) : AssessorState :=
  { app := s.app, findings := s.findings ++ emit_1401_15 s.app }

/-! ### Pillar 1 entry point -/

/-- `TMEP1401Assessor.run_full_assessment`: clear the findings, run the 15
checks in sequence, return the final state and the findings list. -/
def run_full_assessment_1401 (s : AssessorState) : AssessorState × List AssessmentFinding :=
  let s0 : AssessorState := { app := s.app, findings := [] }
  let s15 :=
    check_1401_15 (check_1401_14 (check_1401_13 (check_1401_12 (check_1401_11
      (check_1401_10 (check_1401_09 (check_1401_08 (check_1401_07 (check_1401_06
        (check_1401_05 (check_1401_04 (check_1401_03 (check_1401_02
          (check_1401_01 s0))))))))))))))
  (s15, s15.findings)

/-- Findings of a full Pillar 1 run on an application. -/
def pillar1Findings (app : TrademarkApplication) : List AssessmentFinding :=
  (run_full_assessment_1401 { app := app, findings := [] }).2

end TMEP

namespace TMEP

/-! ### `tmep_1402_pillar2.py` — Pillar 2 identification lens -/

/-- `Pillar1ClassContext` (bridge carrying Pillar 1 results into Pillar 2). -/
structure Pillar1ClassContext where
  class_number : Int
  class_title : String
  class_category : String
  filing_basis : String
  specimen_type : String := ""
  specimen_description : String := ""
  has_pillar1_class_error : Bool := false
  has_pillar1_class_warning : Bool := false
  pillar1_error_summary : String := ""
deriving DecidableEq, Repr

/-- `SubsectionFinding` (Pillar 2 finding record). -/
structure SubsectionFinding where
  tmep_section : String
  severity : String
  item : String
  finding : String
  recommendation : String
deriving DecidableEq, Repr

/-- `TMEP1402AnalysisResult`. -/
structure TMEP1402AnalysisResult where
  is_definite : Bool
  identified_goods_services : List String
  purpose_detected : Bool
  vague_terms_found : List String
  structural_issues : List String
  reasoning : String
  subsection_findings : List SubsectionFinding := []
  pillar1_dependency_note : String := ""
deriving DecidableEq, Repr

/-- `TMEP1402Lens.VAGUE_TERMS`, in source order. -/
def VAGUE_TERMS : List String := [
  "including", "and related", "etc", "etc.", "products", "services",
  "solutions", "technology", "equipment", "devices", "materials", "systems",
  "components", "platform",
  "miscellaneous", "various", "all types", "any", "type of", "kind of",
  "and the like", "other"]

/-- `BANNED_TERMS_1402_09`. -/
def BANNED_TERMS_1402_09 : List String := ["applicant", "registrant"]

/-- `TMEP1402Lens.extract_candidate_goods`: split on semicolons, strip,
drop empties. -/
def extract_candidate_goods (text : String) : List String :=
  ((pySplitChar ';' text).map pyStrip).filter (fun seg => seg ≠ "")

/-- `TMEP1402Lens.detect_purpose_language`:
`\bfor\b | \bnamely\b | \bconsisting of\b | \bin the field of\b | \bused for\b`,
case-insensitive. -/
def detect_purpose_language (text : String) : Bool :=
  ["for", "namely", "consisting of", "in the field of", "used for"].any
    (fun p => searchWord p (pyLower text))

/-- The loop of `TMEP1402Lens.detect_vague_terms` over `VAGUE_TERMS`:
a term is recorded when its pattern matches and it is not already recorded;
`services` is additionally suppressed when followed by
`for|in|of|namely|consisting`. -/
def detectVagueGo (text : String) : List String → List String → List String
  | [], found => found
  | term :: ts, found =>
    if searchVague term (pyLower text) && !found.contains term then
      if term == "services" then
        if !searchServicesQual (pyLower text) then detectVagueGo text ts (found ++ [term])
        else detectVagueGo text ts found
      else detectVagueGo text ts (found ++ [term])
    else detectVagueGo text ts found

/-- `TMEP1402Lens.detect_vague_terms`. -/
def detect_vague_terms (text : String) : List String :=
  detectVagueGo text VAGUE_TERMS []

/-- `TMEP1402Lens.detect_structural_issues`. -/
def detect_structural_issues (text : String) : List String :=
  (if 3 < countWord "and" (pyLower text) then
    ["Excessive conjunction stacking (\x27and\x27) may indicate over-breadth."]
   else []) ++
  (if anyBracket text then
    ["Parentheses or brackets detected. Prohibited under TMEP §1402.12."]
   else [])

/-- `_check_1402_01` (segmentation / particular goods). -/
def check_1402_01 (segments : List String) : SubsectionFinding :=
  match segments with
  | [] =>
    { tmep_section := "§1402.01", severity := "ERROR",
      item := "Identification text",
      finding := "Identification is empty or cannot be parsed into distinct goods/services.",
      recommendation := "Provide a clear, itemized list of goods/services separated by semicolons." }
  | _ :: _ =>
    { tmep_section := "§1402.01", severity := "OK",
      item := toString segments.length ++ " item(s) identified",
      finding := "Identification contains " ++ toString segments.length ++ " item(s): " ++
        pyJoin "; " ((segments.take 3).map (pyTake 40)) ++
        (if 3 < segments.length then "..." else ""),
      recommendation := "No action required." }

/-- The placeholder list of `_check_1402_02`. -/
def placeholders_1402_02 : List String :=
  ["tbd", "to be determined", "see attached", "n/a", "[insert]", "xxx", "your goods here"]

/-- `_check_1402_02` (filing-date entitlement). -/
def check_1402_02 (text : String) : SubsectionFinding :=
  let text_lower := pyStrip (pyLower text)
  if placeholders_1402_02.any (fun p => strIn p text_lower) then
    { tmep_section := "§1402.02", severity := "ERROR",
      item := "Placeholder text detected",
      finding := "Identification contains placeholder or incomplete text. " ++
        "Application will not be entitled to its filing date.",
      recommendation := "Replace placeholder text with a complete, definite identification " ++
        "of actual goods/services." }
  else if text_lower.toList.length < 10 then
    { tmep_section := "§1402.02", severity := "ERROR",
      item := "Identification too short",
      finding := "Identification is too brief to secure a filing date.",
      recommendation := "Provide a complete identification of goods/services." }
  else
    { tmep_section := "§1402.02", severity := "OK",
      item := "Filing date entitlement",
      finding := "Identification appears complete enough to support filing date entitlement.",
      recommendation := "No action required." }

/-- The severe subset of `_check_1402_03`. -/
def severe_vague_terms : List String :=
  ["miscellaneous", "various", "all types", "any", "and the like", "etc", "etc."]

/-- `_check_1402_03` (specificity): severe indefinite terms are an ERROR,
mild ones a WARNING. -/
def check_1402_03 (vague_found : List String) : SubsectionFinding :=
  let severe_vague := vague_found.filter (fun t => severe_vague_terms.contains t)
  let mild_vague := vague_found.filter (fun t => !severe_vague_terms.contains t)
  match severe_vague with
  | _ :: _ =>
    { tmep_section := "§1402.03", severity := "ERROR",
      item := "Indefinite terms: " ++ pyJoin ", " severe_vague,
      finding := "Severely indefinite terms found: " ++ pyJoin ", " severe_vague ++ ". " ++
        "These are categorically unacceptable under USPTO practice.",
      recommendation := "Remove all indefinite terms. Replace with specific, " ++
        "enumerated goods/services." }
  | [] =>
    match mild_vague with
    | _ :: _ =>
      { tmep_section := "§1402.03", severity := "WARNING",
        item := "Potentially vague terms: " ++ pyJoin ", " mild_vague,
        finding := "Possibly indefinite terms found: " ++ pyJoin ", " mild_vague ++ ". " ++
          "These may be acceptable with additional specificity.",
        recommendation := "Review terms: " ++ pyJoin ", " mild_vague ++ ". " ++
          "Add \x27namely\x27 clauses to specify exact goods/services." }
    | [] =>
      { tmep_section := "§1402.03", severity := "OK",
        item := "Specificity check",
        finding := "No indefinite terms detected. Identification appears sufficiently specific.",
        recommendation := "No action required." }

/-- `_check_1402_05` (accuracy against the Pillar 1 specimen). -/
def check_1402_05 (text : String) (p1 : Option Pillar1ClassContext) : SubsectionFinding :=
  match p1 with
  | none =>
    { tmep_section := "§1402.05", severity := "INFO",
      item := "Accuracy check (no Pillar 1 context)",
      finding := "No Pillar 1 context provided. Cannot cross-check identification " ++
        "accuracy against specimen.",
      recommendation := "Run with Pillar 1 context for full §1402.05 accuracy check." }
  | some ctx =>
    if ctx.has_pillar1_class_error then
      { tmep_section := "§1402.05", severity := "WARNING",
        item := "Class " ++ toString ctx.class_number ++ " — Accuracy deferred",
        finding := "Pillar 1 detected a classification ERROR for this class. " ++
          "Accuracy of identification cannot be confirmed until the class " ++
          "is corrected. Pillar 1 issue: " ++ pyTake 100 ctx.pillar1_error_summary,
        recommendation := "Resolve Pillar 1 classification errors first, then " ++
          "re-assess identification accuracy in the correct class." }
    else if ctx.filing_basis == "1(b)" then
      { tmep_section := "§1402.05", severity := "INFO",
        item := "Class " ++ toString ctx.class_number ++ " — §1(b) accuracy standard",
        finding := "Intent-to-use application (§1(b)). Identification must accurately " ++
          "reflect goods/services applicant has a bona fide intention to use. " ++
          "Specimen not yet required — accuracy will be verified at SOU stage.",
        recommendation := "Ensure identification reflects actual intended use. " ++
          "Overly broad identifications may cause problems at SOU stage." }
    else
      let id_lower := pyLower text
      let spec_lower := pyLower ctx.specimen_description
      if spec_lower == "" then
        { tmep_section := "§1402.05", severity := "INFO",
          item := "No specimen description from Pillar 1",
          finding := "Specimen description not available for accuracy cross-check.",
          recommendation := "Provide specimen description in Pillar 1 class entry for full check." }
      else
        let id_words := (wordRuns4 id_lower).eraseDups
        let spec_words := (wordRuns4 spec_lower).eraseDups
        let overlap := spec_words.filter (fun w => id_words.contains w)
        let overlap_ratio : ℚ := (overlap.length : ℚ) / (max spec_words.length 1 : ℚ)
        if overlap_ratio < 1 / 10 && 3 < spec_words.length then
          { tmep_section := "§1402.05", severity := "WARNING",
            item := "Low overlap between identification and specimen",
            finding := "Low conceptual overlap between identification and specimen description " ++
              "(~" ++ toString (⌊overlap_ratio * 100⌋ : Int) ++ "% word overlap). " ++
              "Identification may not accurately reflect the actual goods/services " ++
              "shown in the specimen.",
            recommendation := "Review whether identification accurately describes what the " ++
              "specimen actually shows. Amend if over-broad or misaligned." }
        else
          { tmep_section := "§1402.05", severity := "OK",
            item := "Accuracy vs. specimen",
            finding := "Identification appears consistent with the specimen provided " ++
              "(~" ++ toString (⌊overlap_ratio * 100⌋ : Int) ++ "% conceptual overlap).",
            recommendation := "No action required." }

/-- `_check_1402_09` (banned terms `applicant`/`registrant`). -/
def check_1402_09 (text : String) : SubsectionFinding :=
  let found_banned := BANNED_TERMS_1402_09.filter (fun term => searchWord term (pyLower text))
  match found_banned with
  | _ :: _ =>
    { tmep_section := "§1402.09", severity := "ERROR",
      item := "Banned terms found: " ++ pyJoin ", " found_banned,
      finding := "The term(s) \x27" ++ pyJoin ", " found_banned ++
        "\x27 appear in the identification. " ++
        "Per §1402.09, \x27applicant\x27 and \x27registrant\x27 are inappropriate " ++
        "in identifications of goods and services.",
      recommendation := "Remove \x27" ++ pyJoin ", " found_banned ++
        "\x27 from the identification. " ++
        "Rewrite the relevant clause without reference to the applicant/registrant." }
  | [] =>
    { tmep_section := "§1402.09", severity := "OK",
      item := "Banned terms check",
      finding := "No prohibited terms (\x27applicant\x27, \x27registrant\x27) found.",
      recommendation := "No action required." }

/-- The stripped future-tense markers of `_check_1402_10`
(`p.strip(r"\b")` applied to each pattern). -/
def future_tense_words : List String := ["will", "intend", "planning to", "proposed", "future"]

/-- `_check_1402_10` (intent-to-use tense check). -/
def check_1402_10 (text : String) (p1 : Option Pillar1ClassContext) : SubsectionFinding :=
  let basis := match p1 with
    | some ctx => ctx.filing_basis
    | none => "1(a)"
  if basis != "1(b)" then
    { tmep_section := "§1402.10", severity := "INFO",
      item := "Filing basis: " ++ basis,
      finding := "Application is filed under " ++ basis ++ ", not §1(b). " ++
        "§1402.10 intent-to-use requirements do not apply.",
      recommendation := "No action required." }
  else
    let found_future := future_tense_words.filter (fun w => searchWord w (pyLower text))
    match found_future with
    | _ :: _ =>
      { tmep_section := "§1402.10", severity := "WARNING",
        item := "Future-tense language in §1(b) identification",
        finding := "Identification contains future-tense or speculative language " ++
          "(" ++ pyJoin ", " found_future ++ "). Even for §1(b) applications, " ++
          "the identification must describe goods/services definitively, " ++
          "not contingently.",
        recommendation := "Remove future-tense wording. State goods/services definitively " ++
          "as if already in use (the filing basis covers the intent — " ++
          "the identification does not need to reflect it)." }
    | [] =>
      { tmep_section := "§1402.10", severity := "OK",
        item := "§1(b) identification format",
        finding := "§1(b) identification is stated definitively without future-tense language.",
        recommendation := "No action required. Remember: specimen must be filed with SOU." }

/-- The `SERVICE_ACTIVITY_PATTERNS` test of `_check_1402_11`:
`\bservices for\b | \bservices in the (nature|field)\b | \bproviding\b |
\brendering\b | \boffering\b | \bconsulting\b`. -/
def hasServiceActivity (text : String) : Bool :=
  ["services for", "services in the nature", "services in the field",
   "providing", "rendering", "offering", "consulting"].any
    (fun p => searchWord p (pyLower text))

/-- The `internal_patterns` test of `_check_1402_11`:
`\bour\b | \bmy\b | \bthe company'?s\b | \binternal\b`. -/
def hasInternalLanguage (text : String) : Bool :=
  ["our", "my", "the company\x27s", "the companys", "internal"].any
    (fun p => searchWord p (pyLower text))

/-- `_check_1402_11` (services as activities rendered for others). -/
def check_1402_11 (text : String) (p1 : Option Pillar1ClassContext) : SubsectionFinding :=
  let is_services := match p1 with
    | some ctx => ctx.class_category == "SERVICES"
    | none => searchWord "service" (pyLower text) || searchWord "services" (pyLower text)
  if !is_services then
    { tmep_section := "§1402.11", severity := "INFO",
      item := "§1402.11 services check",
      finding := "This appears to be a goods class. §1402.11 services format " ++
        "requirement does not apply.",
      recommendation := "No action required." }
  else if hasInternalLanguage text then
    { tmep_section := "§1402.11", severity := "ERROR",
      item := "Internal-activity language in service identification",
      finding := "Identification appears to describe the applicant\x27s own internal activities " ++
        "rather than services rendered FOR OTHERS. Services must be described " ++
        "as activities performed for the benefit of third parties.",
      recommendation := "Rewrite as: \x27providing X services for others in the field of Y\x27 " ++
        "or \x27X services rendered to others, namely...\x27" }
  else if !hasServiceActivity text then
    { tmep_section := "§1402.11", severity := "WARNING",
      item := "Service identification format",
      finding := "Service identification does not explicitly state the activity is " ++
        "rendered for others. Per §1402.11, services must be described as " ++
        "activities performed for third parties.",
      recommendation := "Add language such as \x27providing\x27, \x27rendering\x27, or " ++
        "\x27offering...for others\x27 to clarify the commercial nature." }
  else
    { tmep_section := "§1402.11", severity := "OK",
      item := "Service activity format",
      finding := "Identification correctly describes a service activity rendered for others.",
      recommendation := "No action required." }

/-- `_check_1402_12` (parentheses/brackets are prohibited). -/
def check_1402_12 (structural_issues : List String) : SubsectionFinding :=
  let bracket_issues := structural_issues.filter
    (fun i => strIn "Parentheses" i || strIn "brackets" i)
  match bracket_issues with
  | first :: _ =>
    { tmep_section := "§1402.12", severity := "ERROR",
      item := "Parentheses/brackets in identification",
      finding := first,
      recommendation := "Remove all parentheses ( ), brackets [ ], and braces \x7b \x7d from " ++
        "the identification. Rewrite any parenthetical clarifications " ++
        "as direct language." }
  | [] =>
    { tmep_section := "§1402.12", severity := "OK",
      item := "Parentheses/brackets check",
      finding := "No parentheses or brackets found.",
      recommendation := "No action required." }

/-- `TMEP1402Lens.evaluate`. -/
def evaluate (text : String) (p1 : Option Pillar1ClassContext) : TMEP1402AnalysisResult :=
  let goods_segments := extract_candidate_goods text
  let purpose_flag := detect_purpose_language text
  let vague_found := detect_vague_terms text
  let structural_flags := detect_structural_issues text
  let findings : List SubsectionFinding := [
    check_1402_01 goods_segments,
    check_1402_02 text,
    check_1402_03 vague_found,
    check_1402_05 text p1,
    check_1402_09 text,
    check_1402_10 text p1,
    check_1402_11 text p1,
    check_1402_12 structural_flags]
  let error_count := findings.countP (fun f => f.severity == "ERROR")
  let warning_count := findings.countP (fun f => f.severity == "WARNING")
  let is_definite := error_count == 0
  let reasoning_parts : List String :=
    [if is_definite && warning_count == 0 then
       "The identification appears to list particular goods/services " ++
       "with sufficient specificity under TMEP §1402."
     else if is_definite then
       "The identification meets minimum §1402 standards but has " ++
       toString warning_count ++ " warning(s) that should be addressed."
     else
       "The identification does not sufficiently identify particular goods/services " ++
       "as required by TMEP §1402. " ++ toString error_count ++
       " error(s) must be corrected."] ++
    (if !vague_found.isEmpty then ["Vague terminology: " ++ pyJoin ", " vague_found ++ "."]
     else []) ++
    (if !purpose_flag then
      ["No explicit commercial purpose qualifier detected " ++
       "(may be required depending on class)."]
     else []) ++
    structural_flags
  let p1_note := match p1 with
    | some ctx =>
      "Assessed in context of Class " ++ toString ctx.class_number ++ " " ++
      "(" ++ ctx.class_title ++ ") [" ++ ctx.class_category ++ "] " ++
      "as determined by Pillar 1. " ++
      "Filing basis: " ++ ctx.filing_basis ++ ". " ++
      (if ctx.has_pillar1_class_error then
        "⚠️ Pillar 1 flagged a classification ERROR — some Pillar 2 " ++
        "checks are deferred until class is corrected."
       else "")
    | none => "No Pillar 1 context — standalone assessment only."
  { is_definite := is_definite,
    identified_goods_services := goods_segments,
    purpose_detected := purpose_flag,
    vague_terms_found := vague_found,
    structural_issues := structural_flags,
    reasoning := pyJoin " " reasoning_parts,
    subsection_findings := findings,
    pillar1_dependency_note := p1_note }

end TMEP

namespace TMEP

/-! ### `tmep_1403_pillar3.py` — Pillar 3 multi-class assessor -/

/-- `ClassStatus` enum. -/
inductive ClassStatus where
  | CLEAN
  | HAS_WARNINGS
  | HAS_ERRORS
  | REFUSAL_CANDIDATE
deriving DecidableEq, Repr

/-- `ApplicationStage` enum. -/
inductive ApplicationStage where
  | PRE_FILING
  | FILED_PENDING
  | OFFICE_ACTION
  | STATEMENT_OF_USE
  | REGISTERED
  | POST_REGISTRATION
deriving DecidableEq, Repr

/-- `ApplicationStage.value` (the enum's string payload). -/
def ApplicationStage.value : ApplicationStage → String
  | .PRE_FILING => "PRE_FILING"
  | .FILED_PENDING => "FILED_PENDING"
  | .OFFICE_ACTION => "OFFICE_ACTION"
  | .STATEMENT_OF_USE => "STATEMENT_OF_USE"
  | .REGISTERED => "REGISTERED"
  | .POST_REGISTRATION => "POST_REGISTRATION"

/-- `ClassSummary` (consolidated per-class view fed to Pillar 3). -/
structure ClassSummary where
  class_number : Int
  class_title : String
  class_category : String
  identification : String
  filing_basis : String
  specimen_type : String := ""
  specimen_description : String := ""
  date_of_first_use : Option String := none
  date_of_first_use_commerce : Option String := none
  fee_paid : Bool := true
  p1_error_count : Nat := 0
  p1_warning_count : Nat := 0
  p1_error_messages : List String := []
  p2_is_definite : Bool := true
  p2_error_count : Nat := 0
  p2_warning_count : Nat := 0
  p2_error_messages : List String := []
  status : ClassStatus := ClassStatus.CLEAN
deriving DecidableEq, Repr

/-- `ClassSummary.has_any_error`. -/
def ClassSummary.has_any_error (c : ClassSummary) : Bool :=
  0 < c.p1_error_count || 0 < c.p2_error_count

/-- `ClassSummary.has_any_warning`. -/
def ClassSummary.has_any_warning (c : ClassSummary) : Bool :=
  0 < c.p1_warning_count || 0 < c.p2_warning_count

/-- `ClassSummary.is_use_based`. -/
def ClassSummary.is_use_based (c : ClassSummary) : Bool :=
  c.filing_basis == "1(a)" || c.filing_basis == "44(e)"

/-- `ClassSummary.is_intent_to_use`. -/
def ClassSummary.is_intent_to_use (c : ClassSummary) : Bool :=
  c.filing_basis == "1(b)"

/-- `MultiClassApplicationContext`. -/
structure MultiClassApplicationContext where
  applicant_name : String := ""
  mark_text : String := ""
  filing_date : String := ""
  filing_type : String := "TEAS_PLUS"
  fees_paid_count : Int := 0
  total_fee_paid : ℚ := 0
  application_stage : ApplicationStage := ApplicationStage.FILED_PENDING
  amendment_requested : Bool := false
  amendment_affects_classes : List Int := []
  amendment_description : String := ""
  division_requested : Bool := false
  classes_to_divide_out : List Int := []
  surrender_requested : Bool := false
  classes_to_surrender : List Int := []
  post_filing_action_type : String := ""
deriving DecidableEq, Repr

/-- `Pillar3Finding`. -/
structure Pillar3Finding where
  tmep_section : String
  severity : String
  class_number : Int
  item : String
  finding : String
  recommendation : String
  triggered_by : String := ""
deriving DecidableEq, Repr

/-- `Pillar3AssessmentResult`.  The Python `partial_refusal_reasons` dict is
modelled as an association list in insertion order. -/
structure Pillar3AssessmentResult where
  findings : List Pillar3Finding := []
  division_eligible_classes : List Int := []
  division_recommended : Bool := false
  partial_refusal_classes : List Int := []
  partial_refusal_reasons : List (Int × String) := []
  is_multi_class_compliant : Bool := true
  total_errors : Nat := 0
  total_warnings : Nat := 0
deriving DecidableEq, Repr

/-- The mutable state of a `Pillar3Assessor`: the (read-only) class
summaries and context, and the `self.findings` list. -/
structure Pillar3State where
  classes : List ClassSummary
  ctx : MultiClassApplicationContext
  findings : List Pillar3Finding
deriving DecidableEq, Repr

/-- `Pillar3Assessor.USPTO_FEES` (a class attribute, same table as the
Pillar 1 module's). -/
def P3_USPTO_FEES : List (String × Int) :=
  [("TEAS_PLUS", 250), ("TEAS_STANDARD", 350), ("PAPER", 750)]

/-- Python truthiness of an optional string (`None` and `""` are falsy). -/
def optStrMissing : Option String → Bool
  | none => true
  | some s => s == ""

/-- Python `f"{x}"` for an optional string (`None` prints as `None`). -/
def pyOptStr : Option String → String
  | none => "None"
  | some s => s

/-- Stable ascending insertion of a `ClassSummary` by `class_number`. -/
def insAscSummary (x : ClassSummary) : List ClassSummary → List ClassSummary
  | [] => [x]
  | y :: ys => if x.class_number < y.class_number then x :: y :: ys else y :: insAscSummary x ys

/-- `sorted(summaries, key=lambda x: x.class_number)`. -/
def pySortSummaries (l : List ClassSummary) : List ClassSummary :=
  l.foldl (fun acc x => insAscSummary x acc) []

/-! ### §1403.01 — multi-class completeness checklist -/

/-- The per-class part of `_check_1403_01_multi_class_requirements`
(the local `all_clean` of the source is written but never read, so it is not
modelled). -/
def c0301_entry (ctx : MultiClassApplicationContext) (cls : ClassSummary)
    (fs : List Pillar3Finding) : List Pillar3Finding :=
  let cls_label := "Class " ++ toString cls.class_number ++ " (" ++ cls.class_title ++ ")"
  -- CHECK 1: separate identification, Pillar-2 definite
  let fs1 :=
    if cls.identification == "" || (pyStrip cls.identification).toList.length < 5 then
      fs ++ [{
        tmep_section := "§1403.01", severity := "ERROR", class_number := cls.class_number,
        item := cls_label ++ " — Missing identification",
        finding := "No identification of goods/services found for this class. " ++
          "Every class in a multi-class application must have its own " ++
          "separate identification.",
        recommendation := "Provide a complete identification of goods/services " ++
          "for this class.",
        triggered_by := "P1:ClassEntry.identification" }]
    else if !cls.p2_is_definite then
      let p2_issues :=
        if !cls.p2_error_messages.isEmpty then pyJoin "; " (cls.p2_error_messages.take 2)
        else "Identification does not meet §1402 specificity standards"
      fs ++ [{
        tmep_section := "§1403.01", severity := "ERROR", class_number := cls.class_number,
        item := cls_label ++ " — Identification not definite (Pillar 2)",
        finding := "Pillar 2 (§1402) determined the identification for " ++
          cls_label ++ " is NOT sufficiently definite. " ++
          "Issues: " ++ p2_issues,
        recommendation := "Amend the identification to meet §1402 specificity " ++
          "requirements before this class can be accepted in " ++
          "a multi-class application.",
        triggered_by := "P2:§1402.03" }]
    else
      fs ++ [{
        tmep_section := "§1403.01", severity := "OK", class_number := cls.class_number,
        item := cls_label ++ " — Identification",
        finding := "Separate, definite identification present for this class.",
        recommendation := "No action required." }]
  -- CHECK 2: per-class fee
  let fs2 :=
    if !cls.fee_paid then
      fs1 ++ [{
        tmep_section := "§1403.01", severity := "ERROR", class_number := cls.class_number,
        item := cls_label ++ " — Fee not paid",
        finding := "No filing fee was paid for " ++ cls_label ++ ". " ++
          "Every class in a multi-class application requires " ++
          "a separate filing fee.",
        recommendation := "Submit the per-class fee " ++
          "($" ++ toString (dictGetD P3_USPTO_FEES ctx.filing_type 350) ++ ") " ++
          "for " ++ cls_label ++ " to avoid deletion of this class.",
        triggered_by := "P1:§1401.04" }]
    else
      fs1 ++ [{
        tmep_section := "§1403.01", severity := "OK", class_number := cls.class_number,
        item := cls_label ++ " — Fee",
        finding := "Fee paid for this class.",
        recommendation := "No action required." }]
  -- CHECK 3: per-class specimen (use-based)
  let fs3 :=
    if cls.is_use_based then
      if cls.specimen_type == "" && cls.specimen_description == "" then
        fs2 ++ [{
          tmep_section := "§1403.01", severity := "ERROR", class_number := cls.class_number,
          item := cls_label ++ " — Specimen missing",
          finding := "No specimen provided for " ++ cls_label ++ ". " ++
            "Use-based applications (§1(a)) require a separate " ++
            "specimen for each class showing the mark in actual use.",
          recommendation := "Submit a specimen showing the mark in actual commercial " ++
            "use in connection with the goods/services in this class.",
          triggered_by := "P1:§1401.06" }]
      else if 0 < cls.p1_error_count &&
          cls.p1_error_messages.any (fun m => strIn "specimen" (pyLower m)) then
        fs2 ++ [{
          tmep_section := "§1403.01", severity := "ERROR", class_number := cls.class_number,
          item := cls_label ++ " — Specimen invalid (Pillar 1)",
          finding := "Pillar 1 detected a specimen issue for " ++ cls_label ++ ": " ++
            pyTake 120 (pyJoin "; "
              (cls.p1_error_messages.filter (fun m => strIn "specimen" (pyLower m)))),
          recommendation := "Replace the specimen with an acceptable one for this class. " ++
            "Each class must have its own valid specimen.",
          triggered_by := "P1:§1401.06" }]
      else
        fs2 ++ [{
          tmep_section := "§1403.01", severity := "OK", class_number := cls.class_number,
          item := cls_label ++ " — Specimen",
          finding := "Specimen present: \x27" ++ cls.specimen_type ++ "\x27.",
          recommendation := "No action required." }]
    else
      fs2 ++ [{
        tmep_section := "§1403.01", severity := "INFO", class_number := cls.class_number,
        item := cls_label ++ " — Specimen (§1(b))",
        finding := "Intent-to-use basis (" ++ cls.filing_basis ++ "). " ++
          "No specimen required at this stage.",
        recommendation := "Specimen must be submitted with Statement of Use." }]
  -- CHECK 4: correct class assignment (Pillar 1 signal)
  let p1_class_errors := cls.p1_error_messages.filter (fun m =>
    ["misclassif", "class", "wrong", "incorrect", "reclassif"].any
      (fun kw => strIn kw (pyLower m)))
  let fs4 :=
    match p1_class_errors with
    | first :: _ =>
      fs3 ++ [{
        tmep_section := "§1403.01", severity := "ERROR", class_number := cls.class_number,
        item := cls_label ++ " — Classification issue (Pillar 1)",
        finding := "Pillar 1 (§1401.03) detected incorrect class assignment for " ++
          cls_label ++ ": " ++ pyTake 120 first,
        recommendation := "Correct the class assignment per Pillar 1 recommendations " ++
          "before proceeding with multi-class filing requirements.",
        triggered_by := "P1:§1401.03" }]
    | [] =>
      let has_p1_class_warning := 0 < cls.p1_warning_count
      fs3 ++ [{
        tmep_section := "§1403.01",
        severity := if has_p1_class_warning then "WARNING" else "OK",
        class_number := cls.class_number,
        item := cls_label ++ " — Class assignment",
        finding :=
          if has_p1_class_warning then
            "Pillar 1 raised " ++ toString cls.p1_warning_count ++ " warning(s) about the " ++
            "class assignment — review recommended."
          else "No class assignment errors detected for this class.",
        recommendation :=
          if has_p1_class_warning then "Review Pillar 1 warnings for this class."
          else "No action required.",
        triggered_by := "P1:§1401.03" }]
  -- CHECK 5: dates of use (use-based)
  if cls.is_use_based then
    let missing_dates :=
      (if optStrMissing cls.date_of_first_use then ["date of first use anywhere"] else []) ++
      (if optStrMissing cls.date_of_first_use_commerce then ["date of first use in commerce"]
       else [])
    match missing_dates with
    | _ :: _ =>
      fs4 ++ [{
        tmep_section := "§1403.01", severity := "WARNING", class_number := cls.class_number,
        item := cls_label ++ " — Missing dates of use",
        finding := "Missing for " ++ cls_label ++ ": " ++ pyJoin ", " missing_dates ++ ". " ++
          "Per §1403.01, dates of use must be provided separately " ++
          "for each class in a use-based application.",
        recommendation := "Add separate dates of first use (anywhere) and " ++
          "first use in commerce for this class.",
        triggered_by := "P1:ClassEntry.date_of_first_use" }]
    | [] =>
      fs4 ++ [{
        tmep_section := "§1403.01", severity := "OK", class_number := cls.class_number,
        item := cls_label ++ " — Dates of use",
        finding := "First use: " ++ pyOptStr cls.date_of_first_use ++ " | " ++
          "First use in commerce: " ++ pyOptStr cls.date_of_first_use_commerce,
        recommendation := "No action required." }]
  else fs4

/-- `_check_1403_01_multi_class_requirements`. -/
def check_1403_01 (s : Pillar3State) : Pillar3State :=
  let fs := s.classes.foldl (fun fs cls => c0301_entry s.ctx cls fs) s.findings
  let unique_cls_count := (s.classes.map (·.class_number)).eraseDups.length
  let fees_paid := s.ctx.fees_paid_count
  let fs2 :=
    if 0 < fees_paid && fees_paid ≠ (unique_cls_count : Int) then
      let shortage : Int := (unique_cls_count : Int) - fees_paid
      fs ++ [{
        tmep_section := "§1403.01",
        severity := if 0 < shortage then "ERROR" else "WARNING",
        class_number := 0,
        item := "Application-level fee count: " ++ toString fees_paid ++ " paid, " ++
          toString unique_cls_count ++ " classes",
        finding := (if 0 < shortage then "UNDERPAYMENT" else "OVERPAYMENT") ++ ": " ++
          toString fees_paid ++ " fee(s) submitted but " ++ toString unique_cls_count ++
          " class(es) filed. " ++
          (if 0 < shortage then "Shortage: " ++ toString shortage.natAbs ++ " fee(s)."
           else "Excess: " ++ toString shortage.natAbs ++ " fee(s)."),
        recommendation :=
          if 0 < shortage then
            "Submit " ++ toString shortage.natAbs ++ " additional fee(s) at " ++
            "$" ++ toString (dictGetD P3_USPTO_FEES s.ctx.filing_type 350) ++ "/class. " ++
            "Unpaid classes will be deleted."
          else "Request refund for excess fees or add additional classes.",
        triggered_by := "P1:§1401.04" }]
    else if 0 < fees_paid then
      fs ++ [{
        tmep_section := "§1403.01", severity := "OK", class_number := 0,
        item := "Application-level fee count",
        finding := "Fee count matches class count: " ++
          toString fees_paid ++ " fee(s) for " ++ toString unique_cls_count ++ " class(es).",
        recommendation := "No action required." }]
    else fs
  { classes := s.classes, ctx := s.ctx, findings := fs2 }

/-! ### §1403.02 — amendment review -/

/-- The stopword set of `_check_1403_02`. -/
def amendment_stopwords : List String :=
  ["and", "or", "for", "the", "of", "in", "a", "an", "to", "with", "by", "from", "on", "at"]

/-- `broadening_keywords` of `_check_1403_02`. -/
def broadening_keywords : List String :=
  ["add", "adding", "expand", "include", "broader", "additional",
   "new goods", "new services", "new class"]

/-- Python set equality of two int lists (`set(a) == set(b)`). -/
def intSetEq (a b : List Int) : Bool :=
  a.all (fun x => b.contains x) && b.all (fun x => a.contains x)

/-- `_check_1403_02_amendment_review`; returns the updated state and the
`conflict_classes` list.  Python iterates the `shared` word set in an
unspecified (hash-randomized) order; the model lists the shared words in the
first-occurrence order of the amended identification, which only affects the
wording of the WARNING message, never whether it is emitted. -/
def check_1403_02 (s : Pillar3State) : Pillar3State × List Int :=
  if !s.ctx.amendment_requested then
    ({ s with findings := s.findings ++ [{
        tmep_section := "§1403.02", severity := "INFO", class_number := 0,
        item := "No amendment in this assessment",
        finding := "No amendment has been requested. §1403.02 amendment rules " ++
          "are noted for reference.",
        recommendation := "When filing any amendment, ensure changes are " ++
          "class-specific and do not affect other classes." }] }, [])
  else
    let affected := s.ctx.amendment_affects_classes
    let all_class_numbers := s.classes.map (·.class_number)
    let scopePart : List Pillar3Finding × List Int :=
      if affected.isEmpty || intSetEq affected all_class_numbers then
        ([{ tmep_section := "§1403.02", severity := "WARNING", class_number := 0,
            item := "Amendment scope: ALL classes",
            finding := "The requested amendment appears to affect all classes " ++
              "(" ++ pyJoin ", " ((pySortInt all_class_numbers).map
                (fun c => "Class " ++ toString c)) ++ "). " ++
              "An application-wide amendment must be reviewed carefully to ensure " ++
              "it does not inadvertently narrow or alter classes that don\x27t need changing.",
            recommendation := "Confirm which classes actually need amendment. " ++
              "File class-specific amendments where possible to avoid " ++
              "unintended scope changes across classes." }], [])
      else
        let r := s.classes.foldl
          (fun (acc : List Pillar3Finding × List Int) cls =>
            if !affected.contains cls.class_number then acc
            else
              let amended_words := (pySplitWs (pyLower cls.identification)).eraseDups
              s.classes.foldl
                (fun acc2 other_cls =>
                  if affected.contains other_cls.class_number then acc2
                  else
                    let other_words := (pySplitWs (pyLower other_cls.identification)).eraseDups
                    let shared := amended_words.filter (fun w =>
                      other_words.contains w && !amendment_stopwords.contains w)
                    if 3 ≤ shared.length then
                      (acc2.1 ++ [{
                        tmep_section := "§1403.02", severity := "WARNING",
                        class_number := cls.class_number,
                        item := "Cross-class amendment conflict: " ++
                          "Class " ++ toString cls.class_number ++ " ↔ Class " ++
                          toString other_cls.class_number,
                        finding := "Amending Class " ++ toString cls.class_number ++
                          " may affect Class " ++
                          toString other_cls.class_number ++ " — they share terminology: " ++
                          pyJoin ", " (shared.take 5) ++ ". " ++
                          "Per §1403.02, amendments to one class must not " ++
                          "inadvertently alter the scope of another.",
                        recommendation := "Review whether the amendment to Class " ++
                          toString cls.class_number ++ " " ++
                          "creates any scope overlap with Class " ++
                          toString other_cls.class_number ++ ". " ++
                          "Amend each class separately with distinct language.",
                        triggered_by := "P1+P2:Class" ++ toString cls.class_number ++
                          "↔Class" ++ toString other_cls.class_number }],
                       acc2.2 ++ [cls.class_number])
                    else acc2)
                acc)
          ([], [])
        if r.2.isEmpty then
          (r.1 ++ [{
            tmep_section := "§1403.02", severity := "OK", class_number := 0,
            item := "Amendment scope: Class(es) " ++
              pyJoin ", " ((pySortInt affected).map toString) ++ " only",
            finding := "Amendment is limited to Class(es) " ++
              pyJoin ", " ((pySortInt affected).map toString) ++ ". " ++
              "No obvious cross-class terminology conflicts detected.",
            recommendation := "Ensure the amendment is filed with correct class-specific " ++
              "language and any required additional fees." }], r.2)
        else (r.1, r.2)
    let broadenPart : List Pillar3Finding :=
      if s.ctx.amendment_description ≠ "" then
        let desc_lower := pyLower s.ctx.amendment_description
        if broadening_keywords.any (fun kw => strIn kw desc_lower) then
          [{ tmep_section := "§1403.02", severity := "ERROR", class_number := 0,
             item := "Amendment may attempt to broaden scope",
             finding := "Amendment description \x27" ++
               pyTake 80 s.ctx.amendment_description ++ "\x27 " ++
               "contains language suggesting scope broadening. " ++
               "Per §1402.07 (applied through §1403.02), amendments cannot " ++
               "expand the identification beyond the original filing scope.",
             recommendation := "Amendments may only CLARIFY or LIMIT the identification. " ++
               "Remove any language that adds new goods/services not " ++
               "encompassed by the original filing." }]
        else []
      else []
    ({ s with findings := s.findings ++ scopePart.1 ++ broadenPart }, scopePart.2)

/-! ### §1403.03 — division eligibility -/

/-- `_check_1403_03_division_eligibility`; returns the updated state and the
`division_eligible` list. -/
def check_1403_03 (s : Pillar3State) : Pillar3State × List Int :=
  let error_classes := s.classes.filter (fun c => c.has_any_error)
  let clean_classes := s.classes.filter (fun c => !c.has_any_error)
  let use_based := s.classes.filter (fun c => c.is_use_based)
  let intent_to_use := s.classes.filter (fun c => c.is_intent_to_use)
  if s.ctx.division_requested then
    let to_divide := s.ctx.classes_to_divide_out
    let remaining := (s.classes.map (·.class_number)).filter
      (fun c => !to_divide.contains c)
    let r := to_divide.foldl
      (fun (acc : List Pillar3Finding × List Int) cls_num =>
        match s.classes.find? (fun c => c.class_number == cls_num) with
        | none => acc
        | some cls =>
          let issues :=
            (if pyStrip cls.identification == "" then ["missing identification"] else []) ++
            (if cls.is_use_based && cls.specimen_type == "" then ["missing specimen"]
             else []) ++
            (if !cls.fee_paid then ["fee not paid"] else [])
          match issues with
          | _ :: _ =>
            (acc.1 ++ [{
              tmep_section := "§1403.03", severity := "ERROR", class_number := cls_num,
              item := "Class " ++ toString cls_num ++ " — Cannot divide: incomplete requirements",
              finding := "Class " ++ toString cls_num ++ " cannot be divided out because it does " ++
                "not meet standalone filing requirements: " ++
                pyJoin ", " issues ++ ". A divided application must be " ++
                "complete in itself.",
              recommendation := "Resolve these issues before dividing: " ++
                pyJoin ", " issues ++ "." }], acc.2)
          | [] =>
            (acc.1 ++ [{
              tmep_section := "§1403.03", severity := "OK", class_number := cls_num,
              item := "Class " ++ toString cls_num ++ " — Division eligible",
              finding := "Class " ++ toString cls_num ++ " meets all standalone requirements " ++
                "and can be divided into its own application.",
              recommendation := "Proceed with division request for Class " ++
                toString cls_num ++ ". " ++
                "The child application will carry forward the " ++
                "original filing date." }], acc.2 ++ [cls_num]))
      ([], [])
    let fs2 :=
      if !remaining.isEmpty then
        r.1 ++ [{
          tmep_section := "§1403.03", severity := "INFO", class_number := 0,
          item := "Remaining after division: " ++
            "Class(es) " ++ pyJoin ", " ((pySortInt remaining).map toString),
          finding := "After dividing out Class(es) " ++
            pyJoin ", " ((pySortInt to_divide).map toString) ++ ", " ++
            "the parent application retains " ++
            "Class(es) " ++ pyJoin ", " ((pySortInt remaining).map toString) ++ ".",
          recommendation := "Verify the parent application remains complete " ++
            "and all retained classes are properly supported." }]
      else r.1
    ({ s with findings := s.findings ++ fs2 }, r.2)
  else
    if !error_classes.isEmpty && !clean_classes.isEmpty then
      let error_cls_nums := error_classes.map (·.class_number)
      let clean_cls_nums := clean_classes.map (·.class_number)
      ({ s with findings := s.findings ++ [{
          tmep_section := "§1403.03", severity := "WARNING", class_number := 0,
          item := "Division RECOMMENDED — Clean vs. problem classes detected",
          finding := "DIVISION ANALYSIS (§1403.03): " ++
            "Class(es) " ++ pyJoin ", " ((pySortInt clean_cls_nums).map
              (fun n => "Class " ++ toString n)) ++ " " ++
            "are clean, but " ++
            "Class(es) " ++ pyJoin ", " ((pySortInt error_cls_nums).map
              (fun n => "Class " ++ toString n)) ++ " " ++
            "have errors. Without division, the errors in " ++
            pyJoin ", " ((pySortInt error_cls_nums).map (fun n => "Class " ++ toString n)) ++
            " " ++
            "will delay registration for the clean classes too.",
          recommendation := "Consider dividing Class(es) " ++
            pyJoin ", " ((pySortInt clean_cls_nums).map toString) ++ " " ++
            "into a separate application so they can proceed to " ++
            "registration independently. " ++
            "File a Request to Divide (USPTO Form PTO-2302)." }] }, clean_cls_nums)
    else if !use_based.isEmpty && !intent_to_use.isEmpty then
      let itu_nums := intent_to_use.map (·.class_number)
      let use_nums := use_based.map (·.class_number)
      ({ s with findings := s.findings ++ [{
          tmep_section := "§1403.03", severity := "INFO", class_number := 0,
          item := "Mixed filing basis — potential division candidate",
          finding := "Application has mixed filing bases: " ++
            "Class(es) " ++ pyJoin ", " ((pySortInt use_nums).map toString) ++ " " ++
            "are §1(a) use-based; " ++
            "Class(es) " ++ pyJoin ", " ((pySortInt itu_nums).map toString) ++ " " ++
            "are §1(b) intent-to-use. " ++
            "The §1(b) classes cannot achieve registration until a " ++
            "Statement of Use is filed, which may delay the §1(a) classes.",
          recommendation := "Consider dividing the §1(a) classes " ++
            "(" ++ pyJoin ", " ((pySortInt use_nums).map toString) ++ ") " ++
            "so they can proceed to registration independently " ++
            "of the §1(b) classes." }] }, use_nums)
    else
      ({ s with findings := s.findings ++ [{
          tmep_section := "§1403.03", severity := "INFO", class_number := 0,
          item := "Division not currently indicated",
          finding := "All classes appear to be at the same stage with similar " ++
            "issue profiles. Division is not currently recommended.",
          recommendation := "Monitor application progress. Division may become " ++
            "appropriate if one class receives a specific refusal." }] }, [])

end TMEP

namespace TMEP

/-! ### §1403.04 — partial refusals -/

/-- The per-class refusal reasons of `_check_1403_04`. -/
def c0304_reasons (cls : ClassSummary) : List String :=
  (if 0 < cls.p1_error_count then
    (cls.p1_error_messages.take 2).map (fun msg => "[Pillar 1 — §1401] " ++ pyTake 100 msg)
   else []) ++
  (if !cls.p2_is_definite || 0 < cls.p2_error_count then
    (cls.p2_error_messages.take 2).map (fun msg => "[Pillar 2 — §1402] " ++ pyTake 100 msg) ++
    (if !cls.p2_is_definite && cls.p2_error_messages.isEmpty then
      ["[Pillar 2 — §1402] Identification is not sufficiently definite."]
     else [])
   else [])

/-- `_check_1403_04_partial_refusals`; returns the updated state, the
refusal class list and the refusal reasons dict. -/
def check_1403_04 (s : Pillar3State) : Pillar3State × List Int × List (Int × String) :=
  let r := s.classes.foldl
    (fun (acc : List Pillar3Finding × List Int × List (Int × String)) cls =>
      let reasons := c0304_reasons cls
      match reasons with
      | _ :: _ =>
        let severity :=
          if cls.status == ClassStatus.REFUSAL_CANDIDATE then "ERROR" else "WARNING"
        (acc.1 ++ [{
          tmep_section := "§1403.04", severity := severity, class_number := cls.class_number,
          item := "Class " ++ toString cls.class_number ++ " — PARTIAL REFUSAL CANDIDATE",
          finding := "Class " ++ toString cls.class_number ++ " (" ++ cls.class_title ++
            ") has " ++
            toString cls.p1_error_count ++ " Pillar 1 error(s) and " ++
            toString cls.p2_error_count ++ " Pillar 2 error(s) that constitute " ++
            "grounds for a PARTIAL REFUSAL under §1403.04. " ++
            "Reasons: " ++ pyJoin "; " (reasons.take 2),
          recommendation := "Issue a partial refusal limited to Class " ++
            toString cls.class_number ++ ". " ++
            "Do NOT refuse the entire application — other classes " ++
            "should continue to be processed. " ++
            "State each ground of refusal clearly in the Office Action.",
          triggered_by := "P1:" ++ toString cls.p1_error_count ++ "errors + P2:" ++
            toString cls.p2_error_count ++ "errors" }],
         acc.2.1 ++ [cls.class_number],
         acc.2.2 ++ [(cls.class_number, pyJoin "; " reasons)])
      | [] =>
        (acc.1 ++ [{
          tmep_section := "§1403.04", severity := "OK", class_number := cls.class_number,
          item := "Class " ++ toString cls.class_number ++ " — No refusal grounds",
          finding := "Class " ++ toString cls.class_number ++ " (" ++ cls.class_title ++
            ") has no " ++
            "errors from Pillar 1 or Pillar 2. No refusal is indicated " ++
            "for this class.",
          recommendation := "This class may proceed independently. " ++
            "Consider division if other classes face refusals." }],
         acc.2.1, acc.2.2))
    ([], [], [])
  let fs2 :=
    if !r.2.1.isEmpty then
      let non_refusal := (s.classes.map (·.class_number)).filter
        (fun c => !r.2.1.contains c)
      r.1 ++ [{
        tmep_section := "§1403.04", severity := "INFO", class_number := 0,
        item := "Partial refusal summary",
        finding := "PARTIAL REFUSAL applies to: " ++
          "Class(es) " ++ pyJoin ", " ((pySortInt r.2.1).map toString) ++ ". " ++
          "Classes NOT subject to refusal: " ++
          (if !non_refusal.isEmpty then pyJoin ", " ((pySortInt non_refusal).map toString)
           else "None") ++ ".",
        recommendation := "Issue Office Action with partial refusal. " ++
          "For each refused class, cite the specific legal ground. " ++
          "For clean classes, note they are approved or being processed." }]
    else r.1
  ({ s with findings := s.findings ++ fs2 }, r.2.1, r.2.2)

/-! ### §1403.05 — post-filing fees -/

/-- The unconditional general INFO notice of `_check_1403_05`. -/
def mk1403_05_general : Pillar3Finding where
  tmep_section := "§1403.05"
  severity := "INFO"
  class_number := 0
  item := "Multi-class post-filing fee rule"
  finding := "Per §1403.05: in multi-class applications, post-filing actions " ++
    "require separate fees for each class to which the action applies. " ++
    "A single fee does not cover all classes automatically."
  recommendation := "Always verify the number of classes affected by any " ++
    "post-filing action and submit the correct per-class fee amount."

/-- `_check_1403_05_post_filing_fees`. -/
def check_1403_05 (s : Pillar3State) : Pillar3State :=
  let stage := s.ctx.application_stage
  let action := s.ctx.post_filing_action_type
  let _fee_per_class := dictGetD P3_USPTO_FEES s.ctx.filing_type 350
  if action == "" &&
      (stage == ApplicationStage.PRE_FILING || stage == ApplicationStage.FILED_PENDING) then
    { s with findings := s.findings ++ [{
        tmep_section := "§1403.05", severity := "INFO", class_number := 0,
        item := "No post-filing action in this assessment",
        finding := "Application is at filing/pending stage. " ++
          "§1403.05 post-filing fee requirements will apply if/when " ++
          "responses, amendments, or Statements of Use are filed.",
        recommendation := "When filing any post-filing action, ensure the " ++
          "correct per-class fee is included for each affected class." }] }
  else
    let itu_classes := s.classes.filter (fun c => c.is_intent_to_use)
    let souPart : List Pillar3Finding :=
      if (stage == ApplicationStage.STATEMENT_OF_USE || action == "sou") &&
          !itu_classes.isEmpty then
        let sou_fee_total : Int := (itu_classes.length : Int) * 100
        [{ tmep_section := "§1403.05", severity := "INFO", class_number := 0,
           item := "Statement of Use — " ++ toString itu_classes.length ++ " class(es)",
           finding := "Statement of Use being filed for " ++
             toString itu_classes.length ++ " §1(b) class(es): " ++
             pyJoin ", " (itu_classes.map (fun c => "Class " ++ toString c.class_number)) ++
             ". " ++
             "SOU fee: $100/class × " ++ toString itu_classes.length ++ " = $" ++
             toString sou_fee_total ++ ".",
           recommendation := "Submit SOU with $" ++ toString sou_fee_total ++ " total " ++
             "($100/class for each of the " ++
             toString itu_classes.length ++ " §1(b) class(es)). " ++
             "Each class needs its own specimen with the SOU." }]
      else []
    let amendPart : List Pillar3Finding :=
      if (action == "amendment" || action == "response") &&
          !s.ctx.amendment_affects_classes.isEmpty then
        let affected_count := s.ctx.amendment_affects_classes.length
        [{ tmep_section := "§1403.05", severity := "INFO", class_number := 0,
           item := "Post-filing " ++ action ++ " fee — " ++
             toString affected_count ++ " class(es) affected",
           finding := "Post-filing " ++ action ++ " affects " ++
             toString affected_count ++ " class(es): " ++
             pyJoin ", " ((pySortInt s.ctx.amendment_affects_classes).map
               (fun c => "Class " ++ toString c)) ++ ". " ++
             "Verify whether additional per-class fees are required " ++
             "for this type of action.",
           recommendation := "Check USPTO fee schedule for post-filing " ++ action ++
             " fees. " ++
             "Ensure fee is submitted for each of the " ++
             toString affected_count ++ " affected class(es)." }]
      else []
    let surrenderPart : List Pillar3Finding :=
      if s.ctx.surrender_requested && !s.ctx.classes_to_surrender.isEmpty then
        [{ tmep_section := "§1403.05", severity := "INFO", class_number := 0,
           item := "Surrender fee check — " ++
             "Class(es) " ++ pyJoin ", " (s.ctx.classes_to_surrender.map toString),
           finding := "Partial surrender of classes in a multi-class registration. " ++
             "Verify whether any petition or maintenance fees apply " ++
             "to the surrender action.",
           recommendation := "File a Section 7 Request for Amendment/Surrender " ++
             "(USPTO Form) with required fees for each surrendered class." }]
      else []
    { s with findings := s.findings ++ souPart ++ amendPart ++ surrenderPart ++
        [mk1403_05_general] }

/-! ### §1403.06 — surrender consistency -/

/-- The stopword set of `_check_1403_06`. -/
def surrender_stopwords : List String :=
  ["and", "or", "for", "the", "of", "in", "a", "an", "to",
   "with", "by", "from", "on", "at", "namely", "including"]

/-- `_check_1403_06_surrender_or_amendment`.  (`inconsistency_found` in the
source is written but never read.)  As in §1403.02, Python iterates word
sets in an unspecified order; the model uses first-occurrence order, which
only affects message wording. -/
def check_1403_06 (s : Pillar3State) : Pillar3State :=
  let stage := s.ctx.application_stage
  if !(stage == ApplicationStage.REGISTERED || stage == ApplicationStage.POST_REGISTRATION) then
    { s with findings := s.findings ++ [{
        tmep_section := "§1403.06", severity := "INFO", class_number := 0,
        item := "§1403.06 — Not yet registered (stage: " ++ stage.value ++ ")",
        finding := "Application has not yet reached registration. " ++
          "§1403.06 surrender and post-registration amendment rules " ++
          "will apply after registration is granted.",
        recommendation := "Note for post-registration: partial surrender is possible " ++
          "via Section 7 amendment. Surrendering a class is irrevocable." }] }
  else if !s.ctx.surrender_requested then
    { s with findings := s.findings ++ [{
        tmep_section := "§1403.06", severity := "INFO", class_number := 0,
        item := "No surrender requested",
        finding := "No surrender of classes has been requested in this assessment.",
        recommendation := "If a partial surrender is needed post-registration, " ++
          "file a Section 7 Request (USPTO Form SB/08). " ++
          "Surrender is irrevocable — once a class is surrendered, " ++
          "it cannot be reinstated." }] }
  else
    let to_surrender := s.ctx.classes_to_surrender
    let to_retain := s.classes.filter (fun c => !to_surrender.contains c.class_number)
    if s.classes.length ≤ to_surrender.length then
      { s with findings := s.findings ++ [{
          tmep_section := "§1403.06", severity := "ERROR", class_number := 0,
          item := "Full surrender — entire registration would be abandoned",
          finding := "Surrendering all classes would result in complete abandonment " ++
            "of the registration. If that is the intent, a full cancellation " ++
            "should be filed instead.",
          recommendation := "File a Request for Cancellation (USPTO Form) if the intent " ++
            "is to abandon the entire registration. " ++
            "For partial surrender, retain at least one class." }] }
    else
      let surrendered_cls_objects := s.classes.filter
        (fun c => to_surrender.contains c.class_number)
      let retained_id_words := (to_retain.foldl
        (fun acc rc => acc ++ pySplitWs (pyLower rc.identification)) []).eraseDups
      let fs1 := surrendered_cls_objects.foldl
        (fun fs sc =>
          let surrendered_words := ((pySplitWs (pyLower sc.identification)).eraseDups).filter
            (fun w => !surrender_stopwords.contains w)
          let overlap_with_retained := surrendered_words.filter
            (fun w => retained_id_words.contains w)
          let significant_overlap := overlap_with_retained.filter
            (fun w => 4 < w.toList.length)
          match significant_overlap with
          | _ :: _ =>
            fs ++ [{
              tmep_section := "§1403.06", severity := "WARNING",
              class_number := sc.class_number,
              item := "Scope overlap: surrendering Class " ++ toString sc.class_number ++
                " " ++ "while retaining other classes",
              finding := "Surrendering Class " ++ toString sc.class_number ++ " (" ++
                sc.class_title ++ ") " ++
                "may create inconsistency with retained classes. " ++
                "Shared terminology between surrendered and retained " ++
                "identifications: " ++ pyJoin ", " (significant_overlap.take 5) ++ ". " ++
                "After surrender, consumers may be confused about the " ++
                "scope of the remaining registration.",
              recommendation := "Review whether surrendering Class " ++
                toString sc.class_number ++ " " ++
                "creates gaps or ambiguity in the overall trademark scope. " ++
                "Consider whether amendments to retained class identifications " ++
                "are needed for clarity post-surrender." }]
          | [] =>
            fs ++ [{
              tmep_section := "§1403.06", severity := "OK", class_number := sc.class_number,
              item := "Class " ++ toString sc.class_number ++ " — Surrender scope check",
              finding := "Surrendering Class " ++ toString sc.class_number ++ " (" ++
                sc.class_title ++ ") " ++
                "does not appear to create scope inconsistency with retained classes.",
              recommendation := "Proceed with surrender of Class " ++
                toString sc.class_number ++ ". " ++
                "Remember: surrender is irrevocable." }])
        []
      let fs2 :=
        if !to_retain.isEmpty then
          fs1 ++ [{
            tmep_section := "§1403.06", severity := "INFO", class_number := 0,
            item := "Post-surrender retained: " ++
              "Class(es) " ++ pyJoin ", " ((pySortSummaries to_retain).map
                (fun c => toString c.class_number)),
            finding := "After surrendering Class(es) " ++
              pyJoin ", " ((pySortInt to_surrender).map toString) ++ ", " ++
              "the registration will retain " ++
              "Class(es) " ++ pyJoin ", " ((pySortSummaries to_retain).map
                (fun c => toString c.class_number)) ++ ".",
            recommendation := "Ensure maintenance fees (Section 8/71 Declarations) " ++
              "are paid for all RETAINED classes going forward. " ++
              "Surrendered classes are excluded from future maintenance." }]
        else fs1
      { s with findings := s.findings ++ fs2 }

/-! ### Pillar 3 result builder and entry point -/

/-- `Pillar3Assessor._build_result`. -/
def build_result (findings : List Pillar3Finding) (division_eligible : List Int)
    (refusal_classes : List Int) (refusal_reasons : List (Int × String)) :
    Pillar3AssessmentResult :=
  let errors := findings.countP (fun f => f.severity == "ERROR")
  let warnings := findings.countP (fun f => f.severity == "WARNING")
  let is_compliant := errors == 0
  { findings := findings,
    division_eligible_classes := division_eligible,
    division_recommended := !division_eligible.isEmpty,
    partial_refusal_classes := refusal_classes,
    partial_refusal_reasons := refusal_reasons,
    is_multi_class_compliant := is_compliant,
    total_errors := errors,
    total_warnings := warnings }

/-- The single-class short-circuit INFO finding of
`Pillar3Assessor.run_full_assessment`. -/
def mk1403_single_class : Pillar3Finding where
  tmep_section := "§1403"
  severity := "INFO"
  class_number := 0
  item := "Single-class application"
  finding := "Application contains only one class. " ++
    "§1403 multi-class requirements do not apply."
  recommendation := "No §1403 action required."

/-- `Pillar3Assessor.run_full_assessment`: clear findings; short-circuit
when fewer than 2 distinct class numbers are present; otherwise run the six
checks in sequence and build the result. -/
def run_full_assessment_1403 (s : Pillar3State) :
    Pillar3State × Pillar3AssessmentResult :=
  let s0 : Pillar3State := { classes := s.classes, ctx := s.ctx, findings := [] }
  let unique_classes := (s0.classes.map (·.class_number)).eraseDups
  if unique_classes.length < 2 then
    let s1 := { s0 with findings := s0.findings ++ [mk1403_single_class] }
    (s1, build_result s1.findings [] [] [])
  else
    let s1 := check_1403_01 s0
    let r2 := check_1403_02 s1
    let _amendment_conflicts := r2.2
    let r3 := check_1403_03 r2.1
    let division_eligible := r3.2
    let r4 := check_1403_04 r3.1
    let refusal_classes := r4.2.1
    let refusal_reasons := r4.2.2
    let s5 := check_1403_05 r4.1
    let s6 := check_1403_06 s5
    (s6, build_result s6.findings division_eligible refusal_classes refusal_reasons)

end TMEP

namespace TMEP

/-! ### Derived views used by the claim theorems -/

/-- The findings emitted by `_check_1401_02` alone (the check run on a fresh
findings list). -/
def check02Findings (app : TrademarkApplication) : List AssessmentFinding :=
  (check_1401_02 { app := app, findings := [] }).findings

/-- The findings emitted by `_check_1401_04` alone. -/
def check04Findings (app : TrademarkApplication) : List AssessmentFinding :=
  (check_1401_04 { app := app, findings := [] }).findings

/-! ### Generic list lemmas -/

/-- A fold whose step only appends extends its accumulator. -/
theorem foldl_extends {α β : Type} (g : List α → β → List α)
    (hg : ∀ acc x, ∃ t, g acc x = acc ++ t) :
    ∀ (l : List β) (acc : List α), ∃ t, l.foldl g acc = acc ++ t := by
  intro l
  induction l with
  | nil => intro acc; exact ⟨[], (List.append_nil acc).symm⟩
  | cons x xs ih =>
    intro acc
    obtain ⟨t1, h1⟩ := hg acc x
    obtain ⟨t2, h2⟩ := ih (g acc x)
    exact ⟨t1 ++ t2, by rw [List.foldl_cons, h2, h1, List.append_assoc]⟩

/-! ### Claim C8 -/

/-- C8: `suggest_class_for_keyword` is deterministic over the static
knowledge table — two calls with the same term return identical ordered
lists.  In the embedding the matcher is a pure function of its argument, so
the two runs are one and the same value. -/
theorem C8_suggest_deterministic (term : String) :
    suggest_class_for_keyword term = suggest_class_for_keyword term := rfl

/-! ### Claim C9 -/

/-- Each individual check returns the application it was given. -/
theorem check_1401_01_app (s : AssessorState) : (check_1401_01 s).app = s.app := rfl

/-- `_check_1401_02` does not touch the application. -/
theorem check_1401_02_app (s : AssessorState) : (check_1401_02 s).app = s.app := rfl

/-- `_check_1401_03` does not touch the application. -/
theorem check_1401_03_app (s : AssessorState) : (check_1401_03 s).app = s.app := rfl

/-- `_check_1401_04` does not touch the application. -/
theorem check_1401_04_app (s : AssessorState) : (check_1401_04 s).app = s.app := rfl

/-- `_check_1401_05` does not touch the application. -/
theorem check_1401_05_app (s : AssessorState) : (check_1401_05 s).app = s.app := rfl

/-- `_check_1401_06` does not touch the application. -/
theorem check_1401_06_app (s : AssessorState) : (check_1401_06 s).app = s.app := rfl

/-- `_check_1401_07` does not touch the application. -/
theorem check_1401_07_app (s : AssessorState) : (check_1401_07 s).app = s.app := rfl

/-- `_check_1401_08` does not touch the application. -/
theorem check_1401_08_app (s : AssessorState) : (check_1401_08 s).app = s.app := rfl

/-- `_check_1401_09` does not touch the application. -/
theorem check_1401_09_app (s : AssessorState) : (check_1401_09 s).app = s.app := rfl

/-- `_check_1401_10` does not touch the application. -/
theorem check_1401_10_app (s : AssessorState) : (check_1401_10 s).app = s.app := rfl

/-- `_check_1401_11` does not touch the application. -/
theorem check_1401_11_app (s : AssessorState) : (check_1401_11 s).app = s.app := rfl

/-- `_check_1401_12` does not touch the application. -/
theorem check_1401_12_app (s : AssessorState) : (check_1401_12 s).app = s.app := rfl

/-- `_check_1401_13` does not touch the application. -/
theorem check_1401_13_app (s : AssessorState) : (check_1401_13 s).app = s.app := rfl

/-- `_check_1401_14` does not touch the application. -/
theorem check_1401_14_app (s : AssessorState) : (check_1401_14 s).app = s.app := rfl

/-- `_check_1401_15` does not touch the application. -/
theorem check_1401_15_app (s : AssessorState) : (check_1401_15 s).app = s.app := rfl

/-- C9: running the full Pillar 1 assessment leaves the application — every
field, including all its `ClassEntry` records — unchanged; every check of
the translation returns the application it was given and only extends the
findings list. -/
theorem C9_assessment_preserves_application (s : AssessorState) :
    ((run_full_assessment_1401 s).1).app = s.app := by
  show (check_1401_15 (check_1401_14 (check_1401_13 (check_1401_12 (check_1401_11
    (check_1401_10 (check_1401_09 (check_1401_08 (check_1401_07 (check_1401_06
      (check_1401_05 (check_1401_04 (check_1401_03 (check_1401_02
        (check_1401_01 { app := s.app, findings := [] }))))))))))))))).app = s.app
  rw [check_1401_15_app, check_1401_14_app, check_1401_13_app, check_1401_12_app,
    check_1401_11_app, check_1401_10_app, check_1401_09_app, check_1401_08_app,
    check_1401_07_app, check_1401_06_app, check_1401_05_app, check_1401_04_app,
    check_1401_03_app, check_1401_02_app, check_1401_01_app]

/-! ### Claim C3 -/

/-- C3: the Pillar 2 result's `is_definite` flag is exactly "no ERROR among
the 8 subsection findings"; WARNING findings play no role in it. -/
theorem C3_is_definite_iff_no_errors (text : String) (p1 : Option Pillar1ClassContext) :
    (evaluate text p1).is_definite =
      (((evaluate text p1).subsection_findings.countP
        (fun f => f.severity == "ERROR")) == 0) ∧
    (evaluate text p1).subsection_findings.length = 8 :=
  ⟨rfl, rfl⟩

/-! ### Claim C10 -/

/-- C10: every Pillar 3 result built by `run_full_assessment` counts its
ERROR findings in `total_errors`, its WARNING findings in `total_warnings`,
and is compliant exactly when `total_errors = 0` (WARNING/INFO/OK findings
never block compliance). -/
theorem C10_result_counts (s : Pillar3State) :
    ((run_full_assessment_1403 s).2).total_errors =
      ((run_full_assessment_1403 s).2).findings.countP (fun f => f.severity == "ERROR") ∧
    ((run_full_assessment_1403 s).2).total_warnings =
      ((run_full_assessment_1403 s).2).findings.countP (fun f => f.severity == "WARNING") ∧
    (((run_full_assessment_1403 s).2).is_multi_class_compliant = true ↔
      ((run_full_assessment_1403 s).2).total_errors = 0) := by
  by_cases h : ((s.classes.map (·.class_number)).eraseDups).length < 2
  · unfold run_full_assessment_1403
    rw [if_pos h]
    refine ⟨rfl, rfl, ?_⟩
    simp [build_result]
  · unfold run_full_assessment_1403
    rw [if_neg h]
    refine ⟨rfl, rfl, ?_⟩
    simp [build_result]

/-! ### Claim C4 -/

/-- C4: with fewer than 2 distinct class numbers among the `ClassSummary`
records (single class or empty list), Pillar 3's `run_full_assessment`
returns exactly one finding, an INFO, with empty division and partial
refusal lists — regardless of every other field value. -/
theorem C4_single_class_short_circuit (classes : List ClassSummary)
    (ctx : MultiClassApplicationContext) (fs : List Pillar3Finding)
    (h : ((classes.map (·.class_number)).eraseDups).length < 2) :
    ((run_full_assessment_1403 { classes := classes, ctx := ctx, findings := fs }).2).findings
      = [mk1403_single_class] ∧
    mk1403_single_class.severity = "INFO" ∧
    ((run_full_assessment_1403 { classes := classes, ctx := ctx, findings := fs
      }).2).division_eligible_classes = [] ∧
    ((run_full_assessment_1403 { classes := classes, ctx := ctx, findings := fs
      }).2).partial_refusal_classes = [] := by
  unfold run_full_assessment_1403
  rw [if_pos h]
  exact ⟨rfl, rfl, rfl, rfl⟩

/-- Witness for C4 at the empty class list and a default context. -/
theorem C4_witness :
    ((run_full_assessment_1403 { classes := [], ctx := {}, findings := [] }).2).findings
      = [mk1403_single_class] ∧
    mk1403_single_class.severity = "INFO" ∧
    ((run_full_assessment_1403 { classes := [], ctx := {}, findings := []
      }).2).division_eligible_classes = [] ∧
    ((run_full_assessment_1403 { classes := [], ctx := {}, findings := []
      }).2).partial_refusal_classes = [] :=
  C4_single_class_short_circuit [] {} [] (by decide)

end TMEP

namespace TMEP

/-! ### Claim C1 — the keyword matcher matches its specification -/

/-- One step of the source's score accumulation adds exactly the points the
specification assigns to that keyword. -/
theorem score_step_eq (q kw : String) (sc : Nat) :
    (if q == kw then sc + 10
     else if strIn q kw || strIn kw q then sc + 5
     else if (pySplitWs q).any (fun w => strIn w kw) then sc + 2
     else sc) = sc + specKeywordPoints q kw := by
  unfold specKeywordPoints
  split_ifs <;> omega

/-- The source's accumulating fold over a keyword list computes the sum of
the specification's per-keyword points. -/
theorem score_foldl_eq (q : String) (kws : List String) (sc : Nat) :
    kws.foldl
      (fun sc kw =>
        if q == kw then sc + 10
        else if strIn q kw || strIn kw q then sc + 5
        else if (pySplitWs q).any (fun w => strIn w kw) then sc + 2
        else sc) sc
      = sc + (kws.map (specKeywordPoints q)).sum := by
  induction kws generalizing sc with
  | nil => simp
  | cons k ks ih =>
    rw [List.foldl_cons, score_step_eq, ih, List.map_cons, List.sum_cons]
    omega

/-- The source's append-only fold over the class table builds the same list
as the specification's `filterMap`. -/
theorem suggest_foldl_eq (q : String) (l : List (Int × ClassInfo)) (acc : List Suggestion) :
    l.foldl
      (fun acc p =>
        let score := p.2.keywords.foldl
          (fun sc kw =>
            if q == kw then sc + 10
            else if strIn q kw || strIn kw q then sc + 5
            else if (pySplitWs q).any (fun w => strIn w kw) then sc + 2
            else sc) 0
        if 0 < score then acc ++ [⟨p.1, p.2.title, score⟩] else acc) acc
      = acc ++ l.filterMap (fun p =>
          let s := specClassScore q p.2
          if 0 < s then some ⟨p.1, p.2.title, s⟩ else none) := by
  induction l generalizing acc with
  | nil => simp
  | cons p ps ih =>
    rw [List.foldl_cons, List.filterMap_cons]
    have hscore : p.2.keywords.foldl
        (fun sc kw =>
          if q == kw then sc + 10
          else if strIn q kw || strIn kw q then sc + 5
          else if (pySplitWs q).any (fun w => strIn w kw) then sc + 2
          else sc) 0 = specClassScore q p.2 := by
      rw [score_foldl_eq]
      simp [specClassScore]
    simp only [hscore]
    by_cases h : 0 < specClassScore q p.2
    · rw [if_pos h, if_pos h, ih, List.append_assoc]
      rfl
    · rw [if_neg h, if_neg h, ih]

/-- C1: `suggest_class_for_keyword` computes exactly what the specification
sentence describes: per-class scores accumulated over the full keyword list
through the 10/5/2 ladder, positive-score classes kept in dict iteration
order, stably sorted descending by score, truncated to the top 5. -/
theorem C1_suggest_matches_spec (term : String) :
    suggest_class_for_keyword term = specSuggest term := by
  simp only [suggest_class_for_keyword, specSuggest]
  rw [suggest_foldl_eq, List.nil_append]

end TMEP

namespace TMEP

/-! ### Claim C5 — §1401.02 valid class numbers -/

/-- The §1401.02 per-class ERROR carries severity `ERROR`. -/
theorem mk1401_02_error_severity (n : Int) : (mk1401_02_error n).severity = "ERROR" := rfl

/-- The §1401.02 OK carries severity `OK` and applies to the whole
application. -/
theorem mk1401_02_ok_fields (u : List Int) :
    (mk1401_02_ok u).severity = "OK" ∧ (mk1401_02_ok u).class_number = 0 := ⟨rfl, rfl⟩

/-- Membership in `VALID_CLASS_NUMBERS` is exactly the range 1–45. -/
theorem valid_class_iff (n : Int) :
    VALID_CLASS_NUMBERS.contains n = true ↔ 1 ≤ n ∧ n ≤ 45 := by
  rw [List.contains_iff_exists_mem_beq]
  constructor
  · rintro ⟨a, ha, hb⟩
    have hna : n = a := eq_of_beq hb
    subst hna
    unfold VALID_CLASS_NUMBERS at ha
    rcases List.mem_map.mp ha with ⟨j, hj, hv⟩
    rw [List.mem_range] at hj
    omega
  · rintro ⟨h1, h2⟩
    refine ⟨n, ?_, by simp⟩
    unfold VALID_CLASS_NUMBERS
    exact List.mem_map.mpr ⟨n.toNat - 1, List.mem_range.mpr (by omega), by omega⟩

/-- Characterization of the §1401.02 fold: it collects the invalid class
numbers and appends one ERROR finding per invalid entry, in order. -/
theorem c02_fold_eq (l : List ClassEntry) (inv : List Int) (fs : List AssessmentFinding) :
    l.foldl
      (fun (acc : List Int × List AssessmentFinding) cls_entry =>
        if VALID_CLASS_NUMBERS.contains cls_entry.class_number then acc
        else (acc.1 ++ [cls_entry.class_number],
              acc.2 ++ [mk1401_02_error cls_entry.class_number]))
      (inv, fs)
    = (inv ++ (l.filter
          (fun e => !(VALID_CLASS_NUMBERS.contains e.class_number))).map (·.class_number),
       fs ++ (l.filter
          (fun e => !(VALID_CLASS_NUMBERS.contains e.class_number))).map
            (fun e => mk1401_02_error e.class_number)) := by
  induction l generalizing inv fs with
  | nil => simp
  | cons e es ih =>
    by_cases hc : VALID_CLASS_NUMBERS.contains e.class_number = true
    · rw [List.foldl_cons, if_pos hc, ih,
        List.filter_cons_of_neg (by simp only [hc]; decide)]
    · have hc' : VALID_CLASS_NUMBERS.contains e.class_number = false :=
        Bool.not_eq_true _ ▸ (Bool.eq_false_iff.mpr hc)
      rw [List.foldl_cons, if_neg hc, ih,
        List.filter_cons_of_pos (by simp only [hc']; decide)]
      simp [List.append_assoc]

/-- The invalid entries of an application. -/
def invalidEntries (app : TrademarkApplication) : List ClassEntry :=
  app.classes.filter (fun e => !(VALID_CLASS_NUMBERS.contains e.class_number))

/-- `check02Findings` in closed form. -/
theorem check02Findings_eq (app : TrademarkApplication) :
    check02Findings app =
      if (invalidEntries app).isEmpty then
        ((invalidEntries app).map (fun e => mk1401_02_error e.class_number)) ++
          [mk1401_02_ok (app.classes.map (·.class_number))]
      else (invalidEntries app).map (fun e => mk1401_02_error e.class_number) := by
  unfold check02Findings check_1401_02 invalidEntries
  rw [c02_fold_eq]
  simp only [List.nil_append]
  by_cases hb :
      (app.classes.filter (fun e => !(VALID_CLASS_NUMBERS.contains e.class_number))).isEmpty
  · rw [if_pos (by simpa using hb), if_pos hb]
  · rw [if_neg (by simpa using hb), if_neg hb]

/-- Filtering a mapped list by a predicate that holds at every image leaves
it unchanged. -/
theorem filter_map_of_all {α β : Type} (f : α → β) (p : β → Bool) (l : List α)
    (h : ∀ a ∈ l, p (f a) = true) : (l.map f).filter p = l.map f := by
  induction l with
  | nil => rfl
  | cons a as ih =>
    rw [List.map_cons, List.filter_cons_of_pos (h a (List.mem_cons_self a as)),
      ih (fun b hb => h b (List.mem_cons_of_mem a hb))]

/-- C5: one §1401.02 ERROR per class entry whose number is outside 1–45 (and
no others); an OK never names such a class (every OK is application-level);
the single OK listing the classes used appears exactly when all entries'
numbers are within 1–45. -/
theorem C5_invalid_class_findings (app : TrademarkApplication) :
    ((check02Findings app).filter (fun f => f.severity == "ERROR")
      = (app.classes.filter (fun e => !(1 ≤ e.class_number ∧ e.class_number ≤ 45))).map
          (fun e => mk1401_02_error e.class_number)) ∧
    ((∃ f ∈ check02Findings app, f.severity = "OK") ↔
      ∀ e ∈ app.classes, 1 ≤ e.class_number ∧ e.class_number ≤ 45) ∧
    (∀ f ∈ check02Findings app, f.severity = "OK" → f.class_number = 0) := by
  have hpred : ∀ e : ClassEntry,
      (!(VALID_CLASS_NUMBERS.contains e.class_number))
        = !(decide (1 ≤ e.class_number ∧ e.class_number ≤ 45)) := by
    intro e
    by_cases h : 1 ≤ e.class_number ∧ e.class_number ≤ 45
    · rw [(valid_class_iff e.class_number).mpr h, decide_eq_true h]
    · cases hcb : VALID_CLASS_NUMBERS.contains e.class_number with
      | true => exact absurd ((valid_class_iff e.class_number).mp hcb) h
      | false => rw [decide_eq_false h]
  have hinv : invalidEntries app
      = app.classes.filter (fun e => !(decide (1 ≤ e.class_number ∧ e.class_number ≤ 45))) := by
    unfold invalidEntries
    exact List.filter_congr (fun e _ => hpred e)
  rw [check02Findings_eq]
  by_cases hb : (invalidEntries app).isEmpty
  · have hnil : invalidEntries app = [] := by simpa [List.isEmpty_iff] using hb
    rw [if_pos hb, hnil]
    refine ⟨?_, ?_, ?_⟩
    · rw [← hinv, hnil]
      simp [mk1401_02_ok]
    · constructor
      · intro _ e he
        by_contra hcon
        have hmem : e ∈ invalidEntries app := by
          rw [hinv]
          refine List.mem_filter.mpr ⟨he, ?_⟩
          rw [decide_eq_false hcon]
          rfl
        rw [hnil] at hmem
        exact absurd hmem (List.not_mem_nil e)
      · intro _
        exact ⟨mk1401_02_ok (app.classes.map (·.class_number)), by simp, rfl⟩
    · intro f hf _
      simp only [List.map_nil, List.nil_append, List.mem_singleton] at hf
      rw [hf]
      rfl
  · have hne : invalidEntries app ≠ [] := by simpa [List.isEmpty_iff] using hb
    rw [if_neg hb]
    refine ⟨?_, ?_, ?_⟩
    · rw [← hinv]
      exact filter_map_of_all _ _ _ (fun e _ => by rw [mk1401_02_error_severity]; rfl)
    · constructor
      · rintro ⟨f, hf, hsev⟩
        obtain ⟨e, _, rfl⟩ := List.mem_map.mp hf
        rw [mk1401_02_error_severity] at hsev
        exact absurd hsev (by decide)
      · intro hall
        exfalso
        obtain ⟨e, he⟩ := List.exists_mem_of_ne_nil _ hne
        unfold invalidEntries at he
        obtain ⟨he1, he2⟩ := List.mem_filter.mp he
        rw [(valid_class_iff e.class_number).mpr (hall e he1)] at he2
        exact absurd he2 (by decide)
    · intro f hf hsev
      obtain ⟨e, _, rfl⟩ := List.mem_map.mp hf
      rw [mk1401_02_error_severity] at hsev
      exact absurd hsev (by decide)

/-- Witness for C5: an application with one valid (9) and one invalid (99)
class entry. -/
theorem C5_witness :
    (((check02Findings { classes := [{ class_number := 9, identification := "x" },
        { class_number := 99, identification := "y" }] }).filter
          (fun f => f.severity == "ERROR"))
      = (({ classes := [{ class_number := 9, identification := "x" },
            { class_number := 99, identification := "y" }] :
          TrademarkApplication }).classes.filter
            (fun e => !(1 ≤ e.class_number ∧ e.class_number ≤ 45))).map
          (fun e => mk1401_02_error e.class_number)) ∧
    ((∃ f ∈ check02Findings { classes := [{ class_number := 9, identification := "x" },
        { class_number := 99, identification := "y" }] }, f.severity = "OK") ↔
      ∀ e ∈ ({ classes := [{ class_number := 9, identification := "x" },
            { class_number := 99, identification := "y" }] :
          TrademarkApplication }).classes, 1 ≤ e.class_number ∧ e.class_number ≤ 45) ∧
    (∀ f ∈ check02Findings { classes := [{ class_number := 9, identification := "x" },
        { class_number := 99, identification := "y" }] },
      f.severity = "OK" → f.class_number = 0) :=
  C5_invalid_class_findings
    { classes := [{ class_number := 9, identification := "x" },
        { class_number := 99, identification := "y" }] }

end TMEP

namespace TMEP

/-! ### Claim C2 — §1401.04 fee count check (corrected) -/

/-- Elements of the accumulator stay in an append-only fold. -/
theorem mem_foldl_append {α β : Type} (g : List α → β → List α)
    (hg : ∀ acc x, ∃ t, g acc x = acc ++ t) (l : List β) (acc : List α) (a : α)
    (ha : a ∈ acc) : a ∈ l.foldl g acc := by
  obtain ⟨t, ht⟩ := foldl_extends g hg l acc
  rw [ht]
  exact List.mem_append_left _ ha

/-- The fee-count comparison finding is always among the findings that
`_check_1401_04` emits. -/
theorem count_finding_mem_check04 (app : TrademarkApplication) :
    count_finding_1401_04 app ∈ check04Findings app := by
  unfold check04Findings check_1401_04
  apply mem_foldl_append
  · intro acc x
    by_cases hp : (!x.fee_paid) = true
    · rw [if_pos hp]
      exact ⟨_, rfl⟩
    · rw [if_neg hp]
      exact ⟨[], (List.append_nil acc).symm⟩
  · exact List.mem_append_right _ (List.mem_singleton_self _)

/-- When `fees_paid_count ≠ 0` and it equals the distinct-class count,
the comparison finding is the OK one. -/
theorem count_finding_eq_ok (app : TrademarkApplication)
    (h0 : (app.fees_paid_count == 0) = false)
    (h1 : ¬ (app.fees_paid_count
      < ((pySortedSet (app.classes.map (·.class_number))).length : Int)))
    (h2 : ¬ (((pySortedSet (app.classes.map (·.class_number))).length : Int)
      < app.fees_paid_count)) :
    count_finding_1401_04 app = mk1401_04_ok app.fees_paid_count
      (pySortedSet (app.classes.map (·.class_number))).length
      (pySortedSet (app.classes.map (·.class_number))) app.filing_type
      (dictGetD USPTO_FEES app.filing_type (dictGetD USPTO_FEES "TEAS_STANDARD" 0)) := by
  simp only [count_finding_1401_04, h0, Bool.false_eq_true, if_false]
  rw [if_neg h1, if_neg h2]

/-- When `fees_paid_count ≠ 0` and it is below the distinct-class count,
the comparison finding is the underpayment ERROR. -/
theorem count_finding_eq_shortage (app : TrademarkApplication)
    (h0 : (app.fees_paid_count == 0) = false)
    (hlt : app.fees_paid_count
      < ((pySortedSet (app.classes.map (·.class_number))).length : Int)) :
    count_finding_1401_04 app = mk1401_04_shortage app.fees_paid_count
      (pySortedSet (app.classes.map (·.class_number))).length
      (pySortedSet (app.classes.map (·.class_number))) app.filing_type
      (dictGetD USPTO_FEES app.filing_type (dictGetD USPTO_FEES "TEAS_STANDARD" 0)) := by
  simp only [count_finding_1401_04, h0, Bool.false_eq_true, if_false]
  rw [if_pos hlt]

/-- When `fees_paid_count ≠ 0` and it exceeds the distinct-class count,
the comparison finding is the overpayment WARNING. -/
theorem count_finding_eq_excess (app : TrademarkApplication)
    (h0 : (app.fees_paid_count == 0) = false)
    (h1 : ¬ (app.fees_paid_count
      < ((pySortedSet (app.classes.map (·.class_number))).length : Int)))
    (hgt : ((pySortedSet (app.classes.map (·.class_number))).length : Int)
      < app.fees_paid_count) :
    count_finding_1401_04 app = mk1401_04_excess app.fees_paid_count
      (pySortedSet (app.classes.map (·.class_number))).length
      (dictGetD USPTO_FEES app.filing_type (dictGetD USPTO_FEES "TEAS_STANDARD" 0)) := by
  simp only [count_finding_1401_04, h0, Bool.false_eq_true, if_false]
  rw [if_neg h1, if_pos hgt]

/-- C2 (amended): provided `fees_paid_count` is nonzero, the §1401.04 check
emits the application-level OK when the count equals the number of distinct
classes, the UNDERPAYMENT ERROR (with `shortage = distinct − paid` classes
still owing) when it is smaller, and the OVERPAYMENT WARNING (with
`excess = paid − distinct`) when it is larger.  (When `fees_paid_count`
is 0 the source emits a "Fee Count Not Specified" INFO before any
comparison — see the counterexample.) -/
theorem C2_fee_check_amended (app : TrademarkApplication)
    (h : app.fees_paid_count ≠ 0) :
    (app.fees_paid_count = ((pySortedSet (app.classes.map (·.class_number))).length : Int) →
      mk1401_04_ok app.fees_paid_count
        (pySortedSet (app.classes.map (·.class_number))).length
        (pySortedSet (app.classes.map (·.class_number))) app.filing_type
        (dictGetD USPTO_FEES app.filing_type (dictGetD USPTO_FEES "TEAS_STANDARD" 0))
        ∈ check04Findings app) ∧
    (app.fees_paid_count < ((pySortedSet (app.classes.map (·.class_number))).length : Int) →
      mk1401_04_shortage app.fees_paid_count
        (pySortedSet (app.classes.map (·.class_number))).length
        (pySortedSet (app.classes.map (·.class_number))) app.filing_type
        (dictGetD USPTO_FEES app.filing_type (dictGetD USPTO_FEES "TEAS_STANDARD" 0))
        ∈ check04Findings app) ∧
    (((pySortedSet (app.classes.map (·.class_number))).length : Int) < app.fees_paid_count →
      mk1401_04_excess app.fees_paid_count
        (pySortedSet (app.classes.map (·.class_number))).length
        (dictGetD USPTO_FEES app.filing_type (dictGetD USPTO_FEES "TEAS_STANDARD" 0))
        ∈ check04Findings app) := by
  have hbeq : (app.fees_paid_count == 0) = false := by simpa using h
  have hmem := count_finding_mem_check04 app
  refine ⟨?_, ?_, ?_⟩
  · intro heq
    rw [← count_finding_eq_ok app hbeq (by omega) (by omega)]
    exact hmem
  · intro hlt
    rw [← count_finding_eq_shortage app hbeq hlt]
    exact hmem
  · intro hgt
    rw [← count_finding_eq_excess app hbeq (by omega) hgt]
    exact hmem

/-- Concrete application for the C2 witness: one class, one fee paid. -/
def appC2w : TrademarkApplication :=
  { classes := [{ class_number := 9, identification := "x" }], fees_paid_count := 1 }

/-- Witness for C2 at an application with one class and one paid fee. -/
theorem C2_fee_check_witness :
    mk1401_04_ok 1 1 [9] "TEAS_PLUS" 250 ∈ check04Findings appC2w :=
  (C2_fee_check_amended appC2w (by decide)).1 (by decide)

/-- Concrete application for the C2 counterexample: one class, zero fees. -/
def appC2c : TrademarkApplication :=
  { classes := [{ class_number := 9, identification := "x" }], fees_paid_count := 0 }

/-- Counterexample to C2 as stated: with `fees_paid_count = 0` and one
class claimed, the fee count is short of the distinct-class count, yet
the §1401.04 check emits no "fee" ERROR at all — it emits the
"Fee Count Not Specified" INFO instead. -/
theorem C2_fee_check_counterexample :
    appC2c.fees_paid_count
        < ((pySortedSet (appC2c.classes.map (·.class_number))).length : Int) ∧
    (∀ f ∈ check04Findings appC2c, f.severity ≠ "ERROR") ∧
    (∃ f ∈ check04Findings appC2c, f.severity = "INFO") := by
  refine ⟨by decide, by decide, by decide⟩

end TMEP

namespace TMEP

/-! ### Claim C7 — parse-failure handling in Pillar 1 (corrected) -/

/-- A fold whose step never changes the accumulator is the identity. -/
theorem foldl_fixed {α β : Type} (g : α → β → α) (hg : ∀ a x, g a x = a) :
    ∀ (l : List β) (a : α), l.foldl g a = a := by
  intro l
  induction l with
  | nil => intro a; rfl
  | cons x xs ih =>
    intro a
    rw [List.foldl_cons, hg]
    exact ih a

/-- Anything in the result of a fold is in the start accumulator or
satisfies a property preserved by every step. -/
theorem mem_foldl_pred {α β : Type} (P : α → Prop) (g : List α → β → List α)
    (hg : ∀ acc x a, a ∈ g acc x → a ∈ acc ∨ P a) :
    ∀ (l : List β) (acc : List α) (a : α), a ∈ l.foldl g acc → a ∈ acc ∨ P a := by
  intro l
  induction l with
  | nil =>
    intro acc a ha
    exact Or.inl ha
  | cons x xs ih =>
    intro acc a ha
    rw [List.foldl_cons] at ha
    rcases ih (g acc x) a ha with h1 | h2
    · exact hg acc x a h1
    · exact Or.inr h2

/-- When the edition is recognized, the filing date nonempty and
unparsable, `_check_1401_09` emits exactly the parse-failure INFO. -/
theorem emit_1401_09_parsefail_eq (app : TrademarkApplication)
    (hed : (dictFind NICE_EDITION_TIMELINE app.nice_edition_claimed).isSome = true)
    (hne : app.filing_date ≠ "")
    (hp : pyParseDate app.filing_date = none) :
    emit_1401_09 app = [mk1401_09_parsefail] := by
  obtain ⟨info, hinfo⟩ := Option.isSome_iff_exists.mp hed
  simp only [emit_1401_09, hinfo]
  rw [if_pos hne, hp]

/-- When the filing date fails to parse, one inner iteration of
`_check_1401_10` appends nothing (the `except ValueError: pass`). -/
theorem step_1401_10_of_parsefail (app : TrademarkApplication) (cls : ClassEntry)
    (hp : pyParseDate app.filing_date = none) :
    ∀ (acc : List AssessmentFinding) (t : RecentTerm),
      step_1401_10 app cls acc t = acc := by
  intro acc t
  simp only [step_1401_10]
  by_cases h1 : strIn t.term (pyLower cls.identification) = true
  · rw [if_pos h1]
    by_cases h2 : app.filing_date ≠ ""
    · rw [if_pos h2, hp]
    · rw [if_neg h2]
  · rw [if_neg h1]

/-- When the filing date fails to parse, `_check_1401_10` emits only its
unconditional general INFO notice — no parse-failure finding. -/
theorem emit_1401_10_of_parsefail (app : TrademarkApplication)
    (hp : pyParseDate app.filing_date = none) :
    emit_1401_10 app = [mk1401_10_general] := by
  simp only [emit_1401_10]
  rw [foldl_fixed (class_step_1401_10 app)
    (fun fs cls => foldl_fixed (step_1401_10 app cls)
      (step_1401_10_of_parsefail app cls hp) recently_added_terms_1401_10 fs)
    app.classes []]
  rfl

/-- One inner iteration of the Class-42 misplacement loop of
`_check_1401_11` only ever appends ERROR findings. -/
theorem misplacement_step_mem (cls : ClassEntry) (acc : List AssessmentFinding)
    (p : String × (Int × String)) (a : AssessmentFinding)
    (ha : a ∈ misplacement_step_1401_11 cls acc p) :
    a ∈ acc ∨ a.severity = "ERROR" := by
  simp only [misplacement_step_1401_11] at ha
  by_cases h1 : strIn p.1 (pyLower cls.identification) = true
  · rw [if_pos h1] at ha
    rcases List.mem_append.mp ha with h | h
    · exact Or.inl h
    · right
      rw [List.mem_singleton.mp h]
  · rw [if_neg h1] at ha
    exact Or.inl ha

/-- One outer iteration of the class loop of `_check_1401_11` only ever
appends ERROR findings. -/
theorem class_step_1401_11_mem (fs : List AssessmentFinding) (cls : ClassEntry)
    (a : AssessmentFinding) (ha : a ∈ class_step_1401_11 fs cls) :
    a ∈ fs ∨ a.severity = "ERROR" := by
  simp only [class_step_1401_11] at ha
  by_cases h1 : (cls.class_number != 42) = true
  · rw [if_pos h1] at ha
    exact Or.inl ha
  · rw [if_neg h1] at ha
    exact mem_foldl_pred (fun a => a.severity = "ERROR")
      (misplacement_step_1401_11 cls)
      (fun acc x a h => misplacement_step_mem cls acc x a h)
      old_class_42_misplacements_1401_11 fs a ha

/-- When the filing date is nonempty but fails to parse, `_check_1401_11`
emits only Class-42 misplacement ERRORs: its `except ValueError: pass`
produces no parse-failure finding. -/
theorem emit_1401_11_of_parsefail (app : TrademarkApplication)
    (hne : app.filing_date ≠ "")
    (hp : pyParseDate app.filing_date = none) :
    ∀ f ∈ emit_1401_11 app, f.severity = "ERROR" := by
  intro f hf
  simp only [emit_1401_11] at hf
  rw [if_pos hne] at hf
  simp only [hp] at hf
  rcases mem_foldl_pred (fun a => a.severity = "ERROR") class_step_1401_11
      (fun acc x a h => class_step_1401_11_mem acc x a h)
      app.classes [] f hf with h | h
  · exact absurd h (List.not_mem_nil f)
  · exact h

/-- The general INFO notice of `_check_1401_12` is always emitted. -/
theorem mk12_mem_emit12 (app : TrademarkApplication) :
    mk1401_12_general ∈ emit_1401_12 app := by
  simp only [emit_1401_12]
  exact List.mem_append_right _ (List.mem_singleton_self _)

/-- The general INFO notice of `_check_1401_15` is always emitted. -/
theorem mk15_mem_emit15 (app : TrademarkApplication) :
    mk1401_15_general ∈ emit_1401_15 app := by
  simp only [emit_1401_15]
  exact List.mem_append_right _ (List.mem_singleton_self _)

end TMEP

namespace TMEP

/-- The state's findings after the first eight Pillar 1 checks. -/
def findingsAfter08 (app : TrademarkApplication) : List AssessmentFinding :=
  (check_1401_08 (check_1401_07 (check_1401_06 (check_1401_05 (check_1401_04
    (check_1401_03 (check_1401_02 (check_1401_01
      { app := app, findings := [] })))))))).findings

/-- `_check_1401_09` only appends its emitted findings. -/
theorem check_1401_09_findings (s : AssessorState) :
    (check_1401_09 s).findings = s.findings ++ emit_1401_09 s.app := rfl

/-- `_check_1401_10` only appends its emitted findings. -/
theorem check_1401_10_findings (s : AssessorState) :
    (check_1401_10 s).findings = s.findings ++ emit_1401_10 s.app := rfl

/-- `_check_1401_11` only appends its emitted findings. -/
theorem check_1401_11_findings (s : AssessorState) :
    (check_1401_11 s).findings = s.findings ++ emit_1401_11 s.app := rfl

/-- `_check_1401_12` only appends its emitted findings. -/
theorem check_1401_12_findings (s : AssessorState) :
    (check_1401_12 s).findings = s.findings ++ emit_1401_12 s.app := rfl

/-- `_check_1401_13` only appends its emitted findings. -/
theorem check_1401_13_findings (s : AssessorState) :
    (check_1401_13 s).findings = s.findings ++ emit_1401_13 s.app := rfl

/-- `_check_1401_14` only appends its emitted findings. -/
theorem check_1401_14_findings (s : AssessorState) :
    (check_1401_14 s).findings = s.findings ++ emit_1401_14 s.app := rfl

/-- `_check_1401_15` only appends its emitted findings. -/
theorem check_1401_15_findings (s : AssessorState) :
    (check_1401_15 s).findings = s.findings ++ emit_1401_15 s.app := rfl

/-- A full Pillar 1 run's findings decompose as the findings of checks
01–08 followed by the emissions of checks 09–15 in order. -/
theorem pillar1Findings_decomp (app : TrademarkApplication) :
    pillar1Findings app =
      findingsAfter08 app ++ emit_1401_09 app ++ emit_1401_10 app ++ emit_1401_11 app ++
        emit_1401_12 app ++ emit_1401_13 app ++ emit_1401_14 app ++ emit_1401_15 app := by
  have h : pillar1Findings app =
      (check_1401_15 (check_1401_14 (check_1401_13 (check_1401_12 (check_1401_11
        (check_1401_10 (check_1401_09 (check_1401_08 (check_1401_07 (check_1401_06
          (check_1401_05 (check_1401_04 (check_1401_03 (check_1401_02 (check_1401_01
            { app := app, findings := [] }))))))))))))))).findings := rfl
  rw [h, check_1401_15_findings, check_1401_14_findings, check_1401_13_findings,
    check_1401_12_findings, check_1401_11_findings, check_1401_10_findings,
    check_1401_09_findings]
  simp only [check_1401_01_app, check_1401_02_app, check_1401_03_app, check_1401_04_app,
    check_1401_05_app, check_1401_06_app, check_1401_07_app, check_1401_08_app,
    check_1401_09_app, check_1401_10_app, check_1401_11_app, check_1401_12_app,
    check_1401_13_app, check_1401_14_app]
  rfl

/-- C7 (amended): when the filing date is nonempty but not parseable as
`YYYY-MM-DD` and the claimed Nice edition is in the edition table, only
`_check_1401_09` reports the parse failure, as an INFO finding; checks
`_check_1401_10` and `_check_1401_11` swallow the `ValueError` silently
(check 10 emits only its unconditional general notice, check 11 only
Class-42 misplacement ERRORs), and the run never aborts: the later checks
still contribute their findings to the full assessment. -/
theorem C7_parse_failure_amended (app : TrademarkApplication)
    (hed : (dictFind NICE_EDITION_TIMELINE app.nice_edition_claimed).isSome = true)
    (hne : app.filing_date ≠ "")
    (hp : pyParseDate app.filing_date = none) :
    emit_1401_09 app = [mk1401_09_parsefail] ∧
    emit_1401_10 app = [mk1401_10_general] ∧
    (∀ f ∈ emit_1401_11 app, f.severity = "ERROR") ∧
    mk1401_09_parsefail ∈ pillar1Findings app ∧
    mk1401_12_general ∈ pillar1Findings app ∧
    mk1401_15_general ∈ pillar1Findings app := by
  have h09 := emit_1401_09_parsefail_eq app hed hne hp
  refine ⟨h09, emit_1401_10_of_parsefail app hp, emit_1401_11_of_parsefail app hne hp,
    ?_, ?_, ?_⟩
  · rw [pillar1Findings_decomp, h09]
    exact List.mem_append_left _ (List.mem_append_left _ (List.mem_append_left _
      (List.mem_append_left _ (List.mem_append_left _ (List.mem_append_left _
        (List.mem_append_right _ (List.mem_singleton_self _)))))))
  · rw [pillar1Findings_decomp]
    exact List.mem_append_left _ (List.mem_append_left _ (List.mem_append_left _
      (List.mem_append_right _ (mk12_mem_emit12 app))))
  · rw [pillar1Findings_decomp]
    exact List.mem_append_right _ (mk15_mem_emit15 app)

/-- Concrete application for the C7 witness: a recognized edition and an
unparsable filing date (month 13). -/
def appC7w : TrademarkApplication :=
  { filing_date := "2020-13-01" }

/-- Witness for C7 at an application with filing date `2020-13-01`. -/
theorem C7_parse_failure_witness :
    pyParseDate appC7w.filing_date = none ∧
    mk1401_09_parsefail ∈ pillar1Findings appC7w ∧
    mk1401_15_general ∈ pillar1Findings appC7w :=
  ⟨by decide,
   (C7_parse_failure_amended appC7w (by decide) (by decide) (by decide)).2.2.2.1,
   (C7_parse_failure_amended appC7w (by decide) (by decide) (by decide)).2.2.2.2.2⟩

/-- Concrete application for the C7 counterexample: unparsable filing
date and an identification containing a `recently_added_terms` keyword,
so `_check_1401_10` does attempt to parse the date. -/
def appC7c : TrademarkApplication :=
  { filing_date := "2020-13-01",
    classes := [{ class_number := 36, identification := "cryptocurrency exchange" }] }

set_option maxRecDepth 8192 in
/-- Counterexample to C7 as stated: the filing date fails to parse and
`_check_1401_10` hits its date comparison (the identification contains
"cryptocurrency"), yet check 10 emits only its unconditional general
notice, which does not mention any parse failure. -/
theorem C7_parse_failure_counterexample :
    pyParseDate appC7c.filing_date = none ∧
    appC7c.filing_date ≠ "" ∧
    appC7c.classes.map (fun c => strIn "cryptocurrency" (pyLower c.identification)) = [true] ∧
    emit_1401_10 appC7c = [mk1401_10_general] ∧
    strIn "parse" (pyLower mk1401_10_general.finding) = false ∧
    strIn "parse" (pyLower mk1401_10_general.item) = false := by
  refine ⟨by decide, by decide, by decide, by decide, by decide, by decide⟩

end TMEP

namespace TMEP

/-! ### Claim C6 — appending a severe vague term flips definiteness -/

/-- Every list of characters starts with itself. -/
theorem listStarts_self : ∀ l : List Char, listStarts l l = true := by
  intro l
  induction l with
  | nil => rfl
  | cons c cs ih => simp [listStarts, ih]

/-- String append on character lists. -/
theorem toList_append (s t : String) : (s ++ t).toList = s.toList ++ t.toList := rfl

/-- Lowercasing `text ++ " " ++ term` for an already-lowercase `term`. -/
theorem pyLower_append_term (text term : String)
    (hl : term.toList.map Char.toLower = term.toList) :
    (pyLower (text ++ " " ++ term)).toList
      = (text.toList.map Char.toLower ++ [' ']) ++ term.toList := by
  show ((text ++ " " ++ term).toList.map Char.toLower) = _
  rw [toList_append, toList_append, List.map_append, List.map_append, hl]
  rfl

/-- The vague-term pattern `\bterm(?:\b|\.|\s|$)` matches when `term` is
appended to any text after a space: the space is a word boundary on the
left and the end of the string closes the match on the right. -/
theorem searchVague_append_end (text term : String)
    (hl : term.toList.map Char.toLower = term.toList) :
    searchVague term (pyLower (text ++ " " ++ term)) = true := by
  have hs := pyLower_append_term text term hl
  simp only [searchVague]
  rw [List.any_eq_true]
  refine ⟨(text.toList.map Char.toLower ++ [' ']).length, ?_, ?_⟩
  · rw [List.mem_range, hs]
    simp only [List.length_append]
    omega
  · simp only [vagueHitAt]
    rw [hs]
    have h1 : listStarts term.toList
        (((text.toList.map Char.toLower ++ [' ']) ++ term.toList).drop
          (text.toList.map Char.toLower ++ [' ']).length) = true := by
      rw [List.drop_left]
      exact listStarts_self term.toList
    have h2 : (((text.toList.map Char.toLower ++ [' ']) ++ term.toList).getD
        ((text.toList.map Char.toLower ++ [' ']).length - 1) ' ') = ' ' := by
      rw [List.append_assoc]
      have hlen : (text.toList.map Char.toLower ++ [' ']).length - 1
          = (text.toList.map Char.toLower).length := by
        simp [List.length_append]
      rw [hlen, List.getD_append_right]
      · simp
      · exact le_refl _
    have h3 : vagueAfter (term.toList.getLastD ' ')
        ((text.toList.map Char.toLower ++ [' ']) ++ term.toList)
        ((text.toList.map Char.toLower ++ [' ']).length + term.toList.length) = true := by
      have hdrop : ((text.toList.map Char.toLower ++ [' ']) ++ term.toList).drop
          ((text.toList.map Char.toLower ++ [' ']).length + term.toList.length) = [] := by
        have he : (text.toList.map Char.toLower ++ [' ']).length + term.toList.length
            = ((text.toList.map Char.toLower ++ [' ']) ++ term.toList).length := by
          simp only [List.length_append, List.length_map, List.length_cons,
            List.length_nil]
        rw [he, List.drop_length]
      simp only [vagueAfter, hdrop]
    rw [Bool.and_eq_true, Bool.and_eq_true]
    refine ⟨⟨h1, ?_⟩, h3⟩
    rw [Bool.or_eq_true]
    right
    rw [h2]
    decide

/-- Once recorded, a term stays in `detect_vague_terms`'s accumulator. -/
theorem detectVagueGo_mono (text term : String) :
    ∀ (ts found : List String), term ∈ found → term ∈ detectVagueGo text ts found := by
  intro ts
  induction ts with
  | nil =>
    intro found h
    exact h
  | cons t ts ih =>
    intro found h
    simp only [detectVagueGo]
    by_cases h1 : (searchVague t (pyLower text) && !found.contains t) = true
    · rw [if_pos h1]
      by_cases h2 : (t == "services") = true
      · rw [if_pos h2]
        by_cases h3 : (!searchServicesQual (pyLower text)) = true
        · rw [if_pos h3]
          exact ih (found ++ [t]) (List.mem_append_left _ h)
        · rw [if_neg h3]
          exact ih found h
      · rw [if_neg h2]
        exact ih (found ++ [t]) (List.mem_append_left _ h)
    · rw [if_neg h1]
      exact ih found h

/-- A matching non-`services` term from the scan list ends up in
`detect_vague_terms`'s accumulator. -/
theorem detectVagueGo_mem_of_hit (text term : String)
    (hs : searchVague term (pyLower text) = true)
    (hns : (term == "services") = false) :
    ∀ (ts found : List String), term ∈ ts → term ∈ detectVagueGo text ts found := by
  intro ts
  induction ts with
  | nil =>
    intro found h
    exact absurd h (List.not_mem_nil term)
  | cons t ts ih =>
    intro found h
    simp only [detectVagueGo]
    rcases List.mem_cons.mp h with he | hm
    · subst he
      by_cases h1 : (searchVague term (pyLower text) && !found.contains term) = true
      · rw [if_pos h1]
        simp only [hns, Bool.false_eq_true, if_false]
        exact detectVagueGo_mono text term ts (found ++ [term])
          (List.mem_append_right _ (List.mem_singleton_self _))
      · have hc : found.contains term = true := by
          by_cases hc : found.contains term = true
          · exact hc
          · exfalso
            apply h1
            rw [hs]
            simp [Bool.not_eq_true] at hc
            simp [hc]
        obtain ⟨b, hb, hbeq⟩ := List.contains_iff_exists_mem_beq.mp hc
        have hteq : term = b := eq_of_beq hbeq
        rw [if_neg h1]
        exact detectVagueGo_mono text term ts found (by rw [hteq]; exact hb)
    · by_cases h1 : (searchVague t (pyLower text) && !found.contains t) = true
      · rw [if_pos h1]
        by_cases h2 : (t == "services") = true
        · rw [if_pos h2]
          by_cases h3 : (!searchServicesQual (pyLower text)) = true
          · rw [if_pos h3]
            exact ih _ hm
          · rw [if_neg h3]
            exact ih _ hm
        · rw [if_neg h2]
          exact ih _ hm
      · rw [if_neg h1]
        exact ih _ hm

/-- A matching non-`services` vague term is reported by
`detect_vague_terms`. -/
theorem detect_vague_contains (text term : String)
    (hvt : term ∈ VAGUE_TERMS)
    (hs : searchVague term (pyLower text) = true)
    (hns : (term == "services") = false) :
    term ∈ detect_vague_terms text :=
  detectVagueGo_mem_of_hit text term hs hns VAGUE_TERMS [] hvt

/-- `_check_1402_03` reports an ERROR as soon as one detected term is in
the severe subset. -/
theorem check_1402_03_severe_error (vf : List String) (t : String)
    (h1 : t ∈ vf) (h2 : severe_vague_terms.contains t = true) :
    (check_1402_03 vf).severity = "ERROR" := by
  have hmem : t ∈ vf.filter (fun x => severe_vague_terms.contains x) :=
    List.mem_filter.mpr ⟨h1, h2⟩
  rcases e : vf.filter (fun x => severe_vague_terms.contains x) with _ | ⟨a, l⟩
  · rw [e] at hmem
    exact absurd hmem (List.not_mem_nil t)
  · simp only [check_1402_03, e]

end TMEP

namespace TMEP

/-- C6: appending a severe vague term (one of `severe_vague_terms`) as a
separate word to an identification whose Pillar 2 evaluation was definite
yields an evaluation with `is_definite = false`: `_check_1402_03` detects
the term, classifies it as severely indefinite (ERROR), and `evaluate`
sets `is_definite` to "no ERROR findings". -/
theorem C6_severe_term_flips_definite (text term : String)
    (p1 : Option Pillar1ClassContext)
    (hterm : term ∈ severe_vague_terms)
    (_hdef : (evaluate text p1).is_definite = true) :
    (evaluate (text ++ " " ++ term) p1).is_definite = false := by
  have hfacts : term.toList.map Char.toLower = term.toList ∧
      term ∈ VAGUE_TERMS ∧ (term == "services") = false := by
    fin_cases hterm <;> exact ⟨by decide, by decide, by decide⟩
  obtain ⟨hl, hvt, hns⟩ := hfacts
  have hsv := searchVague_append_end text term hl
  have hdet := detect_vague_contains (text ++ " " ++ term) term hvt hsv hns
  have hsevc : severe_vague_terms.contains term = true :=
    List.contains_iff_exists_mem_beq.mpr ⟨term, hterm, by simp⟩
  have hsev : (check_1402_03 (detect_vague_terms (text ++ " " ++ term))).severity
      = "ERROR" :=
    check_1402_03_severe_error _ term hdet hsevc
  have hmem3 : check_1402_03 (detect_vague_terms (text ++ " " ++ term))
      ∈ (evaluate (text ++ " " ++ term) p1).subsection_findings :=
    List.mem_cons_of_mem _ (List.mem_cons_of_mem _ (List.mem_cons_self _ _))
  have hdef2 : (evaluate (text ++ " " ++ term) p1).is_definite
      = ((evaluate (text ++ " " ++ term) p1).subsection_findings.countP
          (fun f => f.severity == "ERROR") == 0) := rfl
  rw [hdef2, beq_eq_false_iff_ne]
  intro h0
  rw [List.countP_eq_zero] at h0
  exact (h0 _ hmem3) (by simp [hsev])

/-- Witness for C6: a definite identification becomes indefinite when
" miscellaneous" is appended. -/
theorem C6_severe_term_witness :
    "miscellaneous" ∈ severe_vague_terms ∧
    (evaluate "downloadable computer software for financial management"
      none).is_definite = true ∧
    (evaluate ("downloadable computer software for financial management"
      ++ " " ++ "miscellaneous") none).is_definite = false :=
  ⟨by decide, by decide,
   C6_severe_term_flips_definite
     "downloadable computer software for financial management" "miscellaneous" none
     (by decide) (by decide)⟩

end TMEP
